import Mathlib

/-!
# Views: `vtkRenderedGraphRepresentation` and `vtkRenderViewBase`

A shallow embedding of the state-changing methods of
`Views/vtkRenderedGraphRepresentation.cxx` and `Views/vtkRenderViewBase.cxx`.
Objects are records, pointers to toolkit objects are identifiers, a method is a
function from the state before the call to the state after it, and
`vtkErrorMacro` appends its message to an error log carried in the state.
-/

namespace VTK

/-! ## Run-time type information -/

/-- The value of a parameter of a strategy object: a `bool`, or a `double`
(kept as a rational number; the values are only stored and handed back). -/
inductive ParameterValue
  | flag (b : Bool)
  | number (x : ℚ)
  deriving DecidableEq

/-- A toolkit object as seen through `vtkTypeMacro`: its identity, the name
returned by `GetClassName()`, and the names of its superclasses (the chain that
`IsTypeOf` walks with `strcmp`); and the parameters given to it through its
setters since it was made (a parameter not listed has its class default). -/
structure vtkObject where
  id : Nat
  ClassName : String
  Superclasses : List String
  Parameters : List (String × ParameterValue) := []
  deriving DecidableEq

/-- A parameter setter `Set<name>(value)` of a strategy object (made by
`vtkSetMacro`): the parameter takes the value. -/
def vtkObject.SetParameter (o : vtkObject) (name : String) (value : ParameterValue) :
    vtkObject :=
  { o with Parameters := (name, value) :: o.Parameters.filter (fun p => p.1 != name) }

/-- The parameter getter `Get<name>()`: the value last set, `none` when the
parameter still has its class default. -/
def vtkObject.GetParameter (o : vtkObject) (name : String) : Option ParameterValue :=
  (o.Parameters.find? (fun p => p.1 == name)).map Prod.snd

/-- The virtual `GetClassName()`. -/
def vtkObject.GetClassName (o : vtkObject) : String := o.ClassName

/-- The virtual `IsA(type)`: the object's own class name or one of its
superclasses' names equals `type`. -/
def vtkObject.IsA (o : vtkObject) (type : String) : Bool :=
  o.ClassName == type || o.Superclasses.contains type

/-- The test made by `T::SafeDownCast(o)` for a non-null `o`: the cast gives a
non-null pointer exactly when `o->IsA("T")`. -/
def SafeDownCast (T : String) (o : vtkObject) : Bool := o.IsA T

/-- Modelled from the spec: the strategy class declarations
(`vtkRandomLayoutStrategy.h` and its siblings) are not part of the excerpt; each
vertex layout strategy class used here derives directly from
`vtkGraphLayoutStrategy`, which derives from `vtkObject`. This is the object
made by `vtkSmartPointer<cls>::New()` for such a class, with identity `id`. -/
def vtkGraphLayoutStrategy.New (cls : String) (id : Nat) : vtkObject :=
  { id := id, ClassName := cls,
    Superclasses := ["vtkGraphLayoutStrategy", "vtkObject", "vtkObjectBase"] }

/-- Modelled from the spec: the edge strategy class declarations are not part of
the excerpt; each edge layout strategy class used here derives directly from
`vtkEdgeLayoutStrategy`. The object made by `vtkSmartPointer<cls>::New()`. -/
def vtkEdgeLayoutStrategy.New (cls : String) (id : Nat) : vtkObject :=
  { id := id, ClassName := cls,
    Superclasses := ["vtkEdgeLayoutStrategy", "vtkObject", "vtkObjectBase"] }

/-! ## String normalisation used by the name-based setters -/

/-- The C library `tolower` in the "C" locale: only `A`..`Z` change. -/
def tolower (c : Char) : Char :=
  if 65 ≤ c.toNat ∧ c.toNat ≤ 90 then Char.ofNat (c.toNat + 32) else c

/-- The first three statements of both name-based setters:
`str = name; transform(str.begin(), str.end(), str.begin(), tolower);`
`str.erase(remove(str.begin(), str.end(), ' '), str.end());`. -/
def normalise (name : String) : String :=
  String.mk ((name.data.map tolower).filter (fun c => c != ' '))

/-! ## The internal pipeline of the graph representation -/

/-- The algorithm stages created by the constructor of
`vtkRenderedGraphRepresentation`. -/
inductive Stage
  | ApplyColors | VertexDegree | EdgeCenters | GraphToPoints
  | VertexLabels | EdgeLabels | VertexLabelPriority | EdgeLabelPriority
  | VertexIcons | EdgeIcons | VertexIconPriority | EdgeIconPriority
  | Layout | Coincident | EdgeLayout | GraphToPoly | EdgeMapper
  | VertexGlyph | VertexMapper | OutlineGlyph | OutlineMapper
  deriving DecidableEq

/-- The props a renderer can hold: the actors owned by the representation and
props that belong to others. -/
inductive vtkProp
  | EdgeActor | VertexActor | OutlineActor
  | VertexScalarBarActor | EdgeScalarBarActor
  | other (id : Nat)
  deriving DecidableEq

/-- What `GetInputConnection(0, 0)` of a stage can be: nothing, the output port
of a stage of this representation, the producer port that `SetInput(data)` makes
for the representation's `EmptyPolyData`, or the producer port of another data
object. -/
inductive Connection
  | none
  | OutputPort (s : Stage)
  | EmptyPolyData
  | DataObject (id : Nat)
  deriving DecidableEq

/-- The field associations of `vtkDataObject` that the representation names. -/
inductive FieldAssociation
  | VERTICES | EDGES
  deriving DecidableEq

/-- The state of a `vtkRenderedGraphRepresentation`. -/
structure vtkRenderedGraphRepresentation where
  /-- `stage->GetInputConnection(0, 0)` for every stage. -/
  InputConnection : Stage → Connection
  /-- `VertexActor->GetMapper()`. -/
  VertexActor_Mapper : Option Stage
  /-- `OutlineActor->GetMapper()`. -/
  OutlineActor_Mapper : Option Stage
  /-- `EdgeActor->GetMapper()`. -/
  EdgeActor_Mapper : Option Stage
  /-- `Layout->GetLayoutStrategy()`. -/
  Layout_LayoutStrategy : vtkObject
  /-- `EdgeLayout->GetLayoutStrategy()`. -/
  EdgeLayout_LayoutStrategy : vtkObject
  /-- The string member `LayoutStrategyName` (null is `none`). -/
  LayoutStrategyName : Option String
  /-- The string member `EdgeLayoutStrategyName` (null is `none`). -/
  EdgeLayoutStrategyName : Option String
  /-- `VertexGlyph->GetRenderer()`. -/
  VertexGlyph_Renderer : Option Nat
  /-- `OutlineGlyph->GetRenderer()`. -/
  OutlineGlyph_Renderer : Option Nat
  /-- `GetInput()`: the data object the representation displays, if any. -/
  Input : Option Nat
  /-- The string member `VertexColorArrayNameInternal` (null is `none`). -/
  VertexColorArrayNameInternal : Option String
  /-- The string member `EdgeColorArrayNameInternal` (null is `none`). -/
  EdgeColorArrayNameInternal : Option String
  /-- The arrays given to `ApplyColors->SetInputArrayToProcess(idx, 0, 0, ...)`,
  by `idx`: field association and array name. -/
  ApplyColors_InputArrayToProcess : Nat → Option (FieldAssociation × Option String)
  /-- `VertexIcons->GetPassArray()`. -/
  VertexIcons_PassArray : Bool
  /-- The value given to `VertexIcons->SetFillValue`, `none` while the
  representation has not set it. -/
  VertexIcons_FillValue : Option Int
  /-- The entries given to `VertexIcons->AddToMap` since the map was last
  cleared. -/
  VertexIcons_Map : List (String × Int)
  /-- `EdgeIcons->GetPassArray()`. -/
  EdgeIcons_PassArray : Bool
  /-- The value given to `EdgeIcons->SetFillValue`, `none` while the
  representation has not set it. -/
  EdgeIcons_FillValue : Option Int
  /-- The entries given to `EdgeIcons->AddToMap` since the map was last
  cleared. -/
  EdgeIcons_Map : List (String × Int)
  /-- `VertexGlyph->GetGlyphType()`. -/
  VertexGlyph_GlyphType : Int
  /-- `OutlineGlyph->GetGlyphType()`. -/
  OutlineGlyph_GlyphType : Int
  /-- `VertexGlyph->GetScaling()`. -/
  VertexGlyph_Scaling : Bool
  /-- `OutlineGlyph->GetScaling()`. -/
  OutlineGlyph_Scaling : Bool
  /-- The array given to `VertexGlyph->SetInputArrayToProcess(0, 0, 0, ...)`:
  field association and array name, `none` while the representation has not set
  it. -/
  VertexGlyph_InputArrayToProcess : Option (FieldAssociation × Option String)
  /-- The array given to `OutlineGlyph->SetInputArrayToProcess(0, 0, 0, ...)`. -/
  OutlineGlyph_InputArrayToProcess : Option (FieldAssociation × Option String)
  /-- The string member `ScalingArrayNameInternal` (null is `none`). -/
  ScalingArrayNameInternal : Option String
  /-- `OutlineActor->GetProperty()->GetFrontfaceCulling()`. -/
  OutlineActor_FrontfaceCulling : Bool
  /-- Messages reported through `vtkErrorMacro`, oldest first. -/
  errors : List String
  /-- Identity given to the next object made by a `New()`. -/
  nextId : Nat

/-- Modelled from the spec: the enumeration of glyph types is declared in
`vtkGraphToGlyphs.h`, which is not part of the excerpt; it starts with
`VERTEX = 1`. -/
def vtkGraphToGlyphs.VERTEX : Int := 1

/-- Modelled from the spec: the ninth and last glyph type of the enumeration in
`vtkGraphToGlyphs.h`. -/
def vtkGraphToGlyphs.SPHERE : Int := 9

namespace vtkRenderedGraphRepresentation

/-- The effect of `vtkErrorMacro(msg)`. -/
def reportError (self : vtkRenderedGraphRepresentation) (msg : String) :
    vtkRenderedGraphRepresentation :=
  { self with errors := self.errors ++ [msg] }

/-- The constructor. Identity `0` goes to the empty directed graph given to
`Layout`, `1` and `2` to the two strategy objects it creates; mapper,
text-property and theme parameters are not part of the state modelled here.
Both glyph stages get the type `VERTEX` and the outline actor front-face
culling; the constructor sets neither scaling flag, and
`ScalingArrayNameInternal` starts null. Modelled from the spec for the scaling
flags: the constructor of `vtkGraphToGlyphs` is not part of the excerpt; both
stages are made by the same `New()` and start with scaling off. -/
def New : vtkRenderedGraphRepresentation :=
  { InputConnection := fun st =>
      match st with
      | .Coincident => .OutputPort .Layout
      | .EdgeLayout => .OutputPort .Coincident
      | .VertexDegree => .OutputPort .EdgeLayout
      | .ApplyColors => .OutputPort .VertexDegree
      | .VertexGlyph => .OutputPort .ApplyColors
      | .VertexMapper => .OutputPort .VertexGlyph
      | .OutlineGlyph => .OutputPort .Coincident
      | .OutlineMapper => .OutputPort .OutlineGlyph
      | .GraphToPoly => .OutputPort .ApplyColors
      | .EdgeMapper => .OutputPort .GraphToPoly
      | .GraphToPoints => .OutputPort .VertexDegree
      | .EdgeCenters => .OutputPort .VertexDegree
      | .VertexLabels => .EmptyPolyData
      | .EdgeLabels => .EmptyPolyData
      | .VertexIcons => .EmptyPolyData
      | .EdgeIcons => .EmptyPolyData
      | .VertexLabelPriority => .OutputPort .VertexLabels
      | .EdgeLabelPriority => .OutputPort .EdgeLabels
      | .VertexIconPriority => .OutputPort .VertexIcons
      | .EdgeIconPriority => .OutputPort .EdgeIcons
      | .Layout => .DataObject 0
    VertexActor_Mapper := some .VertexMapper
    OutlineActor_Mapper := some .OutlineMapper
    EdgeActor_Mapper := some .EdgeMapper
    Layout_LayoutStrategy := vtkGraphLayoutStrategy.New "vtkFast2DLayoutStrategy" 1
    EdgeLayout_LayoutStrategy := vtkEdgeLayoutStrategy.New "vtkArcParallelEdgeStrategy" 2
    LayoutStrategyName := none
    EdgeLayoutStrategyName := none
    VertexGlyph_Renderer := none
    OutlineGlyph_Renderer := none
    Input := none
    VertexColorArrayNameInternal := some "VertexDegree"
    EdgeColorArrayNameInternal := none
    ApplyColors_InputArrayToProcess := fun idx =>
      if idx = 0 then some (FieldAssociation.VERTICES, some "VertexDegree") else none
    VertexIcons_PassArray := true
    VertexIcons_FillValue := none
    VertexIcons_Map := []
    EdgeIcons_PassArray := true
    EdgeIcons_FillValue := none
    EdgeIcons_Map := []
    VertexGlyph_GlyphType := vtkGraphToGlyphs.VERTEX
    OutlineGlyph_GlyphType := vtkGraphToGlyphs.VERTEX
    VertexGlyph_Scaling := false
    OutlineGlyph_Scaling := false
    VertexGlyph_InputArrayToProcess := none
    OutlineGlyph_InputArrayToProcess := none
    ScalingArrayNameInternal := none
    OutlineActor_FrontfaceCulling := true
    errors := []
    nextId := 3 }

/-- The accessor `GetLayoutStrategy()`. -/
def GetLayoutStrategy (self : vtkRenderedGraphRepresentation) : vtkObject :=
  self.Layout_LayoutStrategy

/-- The accessor `GetEdgeLayoutStrategy()`. -/
def GetEdgeLayoutStrategy (self : vtkRenderedGraphRepresentation) : vtkObject :=
  self.EdgeLayout_LayoutStrategy

/-- The string setter `SetLayoutStrategyName` (made by `vtkSetStringMacro`). -/
def SetLayoutStrategyName (self : vtkRenderedGraphRepresentation)
    (name : Option String) : vtkRenderedGraphRepresentation :=
  { self with LayoutStrategyName := name }

/-- The string setter `SetEdgeLayoutStrategyName`. -/
def SetEdgeLayoutStrategyName (self : vtkRenderedGraphRepresentation)
    (name : Option String) : vtkRenderedGraphRepresentation :=
  { self with EdgeLayoutStrategyName := name }

/-- The display name chosen by the cascade of `SafeDownCast` tests in
`SetLayoutStrategy(vtkGraphLayoutStrategy*)`. -/
def layoutDisplayName (s : vtkObject) : String :=
  if SafeDownCast "vtkRandomLayoutStrategy" s then "Random"
  else if SafeDownCast "vtkForceDirectedLayoutStrategy" s then "Force Directed"
  else if SafeDownCast "vtkSimple2DLayoutStrategy" s then "Simple 2D"
  else if SafeDownCast "vtkClustering2DLayoutStrategy" s then "Clustering 2D"
  else if SafeDownCast "vtkCommunity2DLayoutStrategy" s then "Community 2D"
  else if SafeDownCast "vtkFast2DLayoutStrategy" s then "Fast 2D"
  else if SafeDownCast "vtkCircularLayoutStrategy" s then "Circular"
  else if SafeDownCast "vtkTreeLayoutStrategy" s then "Tree"
  else if SafeDownCast "vtkCosmicTreeLayoutStrategy" s then "Cosmic Tree"
  else if SafeDownCast "vtkPassThroughLayoutStrategy" s then "Pass Through"
  else if SafeDownCast "vtkConeLayoutStrategy" s then "Cone"
  else "Unknown"

/-- `SetLayoutStrategy(vtkGraphLayoutStrategy* s)`; `none` is the null
pointer. -/
def SetLayoutStrategy (self : vtkRenderedGraphRepresentation)
    (s : Option vtkObject) : vtkRenderedGraphRepresentation :=
  match s with
  | none => self.reportError "Layout strategy must not be NULL."
  | some s =>
    let self := self.SetLayoutStrategyName (some (layoutDisplayName s))
    { self with Layout_LayoutStrategy := s }

/-- The strategy object built by the `if`/`else if` chain of
`SetLayoutStrategy(const char*)` for the normalised key `str`, and whether the
final `else if (str != "passthrough")` branch reports an error. The
pass-through object is always created first (identity `id`); a recognised key
other than `passthrough` creates a second object (identity `id + 1`). -/
def layoutStrategyForKey (str : String) (id : Nat) : vtkObject × Bool :=
  let strategy := vtkGraphLayoutStrategy.New "vtkPassThroughLayoutStrategy" id
  if str = "random" then
    (vtkGraphLayoutStrategy.New "vtkRandomLayoutStrategy" (id + 1), false)
  else if str = "forcedirected" then
    (vtkGraphLayoutStrategy.New "vtkForceDirectedLayoutStrategy" (id + 1), false)
  else if str = "simple2d" then
    (vtkGraphLayoutStrategy.New "vtkSimple2DLayoutStrategy" (id + 1), false)
  else if str = "clustering2d" then
    (vtkGraphLayoutStrategy.New "vtkClustering2DLayoutStrategy" (id + 1), false)
  else if str = "community2d" then
    (vtkGraphLayoutStrategy.New "vtkCommunity2DLayoutStrategy" (id + 1), false)
  else if str = "fast2d" then
    (vtkGraphLayoutStrategy.New "vtkFast2DLayoutStrategy" (id + 1), false)
  else if str = "circular" then
    (vtkGraphLayoutStrategy.New "vtkCircularLayoutStrategy" (id + 1), false)
  else if str = "tree" then
    (vtkGraphLayoutStrategy.New "vtkTreeLayoutStrategy" (id + 1), false)
  else if str = "cosmictree" then
    (vtkGraphLayoutStrategy.New "vtkCosmicTreeLayoutStrategy" (id + 1), false)
  else if str = "cone" then
    (vtkGraphLayoutStrategy.New "vtkConeLayoutStrategy" (id + 1), false)
  else if str ≠ "passthrough" then
    (strategy, true)
  else
    (strategy, false)

/-- The text streamed into `vtkErrorMacro` by both name-based setters:
`Unknown layout strategy: ` followed by the name as given, in double quotes. -/
def unknownStrategyMessage (name : String) : String :=
  "Unknown layout strategy: " ++ String.singleton (Char.ofNat 34) ++ name ++
    String.singleton (Char.ofNat 34)

/-- `SetLayoutStrategy(const char* name)` for a non-null `name`. -/
def SetLayoutStrategy_name (self : vtkRenderedGraphRepresentation)
    (name : String) : vtkRenderedGraphRepresentation :=
  let str := normalise name
  let chosen := layoutStrategyForKey str self.nextId
  let strategy := chosen.1
  let self := { self with nextId := strategy.id + 1 }
  let self := if chosen.2 then self.reportError (unknownStrategyMessage name) else self
  let type1 := strategy.GetClassName
  let type2 := self.GetLayoutStrategy.GetClassName
  if type1 ≠ type2 then self.SetLayoutStrategy (some strategy) else self

/-- The display name chosen by the cascade of `SafeDownCast` tests in
`SetEdgeLayoutStrategy(vtkEdgeLayoutStrategy*)`. -/
def edgeLayoutDisplayName (s : vtkObject) : String :=
  if SafeDownCast "vtkArcParallelEdgeStrategy" s then "Arc Parallel"
  else if SafeDownCast "vtkGeoEdgeStrategy" s then "Geo"
  else if SafeDownCast "vtkPassThroughEdgeStrategy" s then "Pass Through"
  else "Unknown"

/-- `SetEdgeLayoutStrategy(vtkEdgeLayoutStrategy* s)`; `none` is the null
pointer. -/
def SetEdgeLayoutStrategy (self : vtkRenderedGraphRepresentation)
    (s : Option vtkObject) : vtkRenderedGraphRepresentation :=
  match s with
  | none => self.reportError "Layout strategy must not be NULL."
  | some s =>
    let self := self.SetEdgeLayoutStrategyName (some (edgeLayoutDisplayName s))
    { self with EdgeLayout_LayoutStrategy := s }

/-- The strategy object built by the `if`/`else if` chain of
`SetEdgeLayoutStrategy(const char*)` for the normalised key `str`, and whether
the final `else if (str != "passthrough")` branch reports an error. -/
def edgeLayoutStrategyForKey (str : String) (id : Nat) : vtkObject × Bool :=
  let strategy := vtkEdgeLayoutStrategy.New "vtkPassThroughEdgeStrategy" id
  if str = "arcparallel" then
    (vtkEdgeLayoutStrategy.New "vtkArcParallelEdgeStrategy" (id + 1), false)
  else if str = "geo" then
    (vtkEdgeLayoutStrategy.New "vtkGeoEdgeStrategy" (id + 1), false)
  else if str ≠ "passthrough" then
    (strategy, true)
  else
    (strategy, false)

/-- `SetEdgeLayoutStrategy(const char* name)` for a non-null `name`. -/
def SetEdgeLayoutStrategy_name (self : vtkRenderedGraphRepresentation)
    (name : String) : vtkRenderedGraphRepresentation :=
  let str := normalise name
  let chosen := edgeLayoutStrategyForKey str self.nextId
  let strategy := chosen.1
  let self := { self with nextId := strategy.id + 1 }
  let self := if chosen.2 then self.reportError (unknownStrategyMessage name) else self
  let type1 := strategy.GetClassName
  let type2 := self.GetEdgeLayoutStrategy.GetClassName
  if type1 ≠ type2 then self.SetEdgeLayoutStrategy (some strategy) else self

end vtkRenderedGraphRepresentation

/-! ## Tables the name-based setters are compared with -/

/-- The table of vertex layout strategies as the documentation of the name
setter gives it: normalised key and the class it stands for. -/
def layoutStrategyTable : List (String × String) :=
  [("random", "vtkRandomLayoutStrategy"),
   ("forcedirected", "vtkForceDirectedLayoutStrategy"),
   ("simple2d", "vtkSimple2DLayoutStrategy"),
   ("clustering2d", "vtkClustering2DLayoutStrategy"),
   ("community2d", "vtkCommunity2DLayoutStrategy"),
   ("fast2d", "vtkFast2DLayoutStrategy"),
   ("circular", "vtkCircularLayoutStrategy"),
   ("tree", "vtkTreeLayoutStrategy"),
   ("cosmictree", "vtkCosmicTreeLayoutStrategy"),
   ("cone", "vtkConeLayoutStrategy"),
   ("passthrough", "vtkPassThroughLayoutStrategy")]

/-- The eleven recognised keys. -/
def layoutStrategyKeys : List String := layoutStrategyTable.map Prod.fst

/-- The display name of each recognised vertex layout strategy class. -/
def layoutDisplayTable : List (String × String) :=
  [("vtkRandomLayoutStrategy", "Random"),
   ("vtkForceDirectedLayoutStrategy", "Force Directed"),
   ("vtkSimple2DLayoutStrategy", "Simple 2D"),
   ("vtkClustering2DLayoutStrategy", "Clustering 2D"),
   ("vtkCommunity2DLayoutStrategy", "Community 2D"),
   ("vtkFast2DLayoutStrategy", "Fast 2D"),
   ("vtkCircularLayoutStrategy", "Circular"),
   ("vtkTreeLayoutStrategy", "Tree"),
   ("vtkCosmicTreeLayoutStrategy", "Cosmic Tree"),
   ("vtkPassThroughLayoutStrategy", "Pass Through"),
   ("vtkConeLayoutStrategy", "Cone")]

/-- The table of edge layout strategies: normalised key and class. -/
def edgeLayoutStrategyTable : List (String × String) :=
  [("arcparallel", "vtkArcParallelEdgeStrategy"),
   ("geo", "vtkGeoEdgeStrategy"),
   ("passthrough", "vtkPassThroughEdgeStrategy")]

/-- The display name of each recognised edge layout strategy class. -/
def edgeLayoutDisplayTable : List (String × String) :=
  [("vtkArcParallelEdgeStrategy", "Arc Parallel"),
   ("vtkGeoEdgeStrategy", "Geo"),
   ("vtkPassThroughEdgeStrategy", "Pass Through")]

/-- The key as the specification words it: the name with every space deleted
and every remaining letter in lower case. -/
def lowerCaseWithoutSpaces (name : String) : String :=
  String.mk ((name.data.filter (fun c => c != ' ')).map Char.toLower)

/-! ## Selections and `ConvertSelection` -/

/-- The values of `vtkSelectionNode::SelectionContent`. -/
inductive SelectionContent
  | SELECTIONS | GLOBALIDS | PEDIGREEIDS | VALUES | INDICES | FRUSTUM
  | LOCATIONS | THRESHOLDS | BLOCKS
  deriving DecidableEq

/-- The values of `vtkSelectionNode::SelectionField`. -/
inductive SelectionField
  | CELL | POINT | FIELD | VERTEX | EDGE | ROW
  deriving DecidableEq

/-- A `vtkSelectionNode` as far as `ConvertSelection` reads and writes it: the
content type and field type (absent keys are `none`), the `PROP()` entry of its
properties after `vtkProp::SafeDownCast` (`none` when absent or not a prop), and
the pointer returned by `GetSelectionList()`: `none` is the null pointer, `some`
holds the tuples of the array. -/
structure vtkSelectionNode where
  ContentType : Option SelectionContent
  FieldType : Option SelectionField
  PROP : Option vtkProp
  SelectionList : Option (List Nat)
  deriving DecidableEq

/-- Modelled from the spec: the node made by
`vtkSmartPointer<vtkSelectionNode>::New()`, whose constructor is outside the
excerpt: no content type, no field type, no property, and no selection list
(`GetSelectionList()` is null until a list is set). -/
def vtkSelectionNode.New : vtkSelectionNode :=
  { ContentType := none, FieldType := none, PROP := none, SelectionList := none }

/-- The setter `SetFieldType(type)`. -/
def vtkSelectionNode.SetFieldType (n : vtkSelectionNode) (type : SelectionField) :
    vtkSelectionNode :=
  { n with FieldType := some type }

/-- The call `GetProperties()->Remove(vtkSelectionNode::PROP())`. -/
def vtkSelectionNode.RemovePROP (n : vtkSelectionNode) : vtkSelectionNode :=
  { n with PROP := none }

/-- The expression `GetSelectionList()->GetNumberOfTuples()`: `none` when the
list pointer is null and the expression dereferences it. -/
def vtkSelectionNode.GetNumberOfTuples (n : vtkSelectionNode) : Option Nat :=
  n.SelectionList.map List.length

/-- A node has at least one tuple: its selection list is there and not empty. -/
def vtkSelectionNode.hasTuple (n : vtkSelectionNode) : Prop :=
  ∃ k, n.GetNumberOfTuples = some k ∧ 0 < k

instance (n : vtkSelectionNode) : Decidable n.hasTuple :=
  match h : n.GetNumberOfTuples with
  | none => isFalse (fun ⟨k, hk, _⟩ => by rw [h] at hk; cases hk)
  | some k =>
    if hpos : 0 < k then isTrue ⟨k, h, hpos⟩
    else isFalse (fun ⟨j, hj, hjpos⟩ => by rw [h] at hj; cases hj; exact hpos hjpos)

/-- A `vtkSelection`: its nodes in `GetNode(i)` order. -/
structure vtkSelection where
  Nodes : List vtkSelectionNode
  deriving DecidableEq

/-- The selection made by `vtkSelection::New()`. -/
def vtkSelection.New : vtkSelection := { Nodes := [] }

/-- The accessor `GetNumberOfNodes()`. -/
def vtkSelection.GetNumberOfNodes (sel : vtkSelection) : Nat := sel.Nodes.length

/-- Modelled from the spec: `vtkSelection::AddNode` is declared outside the
excerpt; it puts the node after the nodes already present. -/
def vtkSelection.AddNode (sel : vtkSelection) (n : vtkSelectionNode) : vtkSelection :=
  { Nodes := sel.Nodes ++ [n] }

/-- The data object a selection is converted against. -/
inductive ConversionData
  /-- The poly data `VertexGlyph->GetOutput()`. -/
  | VertexGlyphOutput
  /-- The poly data `GraphToPoly->GetOutput()`. -/
  | GraphToPolyOutput
  /-- The representation's input data object. -/
  | Input (id : Nat)
  deriving DecidableEq

/-- One call of `vtkConvertSelection::ToSelectionType(sel, data, type)`. -/
structure ConversionCall where
  sel : vtkSelection
  data : ConversionData
  type : SelectionContent
  deriving DecidableEq

/-- What `ConvertSelection` takes from outside the representation's own state:
the static `vtkConvertSelection::ToSelectionType` (defined outside the excerpt,
taken as a parameter; the nodes it returns may or may not carry a selection
list), whether the cell data of the two rendered poly data have pedigree ids,
and `view->GetSelectionType()`. -/
structure SelectionContext where
  ToSelectionType : vtkSelection → ConversionData → SelectionContent → vtkSelection
  VertexGlyph_HasPedigreeIds : Bool
  GraphToPoly_HasPedigreeIds : Bool
  View_SelectionType : SelectionContent

/-- The three locals written by the classification loop of `ConvertSelection`. -/
structure PickedNodes where
  vertexNode : vtkSelectionNode
  edgeNode : vtkSelectionNode
  foundEdgeNode : Bool
  deriving DecidableEq

/-- The locals before the classification loop. -/
def PickedNodes.init : PickedNodes :=
  { vertexNode := vtkSelectionNode.New, edgeNode := vtkSelectionNode.New,
    foundEdgeNode := false }

/-- One iteration of the classification loop; `ShallowCopy(node)` overwrites the
local node with `node`. -/
def classifyNode (st : PickedNodes) (node : vtkSelectionNode) : PickedNodes :=
  let prop := node.PROP
  if node.ContentType = some SelectionContent.FRUSTUM then
    { st with vertexNode := node, edgeNode := node }
  else if prop = some vtkProp.VertexActor then
    { st with vertexNode := node }
  else if prop = some vtkProp.EdgeActor then
    { st with edgeNode := node, foundEdgeNode := true }
  else st

/-- The classification loop over `sel->GetNode(0)`, ..., followed by the removal
of `PROP()` from both local nodes. -/
def classify (sel : vtkSelection) : PickedNodes :=
  let st := sel.Nodes.foldl classifyNode PickedNodes.init
  { st with vertexNode := st.vertexNode.RemovePROP, edgeNode := st.edgeNode.RemovePROP }

/-- The locals of the loop that copies the converted vertex nodes. -/
structure CopyState where
  selectedVerticesFound : Bool
  converted : vtkSelection

/-- One iteration of the loop over `vertexConverted`. The test
`GetSelectionList()->GetNumberOfTuples() > 0` dereferences the list pointer
without a check: the result is `none` when that pointer is null. -/
def copyVertexNode (st : CopyState) (n : vtkSelectionNode) : Option CopyState :=
  match n.GetNumberOfTuples with
  | none => none
  | some tuples =>
    some
      { selectedVerticesFound := if tuples > 0 then true else st.selectedVerticesFound
        converted := st.converted.AddNode n }

/-- The loop over `vertexConverted->GetNode(0)`, ...: `none` when an iteration
dereferences a null selection list. -/
def copyVertexNodes (st : CopyState) : List vtkSelectionNode → Option CopyState
  | [] => some st
  | n :: ns =>
    match copyVertexNode st n with
    | none => none
    | some st => copyVertexNodes st ns

/-- What a call of `ConvertSelection` leaves: the selection it returns, `none`
when the call does not return because it dereferences a null pointer, and the
calls of `vtkConvertSelection::ToSelectionType` it made, in order. -/
structure ConvertResult where
  converted : Option vtkSelection
  calls : List ConversionCall

namespace vtkRenderedGraphRepresentation

/-- `ConvertSelection(view, sel)` for a view and a selection that exist. -/
def ConvertSelection (self : vtkRenderedGraphRepresentation) (ctx : SelectionContext)
    (sel : vtkSelection) : ConvertResult :=
  let picked := classify sel
  let converted := vtkSelection.New
  match self.Input with
  | none => { converted := some converted, calls := [] }
  | some input =>
    -- vertex block
    let vertexSel := vtkSelection.New.AddNode picked.vertexNode
    let polyType :=
      if ctx.VertexGlyph_HasPedigreeIds then SelectionContent.PEDIGREEIDS
      else SelectionContent.INDICES
    let polyConverted :=
      ctx.ToSelectionType vertexSel ConversionData.VertexGlyphOutput polyType
    let call1 : ConversionCall :=
      { sel := vertexSel, data := ConversionData.VertexGlyphOutput, type := polyType }
    let polyConverted : vtkSelection :=
      { Nodes := polyConverted.Nodes.map (fun n => n.SetFieldType SelectionField.VERTEX) }
    let vertexConverted :=
      ctx.ToSelectionType polyConverted (ConversionData.Input input) ctx.View_SelectionType
    let call2 : ConversionCall :=
      { sel := polyConverted, data := ConversionData.Input input,
        type := ctx.View_SelectionType }
    match copyVertexNodes { selectedVerticesFound := false, converted := converted }
        vertexConverted.Nodes with
    | none => { converted := none, calls := [call1, call2] }
    | some st =>
      if picked.foundEdgeNode && !st.selectedVerticesFound then
        -- edge block
        let edgeSel := vtkSelection.New.AddNode picked.edgeNode
        let polyType :=
          if ctx.GraphToPoly_HasPedigreeIds then SelectionContent.PEDIGREEIDS
          else SelectionContent.INDICES
        let polyConverted :=
          ctx.ToSelectionType edgeSel ConversionData.GraphToPolyOutput polyType
        let call3 : ConversionCall :=
          { sel := edgeSel, data := ConversionData.GraphToPolyOutput, type := polyType }
        let polyConverted : vtkSelection :=
          { Nodes := polyConverted.Nodes.map (fun n => n.SetFieldType SelectionField.EDGE) }
        let edgeConverted :=
          ctx.ToSelectionType polyConverted (ConversionData.Input input)
            ctx.View_SelectionType
        let call4 : ConversionCall :=
          { sel := polyConverted, data := ConversionData.Input input,
            type := ctx.View_SelectionType }
        { converted := some (edgeConverted.Nodes.foldl vtkSelection.AddNode st.converted),
          calls := [call1, call2, call3, call4] }
      else
        { converted := some st.converted, calls := [call1, call2] }

end vtkRenderedGraphRepresentation

/-- In the specification's words, the node the vertex conversion is given: the
last node of the input selection that is a `FRUSTUM` node or has the vertex
actor as `PROP`, without its `PROP`; a fresh node when there is none. -/
def pickedVertexNode (sel : vtkSelection) : vtkSelectionNode :=
  match sel.Nodes.reverse.find? (fun n =>
      decide (n.ContentType = some SelectionContent.FRUSTUM ∨
        n.PROP = some vtkProp.VertexActor)) with
  | some n => n.RemovePROP
  | none => vtkSelectionNode.New

/-- In the specification's words, the node the edge conversion is given: the last
node of the input selection that is a `FRUSTUM` node or has the edge actor as
`PROP`, without its `PROP`; a fresh node when there is none. -/
def pickedEdgeNode (sel : vtkSelection) : vtkSelectionNode :=
  match sel.Nodes.reverse.find? (fun n =>
      decide (n.ContentType = some SelectionContent.FRUSTUM ∨
        n.PROP = some vtkProp.EdgeActor)) with
  | some n => n.RemovePROP
  | none => vtkSelectionNode.New

/-- The two-stage conversion in the specification's words: a selection holding
the one picked node is converted against the rendered poly data `poly` to
pedigree ids when that poly data has them and to indices otherwise, every node
of the result is given the field type `field`, and that selection is converted
against the input data object to the view's selection type. -/
def twoStageConversion (ctx : SelectionContext) (node : vtkSelectionNode)
    (poly : ConversionData) (hasPedigreeIds : Bool) (field : SelectionField)
    (input : Nat) : vtkSelection :=
  let first := ctx.ToSelectionType { Nodes := [node] } poly
    (if hasPedigreeIds then SelectionContent.PEDIGREEIDS else SelectionContent.INDICES)
  let tagged : vtkSelection :=
    { Nodes := first.Nodes.map (fun n => { n with FieldType := some field }) }
  ctx.ToSelectionType tagged (ConversionData.Input input) ctx.View_SelectionType

/-- The result of converting the picked vertex node, in the specification's
words. -/
def vertexConversion (ctx : SelectionContext) (sel : vtkSelection) (input : Nat) :
    vtkSelection :=
  twoStageConversion ctx (pickedVertexNode sel) ConversionData.VertexGlyphOutput
    ctx.VertexGlyph_HasPedigreeIds SelectionField.VERTEX input

/-- The result of converting the picked edge node, in the specification's
words. -/
def edgeConversion (ctx : SelectionContext) (sel : vtkSelection) (input : Nat) :
    vtkSelection :=
  twoStageConversion ctx (pickedEdgeNode sel) ConversionData.GraphToPolyOutput
    ctx.GraphToPoly_HasPedigreeIds SelectionField.EDGE input

/-- A node of the input selection that counts as a pick on the edge actor: its
`PROP()` is the representation's edge actor and it is not a `FRUSTUM` node
(frustum nodes are region selections, classified before any prop is looked
at). -/
def pickedOnEdgeActor (n : vtkSelectionNode) : Prop :=
  n.ContentType ≠ some SelectionContent.FRUSTUM ∧ n.PROP = some vtkProp.EdgeActor

instance (n : vtkSelectionNode) : Decidable (pickedOnEdgeActor n) := by
  unfold pickedOnEdgeActor
  exact inferInstance

/-- A conversion that hands back the selection it is given, for use in examples. -/
def identityContext : SelectionContext :=
  { ToSelectionType := fun sel _ _ => sel
    VertexGlyph_HasPedigreeIds := true
    GraphToPoly_HasPedigreeIds := false
    View_SelectionType := SelectionContent.PEDIGREEIDS }

/-- A conversion that hands back the nodes it is given, each with a selection
list: a node that has none gets an empty one. For use in examples. -/
def listContext : SelectionContext :=
  { ToSelectionType := fun sel _ _ =>
      { Nodes := sel.Nodes.map
          (fun n => { n with SelectionList := some (n.SelectionList.getD []) }) }
    VertexGlyph_HasPedigreeIds := true
    GraphToPoly_HasPedigreeIds := false
    View_SelectionType := SelectionContent.PEDIGREEIDS }

/-- A freshly constructed representation that has been given the input data
object `5`. -/
def representationWithInput : vtkRenderedGraphRepresentation :=
  { vtkRenderedGraphRepresentation.New with Input := some 5 }

/-- A hardware pick of cell `3` on the edge actor. -/
def edgePick : vtkSelectionNode :=
  { ContentType := some SelectionContent.INDICES, FieldType := some SelectionField.CELL,
    PROP := some vtkProp.EdgeActor, SelectionList := some [3] }

/-- A hardware pick of cell `8` on the vertex actor. -/
def vertexPick : vtkSelectionNode :=
  { ContentType := some SelectionContent.INDICES, FieldType := some SelectionField.CELL,
    PROP := some vtkProp.VertexActor, SelectionList := some [8] }

/-- A frustum selection node that carries the edge actor as its `PROP` and whose
selection list is empty. -/
def emptyFrustumOnEdgeActor : vtkSelectionNode :=
  { ContentType := some SelectionContent.FRUSTUM, FieldType := some SelectionField.CELL,
    PROP := some vtkProp.EdgeActor, SelectionList := some [] }

/-- The first-stage call in the specification's words: the selection holding the
one picked node, converted against the rendered poly data, to pedigree ids when
the poly data has them and to indices otherwise. -/
def firstStageCall (node : vtkSelectionNode) (poly : ConversionData)
    (hasPedigreeIds : Bool) : ConversionCall :=
  { sel := { Nodes := [node] }, data := poly,
    type := if hasPedigreeIds then SelectionContent.PEDIGREEIDS else SelectionContent.INDICES }

/-- The second-stage call in the specification's words: the first stage's result
with every node given the field type `field`, converted against the input data
object to the view's selection type. -/
def secondStageCall (ctx : SelectionContext) (node : vtkSelectionNode)
    (poly : ConversionData) (hasPedigreeIds : Bool) (field : SelectionField)
    (input : Nat) : ConversionCall :=
  let c := firstStageCall node poly hasPedigreeIds
  let first := ctx.ToSelectionType c.sel c.data c.type
  let tagged : vtkSelection :=
    { Nodes := first.Nodes.map (fun n => { n with FieldType := some field }) }
  { sel := tagged, data := ConversionData.Input input, type := ctx.View_SelectionType }

/-! ## The constructor's pipeline diagram -/

/-- A node of the graphviz diagram in the constructor: a stage or an actor. -/
inductive PipelineNode
  | stage (s : Stage)
  | actor (a : vtkProp)
  deriving DecidableEq

/-- Whether the diagram arrow `a -> b` is realised in the state `self`: for a
stage `b`, its first input connection is the output port of `a`; for an actor
`b`, its mapper is `a`. -/
def connected (self : vtkRenderedGraphRepresentation) (a b : PipelineNode) : Bool :=
  match a, b with
  | .stage a, .stage b => self.InputConnection b == Connection.OutputPort a
  | .stage a, .actor vtkProp.VertexActor => self.VertexActor_Mapper == some a
  | .stage a, .actor vtkProp.OutlineActor => self.OutlineActor_Mapper == some a
  | .stage a, .actor vtkProp.EdgeActor => self.EdgeActor_Mapper == some a
  | _, _ => false

/-- The stage-to-stage arrows of the constructor's graphviz diagram (the arrows
into the view's labels and icons left out). -/
def diagramConnections : List (PipelineNode × PipelineNode) :=
  [(.stage .Layout, .stage .Coincident), (.stage .Coincident, .stage .EdgeLayout),
   (.stage .EdgeLayout, .stage .VertexDegree), (.stage .VertexDegree, .stage .ApplyColors),
   (.stage .ApplyColors, .stage .VertexGlyph), (.stage .VertexGlyph, .stage .VertexMapper),
   (.stage .VertexMapper, .actor .VertexActor),
   (.stage .ApplyColors, .stage .GraphToPoly), (.stage .GraphToPoly, .stage .EdgeMapper),
   (.stage .EdgeMapper, .actor .EdgeActor),
   (.stage .Coincident, .stage .OutlineGlyph), (.stage .OutlineGlyph, .stage .OutlineMapper),
   (.stage .OutlineMapper, .actor .OutlineActor),
   (.stage .VertexDegree, .stage .GraphToPoints),
   (.stage .GraphToPoints, .stage .VertexLabels),
   (.stage .VertexLabels, .stage .VertexLabelPriority),
   (.stage .GraphToPoints, .stage .VertexIcons),
   (.stage .VertexIcons, .stage .VertexIconPriority),
   (.stage .VertexDegree, .stage .EdgeCenters),
   (.stage .EdgeCenters, .stage .EdgeLabels),
   (.stage .EdgeLabels, .stage .EdgeLabelPriority),
   (.stage .EdgeCenters, .stage .EdgeIcons),
   (.stage .EdgeIcons, .stage .EdgeIconPriority)]

/-- The four arrows of the diagram that feed the label and icon stages; the
visibility setters make and break them. -/
def visibilityConnections : List (PipelineNode × PipelineNode) :=
  [(.stage .GraphToPoints, .stage .VertexLabels),
   (.stage .GraphToPoints, .stage .VertexIcons),
   (.stage .EdgeCenters, .stage .EdgeLabels),
   (.stage .EdgeCenters, .stage .EdgeIcons)]

/-! ## Views: `AddToView` and `RemoveFromView` -/

/-- An algorithm object known to a view: a stage of this representation or an
object of somebody else. Its first output port is identified with it. -/
inductive Algorithm
  | own (s : Stage)
  | foreign (id : Nat)
  deriving DecidableEq

/-- A call made on a render view or on its renderer. -/
inductive ViewCall
  | AddActor (p : vtkProp)
  | RemoveActor (p : vtkProp)
  | AddLabels (port : Algorithm)
  | RemoveLabels (port : Algorithm)
  | AddIcons (port : Algorithm)
  | RemoveIcons (port : Algorithm)
  | RegisterProgress (algorithm : Algorithm)
  | UnRegisterProgress (algorithm : Algorithm)
  deriving DecidableEq

/-- The state of a `vtkRenderView` that `AddToView` and `RemoveFromView` touch:
the identity of its renderer and the renderer's props, the label and icon
connections registered with the view, the objects registered for progress, and
the log of the calls made on the view, oldest first. -/
structure vtkRenderView where
  Renderer : Nat
  Props : List vtkProp
  Labels : List Algorithm
  Icons : List Algorithm
  Progress : List Algorithm
  calls : List ViewCall

namespace vtkRenderView

/-- Modelled from the spec: `vtkRenderer::AddActor` is outside the excerpt; the
prop joins the renderer's props unless it is already one of them. -/
def AddActor (rv : vtkRenderView) (p : vtkProp) : vtkRenderView :=
  { rv with Props := if p ∈ rv.Props then rv.Props else rv.Props ++ [p],
            calls := rv.calls ++ [ViewCall.AddActor p] }

/-- Modelled from the spec: `vtkRenderer::RemoveActor` is outside the excerpt;
the prop leaves the renderer's props. -/
def RemoveActor (rv : vtkRenderView) (p : vtkProp) : vtkRenderView :=
  { rv with Props := rv.Props.erase p, calls := rv.calls ++ [ViewCall.RemoveActor p] }

/-- Modelled from the spec: `vtkRenderView::AddLabels` is outside the excerpt;
the connection is registered with the view's labels. -/
def AddLabels (rv : vtkRenderView) (port : Algorithm) : vtkRenderView :=
  { rv with Labels := rv.Labels ++ [port], calls := rv.calls ++ [ViewCall.AddLabels port] }

/-- Modelled from the spec: `vtkRenderView::RemoveLabels` is outside the excerpt;
a registration of the given connection, if there is one, is dropped. -/
def RemoveLabels (rv : vtkRenderView) (port : Algorithm) : vtkRenderView :=
  { rv with Labels := rv.Labels.erase port,
            calls := rv.calls ++ [ViewCall.RemoveLabels port] }

/-- Modelled from the spec: `vtkRenderView::AddIcons` is outside the excerpt; the
connection is registered with the view's icons. -/
def AddIcons (rv : vtkRenderView) (port : Algorithm) : vtkRenderView :=
  { rv with Icons := rv.Icons ++ [port], calls := rv.calls ++ [ViewCall.AddIcons port] }

/-- Modelled from the spec: `vtkRenderView::RemoveIcons` is outside the excerpt;
a registration of the given connection, if there is one, is dropped. -/
def RemoveIcons (rv : vtkRenderView) (port : Algorithm) : vtkRenderView :=
  { rv with Icons := rv.Icons.erase port,
            calls := rv.calls ++ [ViewCall.RemoveIcons port] }

/-- Modelled from the spec: `vtkView::RegisterProgress` is only declared in
`vtkView.h`; the object is registered with the view. -/
def RegisterProgress (rv : vtkRenderView) (algorithm : Algorithm) : vtkRenderView :=
  { rv with Progress := rv.Progress ++ [algorithm],
            calls := rv.calls ++ [ViewCall.RegisterProgress algorithm] }

/-- Modelled from the spec: `vtkView::UnRegisterProgress` is only declared in
`vtkView.h`; it unregisters an object previously registered. -/
def UnRegisterProgress (rv : vtkRenderView) (algorithm : Algorithm) : vtkRenderView :=
  { rv with Progress := rv.Progress.erase algorithm,
            calls := rv.calls ++ [ViewCall.UnRegisterProgress algorithm] }

end vtkRenderView

/-- A `vtkView*`: a render view (for which `vtkRenderView::SafeDownCast` gives a
non-null pointer) or a view of another class. -/
inductive vtkView
  | RenderView (rv : vtkRenderView)
  | Other (id : Nat)

/-- What `AddToView` and `RemoveFromView` return and leave behind. -/
structure ViewResult where
  result : Bool
  self : vtkRenderedGraphRepresentation
  view : vtkView

namespace vtkRenderedGraphRepresentation

/-- `AddToView(view)`. The superclass hook `Superclass::AddToView(view)` is
outside the excerpt and touches nothing of the state kept here. -/
def AddToView (self : vtkRenderedGraphRepresentation) (view : vtkView) : ViewResult :=
  match view with
  | vtkView.RenderView rv =>
    let self := { self with VertexGlyph_Renderer := some rv.Renderer }
    let self := { self with OutlineGlyph_Renderer := some rv.Renderer }
    let rv := rv.AddActor vtkProp.OutlineActor
    let rv := rv.AddActor vtkProp.VertexActor
    let rv := rv.AddActor vtkProp.EdgeActor
    let rv := rv.AddActor vtkProp.VertexScalarBarActor
    let rv := rv.AddActor vtkProp.EdgeScalarBarActor
    let rv := rv.AddLabels (Algorithm.own Stage.VertexLabelPriority)
    let rv := rv.AddLabels (Algorithm.own Stage.EdgeLabelPriority)
    let rv := rv.AddIcons (Algorithm.own Stage.VertexIconPriority)
    let rv := rv.AddIcons (Algorithm.own Stage.EdgeIconPriority)
    let rv := rv.RegisterProgress (Algorithm.own Stage.Layout)
    let rv := rv.RegisterProgress (Algorithm.own Stage.EdgeCenters)
    let rv := rv.RegisterProgress (Algorithm.own Stage.GraphToPoints)
    let rv := rv.RegisterProgress (Algorithm.own Stage.VertexLabels)
    let rv := rv.RegisterProgress (Algorithm.own Stage.EdgeLabels)
    let rv := rv.RegisterProgress (Algorithm.own Stage.VertexIcons)
    let rv := rv.RegisterProgress (Algorithm.own Stage.EdgeIcons)
    let rv := rv.RegisterProgress (Algorithm.own Stage.Layout)
    let rv := rv.RegisterProgress (Algorithm.own Stage.EdgeLayout)
    let rv := rv.RegisterProgress (Algorithm.own Stage.GraphToPoly)
    let rv := rv.RegisterProgress (Algorithm.own Stage.EdgeMapper)
    let rv := rv.RegisterProgress (Algorithm.own Stage.VertexGlyph)
    let rv := rv.RegisterProgress (Algorithm.own Stage.VertexMapper)
    let rv := rv.RegisterProgress (Algorithm.own Stage.OutlineGlyph)
    let rv := rv.RegisterProgress (Algorithm.own Stage.OutlineMapper)
    { result := true, self := self, view := vtkView.RenderView rv }
  | vtkView.Other id => { result := false, self := self, view := vtkView.Other id }

/-- `RemoveFromView(view)`. The superclass hook is outside the excerpt and
touches nothing of the state kept here. -/
def RemoveFromView (self : vtkRenderedGraphRepresentation) (view : vtkView) : ViewResult :=
  match view with
  | vtkView.RenderView rv =>
    let self := { self with VertexGlyph_Renderer := none }
    let self := { self with OutlineGlyph_Renderer := none }
    let rv := rv.RemoveActor vtkProp.VertexActor
    let rv := rv.RemoveActor vtkProp.OutlineActor
    let rv := rv.RemoveActor vtkProp.EdgeActor
    let rv := rv.RemoveActor vtkProp.VertexScalarBarActor
    let rv := rv.RemoveActor vtkProp.EdgeScalarBarActor
    let rv := rv.RemoveLabels (Algorithm.own Stage.VertexLabels)
    let rv := rv.RemoveLabels (Algorithm.own Stage.EdgeLabels)
    let rv := rv.RemoveIcons (Algorithm.own Stage.VertexIcons)
    let rv := rv.RemoveIcons (Algorithm.own Stage.EdgeIcons)
    let rv := rv.UnRegisterProgress (Algorithm.own Stage.Layout)
    let rv := rv.UnRegisterProgress (Algorithm.own Stage.EdgeCenters)
    let rv := rv.UnRegisterProgress (Algorithm.own Stage.GraphToPoints)
    let rv := rv.UnRegisterProgress (Algorithm.own Stage.VertexLabels)
    let rv := rv.UnRegisterProgress (Algorithm.own Stage.EdgeLabels)
    let rv := rv.UnRegisterProgress (Algorithm.own Stage.VertexIcons)
    let rv := rv.UnRegisterProgress (Algorithm.own Stage.EdgeIcons)
    let rv := rv.UnRegisterProgress (Algorithm.own Stage.Layout)
    let rv := rv.UnRegisterProgress (Algorithm.own Stage.EdgeLayout)
    let rv := rv.UnRegisterProgress (Algorithm.own Stage.GraphToPoly)
    let rv := rv.UnRegisterProgress (Algorithm.own Stage.EdgeMapper)
    let rv := rv.UnRegisterProgress (Algorithm.own Stage.VertexGlyph)
    let rv := rv.UnRegisterProgress (Algorithm.own Stage.VertexMapper)
    let rv := rv.UnRegisterProgress (Algorithm.own Stage.OutlineGlyph)
    let rv := rv.UnRegisterProgress (Algorithm.own Stage.OutlineMapper)
    { result := true, self := self, view := vtkView.RenderView rv }
  | vtkView.Other id => { result := false, self := self, view := vtkView.Other id }

/-- `AddToView(v)` followed by `RemoveFromView(v)` on a render view: the state of
the view after both calls. -/
def addThenRemove (self : vtkRenderedGraphRepresentation) (rv : vtkRenderView) :
    vtkView :=
  let added := self.AddToView (vtkView.RenderView rv)
  (added.self.RemoveFromView added.view).view

end vtkRenderedGraphRepresentation

/-- The calls logged on a view (none for a view that is not a render view). -/
def vtkView.calls (v : vtkView) : List ViewCall :=
  match v with
  | vtkView.RenderView rv => rv.calls
  | vtkView.Other _ => []

/-- The label connections registered with a view. -/
def vtkView.Labels (v : vtkView) : List Algorithm :=
  match v with
  | vtkView.RenderView rv => rv.Labels
  | vtkView.Other _ => []

/-- The icon connections registered with a view. -/
def vtkView.Icons (v : vtkView) : List Algorithm :=
  match v with
  | vtkView.RenderView rv => rv.Icons
  | vtkView.Other _ => []

/-- The props of a view's renderer. -/
def vtkView.Props (v : vtkView) : List vtkProp :=
  match v with
  | vtkView.RenderView rv => rv.Props
  | vtkView.Other _ => []

/-- The objects registered for progress with a view. -/
def vtkView.Progress (v : vtkView) : List Algorithm :=
  match v with
  | vtkView.RenderView rv => rv.Progress
  | vtkView.Other _ => []

/-- A render view with nothing in it, whose renderer has identity `9`. -/
def emptyRenderView : vtkRenderView :=
  { Renderer := 9, Props := [], Labels := [], Icons := [], Progress := [], calls := [] }

/-- Whether a call names no object foreign to the representation. -/
def ViewCall.onOwnObject : ViewCall → Bool
  | .AddLabels (.foreign _) => false
  | .RemoveLabels (.foreign _) => false
  | .AddIcons (.foreign _) => false
  | .RemoveIcons (.foreign _) => false
  | .RegisterProgress (.foreign _) => false
  | .UnRegisterProgress (.foreign _) => false
  | _ => true

/-! ## `vtkRenderViewBase` -/

/-- The event identifiers of `vtkCommand` that the render view names; any other
event identifier is `Other`. -/
inductive EventId
  | RenderEvent | StartInteractionEvent | EndInteractionEvent
  | SelectionChangedEvent | UpdateEvent | EndEvent
  | Other (id : Nat)
  deriving DecidableEq

/-- The state of a `vtkRenderWindowInteractor` that the view reads and writes:
the `EnableRender` flag, the observers registered on it (event and identity of
the command object), its render window and its interactor style. -/
structure vtkRenderWindowInteractor where
  EnableRender : Bool
  Observers : List (EventId × Nat)
  RenderWindow : Option Nat
  InteractorStyle : Option Nat
  deriving DecidableEq

namespace vtkRenderWindowInteractor

/-- Modelled from the spec: `EnableRenderOff()` comes from a macro outside the
excerpt; it clears the `EnableRender` flag. -/
def EnableRenderOff (i : vtkRenderWindowInteractor) : vtkRenderWindowInteractor :=
  { i with EnableRender := false }

/-- Modelled from the spec: `vtkObject::AddObserver(event, command)` is outside
the excerpt; the command is registered for the event. -/
def AddObserver (i : vtkRenderWindowInteractor) (event : EventId) (command : Nat) :
    vtkRenderWindowInteractor :=
  { i with Observers := i.Observers ++ [(event, command)] }

/-- Modelled from the spec: `vtkObject::RemoveObserver(command)` is outside the
excerpt; every registration of the command is dropped. -/
def RemoveObserver (i : vtkRenderWindowInteractor) (command : Nat) :
    vtkRenderWindowInteractor :=
  { i with Observers := i.Observers.filter (fun o => o.2 != command) }

/-- Modelled from the spec: `vtkRenderWindowInteractor::SetRenderWindow` is
outside the excerpt; it stores the window pointer. -/
def SetRenderWindow (i : vtkRenderWindowInteractor) (win : Option Nat) :
    vtkRenderWindowInteractor :=
  { i with RenderWindow := win }

/-- Modelled from the spec: `vtkRenderWindowInteractor::SetInteractorStyle` is
outside the excerpt; it stores the style pointer. -/
def SetInteractorStyle (i : vtkRenderWindowInteractor) (style : Option Nat) :
    vtkRenderWindowInteractor :=
  { i with InteractorStyle := style }

end vtkRenderWindowInteractor

/-- The state of a `vtkRenderWindow` that the view reads and writes. -/
structure vtkRenderWindow where
  Interactor : Option Nat
  Observers : List (EventId × Nat)
  Renderers : List Nat
  deriving DecidableEq

/-- Modelled from the spec: `vtkRenderWindow::SetInteractor` is outside the
excerpt; it stores the interactor pointer. -/
def vtkRenderWindow.SetInteractor (w : vtkRenderWindow) (interactor : Option Nat) :
    vtkRenderWindow :=
  { w with Interactor := interactor }

/-- Modelled from the spec: `vtkObject::RemoveObserver(command)` on a render
window; every registration of the command is dropped. -/
def vtkRenderWindow.RemoveObserver (w : vtkRenderWindow) (command : Nat) : vtkRenderWindow :=
  { w with Observers := w.Observers.filter (fun o => o.2 != command) }

/-- Modelled from the spec: `vtkObject::AddObserver(event, command)` on a render
window; the command is registered for the event. -/
def vtkRenderWindow.AddObserver (w : vtkRenderWindow) (event : EventId) (command : Nat) :
    vtkRenderWindow :=
  { w with Observers := w.Observers ++ [(event, command)] }

/-- The state of a `vtkRenderer` that the view writes: its render window and the
parallel projection flag of its active camera
(`GetActiveCamera()->GetParallelProjection()`). -/
structure vtkRenderer where
  RenderWindow : Option Nat
  ActiveCamera_ParallelProjection : Bool
  deriving DecidableEq

/-- Modelled from the spec: `vtkRenderer::SetRenderWindow` is outside the
excerpt; it stores the window pointer. -/
def vtkRenderer.SetRenderWindow (r : vtkRenderer) (win : Option Nat) : vtkRenderer :=
  { r with RenderWindow := win }

/-- The classes of interactor style that `SetInteractorStyle` tells apart with
`SafeDownCast`. -/
inductive StyleClass
  | RubberBand2D | RubberBand3D | Other
  deriving DecidableEq

/-- The state of an interactor style (a `vtkInteractorObserver`) that the view
reads and writes: its class, its `RenderOnMouseMove` flag (kept by the two
rubber-band classes) and the observers registered on it. -/
structure vtkInteractorObserver where
  Class : StyleClass
  RenderOnMouseMove : Bool
  Observers : List (EventId × Nat)
  deriving DecidableEq

namespace vtkInteractorObserver

/-- Modelled from the spec: `vtkObject::RemoveObserver(command)` on a style. -/
def RemoveObserver (o : vtkInteractorObserver) (command : Nat) : vtkInteractorObserver :=
  { o with Observers := o.Observers.filter (fun p => p.2 != command) }

/-- Modelled from the spec: `vtkObject::AddObserver(event, command)` on a
style. -/
def AddObserver (o : vtkInteractorObserver) (event : EventId) (command : Nat) :
    vtkInteractorObserver :=
  { o with Observers := o.Observers ++ [(event, command)] }

/-- Modelled from the spec: `SetRenderOnMouseMove` of the rubber-band styles is
outside the excerpt; it stores the flag. -/
def SetRenderOnMouseMove (o : vtkInteractorObserver) (b : Bool) : vtkInteractorObserver :=
  { o with RenderOnMouseMove := b }

end vtkInteractorObserver

/-- Modelled from the spec: the interactor made by
`vtkRenderWindowInteractor::New()`, whose constructor is outside the excerpt:
rendering enabled, no observer, no window and no style given by the view yet. -/
def vtkRenderWindowInteractor.New : vtkRenderWindowInteractor :=
  { EnableRender := true, Observers := [], RenderWindow := none, InteractorStyle := none }

/-- What a view does that leaves no trace in the objects kept here: a call of the
virtual `Render()`, and the forwarding of an event to
`Superclass::ProcessEvents(caller, eventId, callData)`. -/
inductive ViewAction
  | Render
  | SuperclassProcessEvents (caller : vtkObject) (eventId : EventId) (callData : Nat)
  deriving DecidableEq

/-- Modelled from the spec: the enumerators `INTERACTION_MODE_2D`,
`INTERACTION_MODE_3D` and `INTERACTION_MODE_UNKNOWN` are declared in
`vtkRenderViewBase.h`, outside the excerpt, in this order. -/
def INTERACTION_MODE_2D : Int := 0

/-- Modelled from the spec: see `INTERACTION_MODE_2D`. -/
def INTERACTION_MODE_3D : Int := 1

/-- Modelled from the spec: see `INTERACTION_MODE_2D`. -/
def INTERACTION_MODE_UNKNOWN : Int := 2

/-- The state of a `vtkRenderViewBase` together with the interactor and window
objects it points to, each kept under its identity. -/
structure vtkRenderViewBase where
  RenderOnMouseMove : Bool
  InteractionMode : Int
  /-- Identity of `this->Renderer`. -/
  Renderer : Nat
  /-- Identity of `this->RenderWindow` (never null). -/
  RenderWindow : Nat
  /-- The smart pointer `this->Interactor` (`none` is null). -/
  Interactor : Option Nat
  /-- The smart pointer `this->InteractorStyle` (`none` is null). -/
  InteractorStyle : Option Nat
  /-- Identity of the command object returned by `GetObserver()`. -/
  Observer : Nat
  /-- The interactor objects, by identity. -/
  interactors : Nat → vtkRenderWindowInteractor
  /-- The render window objects, by identity. -/
  windows : Nat → vtkRenderWindow
  /-- The renderer objects, by identity. -/
  renderers : Nat → vtkRenderer
  /-- The interactor style objects, by identity. -/
  styles : Nat → vtkInteractorObserver
  /-- The calls of `Render()` and of the superclass's `ProcessEvents`, oldest
  first. -/
  actions : List ViewAction
  /-- Identity given to the next object made by a `New()`. -/
  nextId : Nat
  /-- Messages reported through `vtkErrorMacro`, oldest first. -/
  errors : List String

namespace vtkRenderViewBase

/-- The accessor `GetObserver()`. -/
def GetObserver (self : vtkRenderViewBase) : Nat := self.Observer

/-- The accessor `GetInteractorStyle()`. -/
def GetInteractorStyle (self : vtkRenderViewBase) : Option Nat := self.InteractorStyle

/-- The accessor `GetInteractor()`: the interactor of the render window. -/
def GetInteractor (self : vtkRenderViewBase) : Option Nat :=
  (self.windows self.RenderWindow).Interactor

/-- A method call on the interactor object with identity `id`. -/
def onInteractor (self : vtkRenderViewBase) (id : Nat)
    (f : vtkRenderWindowInteractor → vtkRenderWindowInteractor) : vtkRenderViewBase :=
  { self with interactors := Function.update self.interactors id (f (self.interactors id)) }

/-- A method call on the render window object with identity `id`. -/
def onWindow (self : vtkRenderViewBase) (id : Nat)
    (f : vtkRenderWindow → vtkRenderWindow) : vtkRenderViewBase :=
  { self with windows := Function.update self.windows id (f (self.windows id)) }

/-- `SetInteractor(interactor)`; `none` is the null pointer. -/
def SetInteractor (self : vtkRenderViewBase) (interactor : Option Nat) :
    vtkRenderViewBase :=
  match interactor with
  | none =>
    { self with errors := self.errors ++
        ["SetInteractor called with a null interactor pointer. That can't be right."] }
  | some interactor =>
    if self.Interactor = some interactor then self
    else
      -- get rid of the render observer on any current interactor
      let self :=
        match self.Interactor with
        | some current =>
          let self := self.onInteractor current (fun i => i.RemoveObserver self.GetObserver)
          let self := self.onInteractor current (fun i => i.SetRenderWindow none)
          { self with Interactor := none }
        | none => self
      let self := { self with Interactor := some interactor }
      let self := self.onInteractor interactor (fun i => i.EnableRenderOff)
      let self := self.onInteractor interactor
        (fun i => i.AddObserver EventId.RenderEvent self.GetObserver)
      let self := self.onInteractor interactor
        (fun i => i.AddObserver EventId.StartInteractionEvent self.GetObserver)
      let self := self.onInteractor interactor
        (fun i => i.AddObserver EventId.EndInteractionEvent self.GetObserver)
      let self := self.onWindow self.RenderWindow
        (fun w => w.SetInteractor (some interactor))
      -- pass on the interactor style
      self.onInteractor interactor (fun i => i.SetInteractorStyle self.GetInteractorStyle)

end vtkRenderViewBase

/-- A view with window `0`, observer `100`, style `7` and current interactor `1`,
on which the view's observer is registered for its three events. -/
def viewWithInteractor : vtkRenderViewBase :=
  { RenderOnMouseMove := false
    InteractionMode := 0
    Renderer := 50
    RenderWindow := 0
    Interactor := some 1
    InteractorStyle := some 7
    Observer := 100
    interactors := fun id =>
      if id = 1 then
        { EnableRender := false,
          Observers := [(EventId.RenderEvent, 100), (EventId.StartInteractionEvent, 100),
            (EventId.EndInteractionEvent, 100)],
          RenderWindow := some 0, InteractorStyle := some 7 }
      else
        { EnableRender := true, Observers := [], RenderWindow := none,
          InteractorStyle := none }
    windows := fun _ => { Interactor := some 1, Observers := [], Renderers := [50] }
    renderers := fun _ => { RenderWindow := some 0, ActiveCamera_ParallelProjection := true }
    styles := fun _ => { Class := StyleClass.RubberBand2D, RenderOnMouseMove := false,
                         Observers := [] }
    actions := []
    nextId := 200
    errors := [] }

/-- The view `viewWithInteractor` beside a window `3` that holds no renderer and
has no interactor. -/
def viewBesideEmptyWindow : vtkRenderViewBase :=
  { viewWithInteractor with
    windows := fun id =>
      if id = 3 then { Interactor := none, Observers := [], Renderers := [] }
      else viewWithInteractor.windows id }

/-! ## Visibility, icon type maps, colour array names and strategy shortcuts -/

namespace vtkRenderedGraphRepresentation

/-- `stage->SetInputConnection(port)` on a stage of the representation. -/
def SetInputConnection (self : vtkRenderedGraphRepresentation) (stage : Stage)
    (port : Connection) : vtkRenderedGraphRepresentation :=
  { self with InputConnection := Function.update self.InputConnection stage port }

/-- `SetVertexLabelVisibility(b)`. -/
def SetVertexLabelVisibility (self : vtkRenderedGraphRepresentation) (b : Bool) :
    vtkRenderedGraphRepresentation :=
  if b then self.SetInputConnection Stage.VertexLabels (Connection.OutputPort Stage.GraphToPoints)
  else self.SetInputConnection Stage.VertexLabels Connection.EmptyPolyData

/-- `SetEdgeLabelVisibility(b)`. -/
def SetEdgeLabelVisibility (self : vtkRenderedGraphRepresentation) (b : Bool) :
    vtkRenderedGraphRepresentation :=
  if b then self.SetInputConnection Stage.EdgeLabels (Connection.OutputPort Stage.EdgeCenters)
  else self.SetInputConnection Stage.EdgeLabels Connection.EmptyPolyData

/-- `GetVertexLabelVisibility()`. -/
def GetVertexLabelVisibility (self : vtkRenderedGraphRepresentation) : Bool :=
  self.InputConnection Stage.VertexLabels == Connection.OutputPort Stage.GraphToPoints

/-- `GetEdgeLabelVisibility()`. -/
def GetEdgeLabelVisibility (self : vtkRenderedGraphRepresentation) : Bool :=
  self.InputConnection Stage.EdgeLabels == Connection.OutputPort Stage.EdgeCenters

/-- `SetVertexIconVisibility(b)`. -/
def SetVertexIconVisibility (self : vtkRenderedGraphRepresentation) (b : Bool) :
    vtkRenderedGraphRepresentation :=
  if b then self.SetInputConnection Stage.VertexIcons (Connection.OutputPort Stage.GraphToPoints)
  else self.SetInputConnection Stage.VertexIcons Connection.EmptyPolyData

/-- `SetEdgeIconVisibility(b)`. -/
def SetEdgeIconVisibility (self : vtkRenderedGraphRepresentation) (b : Bool) :
    vtkRenderedGraphRepresentation :=
  if b then self.SetInputConnection Stage.EdgeIcons (Connection.OutputPort Stage.EdgeCenters)
  else self.SetInputConnection Stage.EdgeIcons Connection.EmptyPolyData

/-- `GetVertexIconVisibility()`. -/
def GetVertexIconVisibility (self : vtkRenderedGraphRepresentation) : Bool :=
  self.InputConnection Stage.VertexIcons == Connection.OutputPort Stage.GraphToPoints

/-- `GetEdgeIconVisibility()`: the source compares with `!=`. -/
def GetEdgeIconVisibility (self : vtkRenderedGraphRepresentation) : Bool :=
  self.InputConnection Stage.EdgeIcons != Connection.OutputPort Stage.EdgeCenters

/-- `AddVertexIconType(name, type)`. -/
def AddVertexIconType (self : vtkRenderedGraphRepresentation) (name : String) (type : Int) :
    vtkRenderedGraphRepresentation :=
  { self with VertexIcons_Map := self.VertexIcons_Map ++ [(name, type)] }

/-- `AddEdgeIconType(name, type)`. -/
def AddEdgeIconType (self : vtkRenderedGraphRepresentation) (name : String) (type : Int) :
    vtkRenderedGraphRepresentation :=
  { self with EdgeIcons_Map := self.EdgeIcons_Map ++ [(name, type)] }

/-- `ClearVertexIconTypes()`. -/
def ClearVertexIconTypes (self : vtkRenderedGraphRepresentation) :
    vtkRenderedGraphRepresentation :=
  { self with VertexIcons_Map := [] }

/-- `ClearEdgeIconTypes()`. -/
def ClearEdgeIconTypes (self : vtkRenderedGraphRepresentation) :
    vtkRenderedGraphRepresentation :=
  { self with EdgeIcons_Map := [] }

/-- `SetUseVertexIconTypeMap(b)`. -/
def SetUseVertexIconTypeMap (self : vtkRenderedGraphRepresentation) (b : Bool) :
    vtkRenderedGraphRepresentation :=
  if b then
    let self := { self with VertexIcons_PassArray := false }
    { self with VertexIcons_FillValue := some (-1) }
  else
    let self := self.ClearVertexIconTypes
    { self with VertexIcons_PassArray := true }

/-- `SetUseEdgeIconTypeMap(b)`. -/
def SetUseEdgeIconTypeMap (self : vtkRenderedGraphRepresentation) (b : Bool) :
    vtkRenderedGraphRepresentation :=
  if b then
    let self := { self with EdgeIcons_PassArray := false }
    { self with EdgeIcons_FillValue := some (-1) }
  else
    let self := self.ClearEdgeIconTypes
    { self with EdgeIcons_PassArray := true }

/-- `GetUseVertexIconTypeMap()`. -/
def GetUseVertexIconTypeMap (self : vtkRenderedGraphRepresentation) : Bool :=
  if self.VertexIcons_PassArray then true else false

/-- `GetUseEdgeIconTypeMap()`. -/
def GetUseEdgeIconTypeMap (self : vtkRenderedGraphRepresentation) : Bool :=
  if self.EdgeIcons_PassArray then true else false

/-- The string setter `SetVertexColorArrayNameInternal` (made by
`vtkSetStringMacro`). -/
def SetVertexColorArrayNameInternal (self : vtkRenderedGraphRepresentation)
    (name : Option String) : vtkRenderedGraphRepresentation :=
  { self with VertexColorArrayNameInternal := name }

/-- The string setter `SetEdgeColorArrayNameInternal`. -/
def SetEdgeColorArrayNameInternal (self : vtkRenderedGraphRepresentation)
    (name : Option String) : vtkRenderedGraphRepresentation :=
  { self with EdgeColorArrayNameInternal := name }

/-- The string getter `GetVertexColorArrayNameInternal`. -/
def GetVertexColorArrayNameInternal (self : vtkRenderedGraphRepresentation) :
    Option String :=
  self.VertexColorArrayNameInternal

/-- The string getter `GetEdgeColorArrayNameInternal`. -/
def GetEdgeColorArrayNameInternal (self : vtkRenderedGraphRepresentation) :
    Option String :=
  self.EdgeColorArrayNameInternal

/-- `ApplyColors->SetInputArrayToProcess(idx, 0, 0, fieldAssociation, name)`. -/
def ApplyColors_SetInputArrayToProcess (self : vtkRenderedGraphRepresentation) (idx : Nat)
    (fieldAssociation : FieldAssociation) (name : Option String) :
    vtkRenderedGraphRepresentation :=
  let arrays :=
    Function.update self.ApplyColors_InputArrayToProcess idx (some (fieldAssociation, name))
  { self with ApplyColors_InputArrayToProcess := arrays }

/-- `SetVertexColorArrayName(name)`; `none` is the null pointer. -/
def SetVertexColorArrayName (self : vtkRenderedGraphRepresentation)
    (name : Option String) : vtkRenderedGraphRepresentation :=
  let self := self.SetVertexColorArrayNameInternal name
  self.ApplyColors_SetInputArrayToProcess 0 FieldAssociation.VERTICES name

/-- `GetVertexColorArrayName()`. -/
def GetVertexColorArrayName (self : vtkRenderedGraphRepresentation) : Option String :=
  self.GetVertexColorArrayNameInternal

/-- `SetEdgeColorArrayName(name)`; the source calls
`SetVertexColorArrayNameInternal`. -/
def SetEdgeColorArrayName (self : vtkRenderedGraphRepresentation)
    (name : Option String) : vtkRenderedGraphRepresentation :=
  let self := self.SetVertexColorArrayNameInternal name
  self.ApplyColors_SetInputArrayToProcess 1 FieldAssociation.EDGES name

/-- `GetEdgeColorArrayName()`. -/
def GetEdgeColorArrayName (self : vtkRenderedGraphRepresentation) : Option String :=
  self.GetEdgeColorArrayNameInternal

/-- `SetLayoutStrategyToTree(radial, angle, leafSpacing, logSpacing)`. The local
`s` points to the strategy that `Layout` holds when the setters run: the current
one when the downcast succeeds, the newly installed one otherwise. -/
def SetLayoutStrategyToTree (self : vtkRenderedGraphRepresentation) (radial : Bool)
    (angle leafSpacing logSpacing : ℚ) : vtkRenderedGraphRepresentation :=
  let self :=
    if SafeDownCast "vtkTreeLayoutStrategy" self.GetLayoutStrategy then self
    else
      let s := vtkGraphLayoutStrategy.New "vtkTreeLayoutStrategy" self.nextId
      let self := { self with nextId := self.nextId + 1 }
      self.SetLayoutStrategy (some s)
  let s := self.Layout_LayoutStrategy
  let s := s.SetParameter "Radial" (ParameterValue.flag radial)
  let s := s.SetParameter "Angle" (ParameterValue.number angle)
  let s := s.SetParameter "LeafSpacing" (ParameterValue.number leafSpacing)
  let s := s.SetParameter "LogSpacingValue" (ParameterValue.number logSpacing)
  { self with Layout_LayoutStrategy := s }

/-- `SetEdgeLayoutStrategyToGeo(explodeFactor)`. The downcast is applied to
`GetLayoutStrategy()`, the vertex layout strategy: when it succeeds the local `s`
points to that object, otherwise to the newly made strategy that has just been
installed in `EdgeLayout`. -/
def SetEdgeLayoutStrategyToGeo (self : vtkRenderedGraphRepresentation)
    (explodeFactor : ℚ) : vtkRenderedGraphRepresentation :=
  if SafeDownCast "vtkGeoEdgeStrategy" self.GetLayoutStrategy then
    let s := self.Layout_LayoutStrategy
    let s := s.SetParameter "ExplodeFactor" (ParameterValue.number explodeFactor)
    { self with Layout_LayoutStrategy := s }
  else
    let s := vtkEdgeLayoutStrategy.New "vtkGeoEdgeStrategy" self.nextId
    let self := { self with nextId := self.nextId + 1 }
    let self := self.SetEdgeLayoutStrategy (some s)
    let s := self.EdgeLayout_LayoutStrategy
    let s := s.SetParameter "ExplodeFactor" (ParameterValue.number explodeFactor)
    { self with EdgeLayout_LayoutStrategy := s }

end vtkRenderedGraphRepresentation

/-! ## `vtkRenderViewBase`: windows, styles and events -/

namespace vtkRenderViewBase

/-- The accessor `GetRenderWindow()`. -/
def GetRenderWindow (self : vtkRenderViewBase) : Nat := self.RenderWindow

/-- The accessor `GetRenderOnMouseMove()`. -/
def GetRenderOnMouseMove (self : vtkRenderViewBase) : Bool := self.RenderOnMouseMove

/-- The effect of `vtkErrorMacro(msg)`. -/
def reportError (self : vtkRenderViewBase) (msg : String) : vtkRenderViewBase :=
  { self with errors := self.errors ++ [msg] }

/-- A method call on the renderer object with identity `id`. -/
def onRenderer (self : vtkRenderViewBase) (id : Nat) (f : vtkRenderer → vtkRenderer) :
    vtkRenderViewBase :=
  { self with renderers := Function.update self.renderers id (f (self.renderers id)) }

/-- A method call on the interactor style object with identity `id`. -/
def onStyle (self : vtkRenderViewBase) (id : Nat)
    (f : vtkInteractorObserver → vtkInteractorObserver) : vtkRenderViewBase :=
  { self with styles := Function.update self.styles id (f (self.styles id)) }

/-- Modelled from the spec: `vtkRenderWindow::AddRenderer` is outside the excerpt;
a window holds a renderer at most once, and a renderer it does not hold yet is
told its window and joins the window's renderers. -/
def AddRenderer (self : vtkRenderViewBase) (win ren : Nat) : vtkRenderViewBase :=
  if ren ∈ (self.windows win).Renderers then self
  else
    let self := self.onRenderer ren (fun r => r.SetRenderWindow (some win))
    self.onWindow win (fun w => { w with Renderers := w.Renderers ++ [ren] })

/-- Modelled from the spec: `vtkRenderWindow::RemoveRenderer` is outside the
excerpt; a renderer whose window is this window is told it has none, and the
renderer leaves the window's renderers. -/
def RemoveRenderer (self : vtkRenderViewBase) (win ren : Nat) : vtkRenderViewBase :=
  let self :=
    if (self.renderers ren).RenderWindow = some win then
      self.onRenderer ren (fun r => r.SetRenderWindow none)
    else self
  self.onWindow win (fun w => { w with Renderers := w.Renderers.erase ren })

/-- The body of the loop that moves the renderers in `SetRenderWindow(win)`, for
the first renderer `ren` of the view's current window. -/
def moveRenderer (self : vtkRenderViewBase) (win ren : Nat) : vtkRenderViewBase :=
  let self := self.onRenderer ren (fun r => r.SetRenderWindow none)
  let self := self.AddRenderer win ren
  self.RemoveRenderer self.RenderWindow ren

/-- The loop `while (rens->GetNumberOfItems())` of `SetRenderWindow(win)`, run for
at most `fuel` iterations; `none` when renderers are left after that many. -/
def moveRenderers (self : vtkRenderViewBase) (win : Nat) : Nat → Option vtkRenderViewBase
  | 0 =>
    match (self.windows self.RenderWindow).Renderers with
    | [] => some self
    | _ :: _ => none
  | fuel + 1 =>
    match (self.windows self.RenderWindow).Renderers with
    | [] => some self
    | ren :: _ => moveRenderers (self.moveRenderer win ren) win fuel

/-- `SetRenderWindow(win)`; `none` as argument is the null pointer, `fuel` bounds
the iterations of the loop that moves the renderers, and the result is `none`
when the loop does not finish within that bound. -/
def SetRenderWindow (self : vtkRenderViewBase) (win : Option Nat) (fuel : Nat) :
    Option vtkRenderViewBase :=
  match win with
  | none =>
    some (self.reportError
      "SetRenderWindow called with a null window pointer. That can't be right.")
  | some win =>
    -- get rid of the render observer on the current window
    let self := self.onWindow self.RenderWindow (fun w => w.RemoveObserver self.GetObserver)
    -- move renderers to new window
    match self.moveRenderers win fuel with
    | none => none
    | some self =>
      let self := { self with RenderWindow := win }
      let self := self.onWindow self.RenderWindow
        (fun w => w.AddObserver EventId.EndEvent self.GetObserver)
      match (self.windows win).Interactor with
      | some interactor => some (self.SetInteractor (some interactor))
      | none =>
        let iren := self.nextId
        let self := { self with nextId := self.nextId + 1 }
        let self := self.onInteractor iren (fun _ => vtkRenderWindowInteractor.New)
        some (self.SetInteractor (some iren))

/-- `SetInteractorStyle(style)`; `none` as argument is the null pointer. The
result is `none` when `this->RenderWindow->GetInteractor()` is null where the
method dereferences it. -/
def SetInteractorStyle (self : vtkRenderViewBase) (style : Option Nat) :
    Option vtkRenderViewBase :=
  match style with
  | none => some (self.reportError "Interactor style must not be null.")
  | some style =>
    let oldStyle := self.GetInteractorStyle
    if some style ≠ oldStyle then
      let self :=
        match oldStyle with
        | some old => self.onStyle old (fun o => o.RemoveObserver self.GetObserver)
        | none => self
      match self.GetInteractor with
      | none => none
      | some interactor =>
        let self := self.onInteractor interactor (fun i => i.SetInteractorStyle (some style))
        let self := { self with InteractorStyle := some style }
        let self := self.onStyle style
          (fun o => o.AddObserver EventId.SelectionChangedEvent self.GetObserver)
        match (self.styles style).Class with
        | StyleClass.RubberBand2D =>
          let self := self.onStyle style
            (fun o => o.SetRenderOnMouseMove self.GetRenderOnMouseMove)
          some { self with InteractionMode := INTERACTION_MODE_2D }
        | StyleClass.RubberBand3D =>
          let self := self.onStyle style
            (fun o => o.SetRenderOnMouseMove self.GetRenderOnMouseMove)
          some { self with InteractionMode := INTERACTION_MODE_3D }
        | StyleClass.Other =>
          some { self with InteractionMode := INTERACTION_MODE_UNKNOWN }
    else some self

/-- The virtual call `this->Render()`, as made from `ProcessEvents`. -/
def Render (self : vtkRenderViewBase) : vtkRenderViewBase :=
  { self with actions := self.actions ++ [ViewAction.Render] }

/-- `ProcessEvents(caller, eventId, callData)`. The caller is the view's
interactor when its identity is that of `GetInteractor()`. -/
def ProcessEvents (self : vtkRenderViewBase) (caller : vtkObject) (eventId : EventId)
    (callData : Nat) : vtkRenderViewBase :=
  let self :=
    if self.GetInteractor = some caller.id ∧ eventId = EventId.RenderEvent then self.Render
    else self
  let self :=
    if SafeDownCast "vtkDataRepresentation" caller = true ∧
        eventId = EventId.SelectionChangedEvent then
      self.Render
    else if SafeDownCast "vtkDataRepresentation" caller = true ∧
        eventId = EventId.UpdateEvent then
      self.Render
    else self
  { self with actions :=
      self.actions ++ [ViewAction.SuperclassProcessEvents caller eventId callData] }

end vtkRenderViewBase

/-- When `ProcessEvents(caller, eventId, ...)` is to render, in the
specification's words: the caller is the view's interactor and the event is
`RenderEvent`, or the caller is a data representation and the event is
`SelectionChangedEvent` or `UpdateEvent`. -/
def rendersOn (self : vtkRenderViewBase) (caller : vtkObject) (eventId : EventId) : Prop :=
  (self.GetInteractor = some caller.id ∧ eventId = EventId.RenderEvent) ∨
  (SafeDownCast "vtkDataRepresentation" caller = true ∧
    eventId = EventId.SelectionChangedEvent) ∨
  (SafeDownCast "vtkDataRepresentation" caller = true ∧ eventId = EventId.UpdateEvent)

instance (self : vtkRenderViewBase) (caller : vtkObject) (eventId : EventId) :
    Decidable (rendersOn self caller eventId) := by
  unfold rendersOn
  exact inferInstance

/-- A graph representation object as a caller of `ProcessEvents`. -/
def representationCaller : vtkObject :=
  { id := 300, ClassName := "vtkRenderedGraphRepresentation",
    Superclasses := ["vtkRenderedRepresentation", "vtkDataRepresentation",
      "vtkPassInputTypeAlgorithm", "vtkAlgorithm", "vtkObject", "vtkObjectBase"] }

/-- The interactor `1` as a caller of `ProcessEvents`. -/
def interactorCaller : vtkObject :=
  { id := 1, ClassName := "vtkRenderWindowInteractor",
    Superclasses := ["vtkObject", "vtkObjectBase"] }

/-! ## `vtkView::ViewProgressEventCallData` -/

/-- The call data of `vtkCommand::ViewProgressEvent`: the message (null is
`none`) and the progress, a `double` kept as a rational number (the class only
stores the value and hands it back). -/
structure ViewProgressEventCallData where
  Message : Option String
  Progress : ℚ
  deriving DecidableEq

namespace ViewProgressEventCallData

/-- The constructor `ViewProgressEventCallData(msg, progress)`. -/
def New (msg : Option String) (progress : ℚ) : ViewProgressEventCallData :=
  { Message := msg, Progress := progress }

/-- `GetProgressMessage()`. -/
def GetProgressMessage (d : ViewProgressEventCallData) : Option String := d.Message

/-- `GetProgress()`. -/
def GetProgress (d : ViewProgressEventCallData) : ℚ := d.Progress

end ViewProgressEventCallData

/-! ## Parallel contingency statistics -/

/-- Modelled from the spec: the contingency model is defined in
`vtkContingencyStatistics`, outside the excerpt. For one pair of columns it holds
the number of rows showing each pair of values, and the number of rows. -/
structure ContingencyModel where
  Cardinality : String × String → Nat
  SampleSize : Nat

/-- Modelled from the spec: the serial `vtkContingencyStatistics::ExecuteLearn`
is outside the excerpt; from the rows of the input table (the values of the two
columns) it counts the rows showing each pair of values. -/
def vtkContingencyStatistics.ExecuteLearn (inData : List (String × String)) :
    ContingencyModel :=
  { Cardinality := fun p => inData.count p, SampleSize := inData.length }

/-- Modelled from the spec: `vtkPContingencyStatistics::ExecuteLearn` is only
declared in `vtkPContingencyStatistics.h`. The process of rank `rank` learns the
model of its own rows with the serial `ExecuteLearn`; without a controller (a
single process is assumed) that is its model; with a controller the models of all
processes are gathered and added up, on every process. `inData` lists the rows of
every process by rank; `hasController` tells whether `Controller` is non-null. -/
def vtkPContingencyStatistics.ExecuteLearn (hasController : Bool)
    (inData : List (List (String × String))) (rank : Nat) : ContingencyModel :=
  let own := vtkContingencyStatistics.ExecuteLearn (inData.getD rank [])
  if hasController then
    let models := inData.map vtkContingencyStatistics.ExecuteLearn
    { Cardinality := fun p => (models.map (fun m => m.Cardinality p)).sum,
      SampleSize := (models.map (fun m => m.SampleSize)).sum }
  else own

/-! ## Glyph type and scaling of the graph representation -/

namespace vtkRenderedGraphRepresentation

/-- `SetGlyphType(type)`. -/
def SetGlyphType (self : vtkRenderedGraphRepresentation) (type : Int) :
    vtkRenderedGraphRepresentation :=
  if type ≠ self.VertexGlyph_GlyphType then
    let self := { self with VertexGlyph_GlyphType := type }
    let self := { self with OutlineGlyph_GlyphType := type }
    if type = vtkGraphToGlyphs.SPHERE then
      { self with OutlineActor_FrontfaceCulling := true }
    else
      { self with OutlineActor_FrontfaceCulling := false }
  else self

/-- `GetGlyphType()`. -/
def GetGlyphType (self : vtkRenderedGraphRepresentation) : Int :=
  self.VertexGlyph_GlyphType

/-- `SetScaling(b)`. -/
def SetScaling (self : vtkRenderedGraphRepresentation) (b : Bool) :
    vtkRenderedGraphRepresentation :=
  let self := { self with VertexGlyph_Scaling := b }
  { self with OutlineGlyph_Scaling := b }

/-- `GetScaling()`. -/
def GetScaling (self : vtkRenderedGraphRepresentation) : Bool :=
  self.VertexGlyph_Scaling

/-- The string setter `SetScalingArrayNameInternal` (made by
`vtkSetStringMacro`). -/
def SetScalingArrayNameInternal (self : vtkRenderedGraphRepresentation)
    (name : Option String) : vtkRenderedGraphRepresentation :=
  { self with ScalingArrayNameInternal := name }

/-- `SetScalingArrayName(name)`; `none` is the null pointer. -/
def SetScalingArrayName (self : vtkRenderedGraphRepresentation) (name : Option String) :
    vtkRenderedGraphRepresentation :=
  let self :=
    { self with VertexGlyph_InputArrayToProcess := some (FieldAssociation.VERTICES, name) }
  let self :=
    { self with OutlineGlyph_InputArrayToProcess := some (FieldAssociation.VERTICES, name) }
  self.SetScalingArrayNameInternal name

/-- `GetScalingArrayName()`. -/
def GetScalingArrayName (self : vtkRenderedGraphRepresentation) : Option String :=
  self.ScalingArrayNameInternal

end vtkRenderedGraphRepresentation

/-- A call of one of the three glyph setters of the representation. -/
inductive GlyphCall
  | SetGlyphType (type : Int)
  | SetScaling (b : Bool)
  | SetScalingArrayName (name : Option String)
  deriving DecidableEq

/-- The state after one glyph setter call. -/
def GlyphCall.apply (self : vtkRenderedGraphRepresentation) :
    GlyphCall → vtkRenderedGraphRepresentation
  | .SetGlyphType type => self.SetGlyphType type
  | .SetScaling b => self.SetScaling b
  | .SetScalingArrayName name => self.SetScalingArrayName name

/-- The state reached from construction by a sequence of glyph setter calls,
first call first. -/
def afterGlyphCalls (calls : List GlyphCall) : vtkRenderedGraphRepresentation :=
  calls.foldl GlyphCall.apply vtkRenderedGraphRepresentation.New

/-- The two glyph stages agree on glyph type, scaling flag and scaling array. -/
def glyphStagesAgree (self : vtkRenderedGraphRepresentation) : Prop :=
  self.VertexGlyph_GlyphType = self.OutlineGlyph_GlyphType ∧
  self.VertexGlyph_Scaling = self.OutlineGlyph_Scaling ∧
  self.VertexGlyph_InputArrayToProcess = self.OutlineGlyph_InputArrayToProcess

/-! ## `vtkRenderViewBase`: construction, interaction mode and mouse-move rendering -/

/-- Modelled from the spec: `vtkCamera::ParallelProjectionOn()` is outside the
excerpt (a boolean macro); it sets the flag of the renderer's active camera. -/
def vtkRenderer.ParallelProjectionOn (r : vtkRenderer) : vtkRenderer :=
  { r with ActiveCamera_ParallelProjection := true }

/-- Modelled from the spec: `vtkCamera::ParallelProjectionOff()` is outside the
excerpt; it clears the flag of the renderer's active camera. -/
def vtkRenderer.ParallelProjectionOff (r : vtkRenderer) : vtkRenderer :=
  { r with ActiveCamera_ParallelProjection := false }

/-- Modelled from the spec: the renderer made by `vtkRenderer::New()`, whose
constructor is outside the excerpt: no window yet, and a camera with perspective
projection. -/
def vtkRenderer.New : vtkRenderer :=
  { RenderWindow := none, ActiveCamera_ParallelProjection := false }

/-- Modelled from the spec: the window made by `vtkRenderWindow::New()`, whose
constructor is outside the excerpt: no interactor, no observer, no renderer. -/
def vtkRenderWindow.New : vtkRenderWindow :=
  { Interactor := none, Observers := [], Renderers := [] }

/-- Modelled from the spec: the style made by `New()` of a style class, whose
constructors are outside the excerpt: `RenderOnMouseMove` off and no observer. -/
def vtkInteractorObserver.New (cls : StyleClass) : vtkInteractorObserver :=
  { Class := cls, RenderOnMouseMove := false, Observers := [] }

namespace vtkRenderViewBase

/-- The accessor `GetRenderer()`. -/
def GetRenderer (self : vtkRenderViewBase) : Nat := self.Renderer

/-- `SetInteractionMode(mode)`. The result is `none` when the call of
`SetInteractorStyle` it makes dereferences a null interactor. -/
def SetInteractionMode (self : vtkRenderViewBase) (mode : Int) : Option vtkRenderViewBase :=
  if self.InteractionMode ≠ mode then
    let self := { self with InteractionMode := mode }
    if mode = INTERACTION_MODE_2D then
      let style := self.nextId
      let self := { self with nextId := self.nextId + 1 }
      let self := self.onStyle style
        (fun _ => vtkInteractorObserver.New StyleClass.RubberBand2D)
      match self.SetInteractorStyle (some style) with
      | none => none
      | some self => some (self.onRenderer self.Renderer (fun r => r.ParallelProjectionOn))
    else if mode = INTERACTION_MODE_3D then
      let style := self.nextId
      let self := { self with nextId := self.nextId + 1 }
      let self := self.onStyle style
        (fun _ => vtkInteractorObserver.New StyleClass.RubberBand3D)
      match self.SetInteractorStyle (some style) with
      | none => none
      | some self => some (self.onRenderer self.Renderer (fun r => r.ParallelProjectionOff))
    else some (self.reportError "Unknown interaction mode.")
  else some self

/-- `SetRenderOnMouseMove(b)`. -/
def SetRenderOnMouseMove (self : vtkRenderViewBase) (b : Bool) : vtkRenderViewBase :=
  if b = self.RenderOnMouseMove then self
  else
    let style := self.GetInteractorStyle
    let self :=
      match style with
      | some s =>
        if (self.styles s).Class = StyleClass.RubberBand2D then
          self.onStyle s (fun o => o.SetRenderOnMouseMove b)
        else self
      | none => self
    let self :=
      match style with
      | some s =>
        if (self.styles s).Class = StyleClass.RubberBand3D then
          self.onStyle s (fun o => o.SetRenderOnMouseMove b)
        else self
      | none => self
    { self with RenderOnMouseMove := b }

/-- The constructor, run where no other object exists yet. Identity `0` goes to
the observer made by the constructor of `vtkView`, `1` to the renderer, `2` to
the render window, `3` to the interactor and `4` to the style made by
`SetInteractionMode`. -/
def New : Option vtkRenderViewBase :=
  let self : vtkRenderViewBase :=
    { RenderOnMouseMove := false
      InteractionMode := -1
      Renderer := 1
      RenderWindow := 2
      Interactor := none
      InteractorStyle := none
      Observer := 0
      interactors := fun _ => vtkRenderWindowInteractor.New
      windows := fun _ => vtkRenderWindow.New
      renderers := fun _ => vtkRenderer.New
      styles := fun _ => vtkInteractorObserver.New StyleClass.Other
      actions := []
      nextId := 3
      errors := [] }
  let self := self.AddRenderer self.RenderWindow self.Renderer
  let iren := self.nextId
  let self := { self with nextId := self.nextId + 1 }
  let self := self.onInteractor iren (fun _ => vtkRenderWindowInteractor.New)
  let self := self.SetInteractor (some iren)
  self.SetInteractionMode INTERACTION_MODE_2D

end vtkRenderViewBase

/-- A call made on a view by its client: one of the five setters, or the making
of a style, interactor or window object that a later call can be given. -/
inductive ViewBaseCall
  | SetInteractorStyle (style : Option Nat)
  | SetInteractionMode (mode : Int)
  | SetRenderOnMouseMove (b : Bool)
  | SetInteractor (interactor : Option Nat)
  | SetRenderWindow (win : Option Nat)
  | NewStyle (o : vtkInteractorObserver)
  | NewInteractor (i : vtkRenderWindowInteractor)
  | NewWindow (w : vtkRenderWindow)

/-- The state after a call; `none` when the call dereferences a null pointer.
The loop of `SetRenderWindow` gets one iteration for each renderer of the
current window. An object made by the client gets the next free identity. -/
def ViewBaseCall.apply (self : vtkRenderViewBase) : ViewBaseCall → Option vtkRenderViewBase
  | .SetInteractorStyle style => self.SetInteractorStyle style
  | .SetInteractionMode mode => self.SetInteractionMode mode
  | .SetRenderOnMouseMove b => some (self.SetRenderOnMouseMove b)
  | .SetInteractor interactor => some (self.SetInteractor interactor)
  | .SetRenderWindow win =>
    self.SetRenderWindow win (self.windows self.RenderWindow).Renderers.length
  | .NewStyle o =>
    some { self with styles := Function.update self.styles self.nextId o,
                     nextId := self.nextId + 1 }
  | .NewInteractor i =>
    some { self with interactors := Function.update self.interactors self.nextId i,
                     nextId := self.nextId + 1 }
  | .NewWindow w =>
    some { self with windows := Function.update self.windows self.nextId w,
                     nextId := self.nextId + 1 }

/-- Whether every object a call names exists: a pointer argument that is not
null, and the interactor of a window the client makes, has an identity that was
given out already. -/
def ViewBaseCall.valid (self : vtkRenderViewBase) : ViewBaseCall → Prop
  | .SetInteractorStyle (some style) => style < self.nextId
  | .SetInteractor (some interactor) => interactor < self.nextId
  | .SetRenderWindow (some win) => win < self.nextId
  | .NewWindow w =>
    match w.Interactor with
    | some i => i < self.nextId
    | none => True
  | _ => True

/-- The states a view can be in: the constructed state, and every state reached
from one of these by a call whose objects exist and that returns. -/
inductive Reachable : vtkRenderViewBase → Prop
  | construct (v : vtkRenderViewBase) (h : vtkRenderViewBase.New = some v) : Reachable v
  | call (v r : vtkRenderViewBase) (c : ViewBaseCall) (hv : Reachable v)
      (hc : c.valid v) (h : c.apply v = some r) : Reachable r

/-- The invariant of the mouse-move flag: a current style of one of the two
rubber-band classes has the view's `RenderOnMouseMove` flag. -/
def styleFollowsView (self : vtkRenderViewBase) : Prop :=
  ∀ s, self.GetInteractorStyle = some s →
    (self.styles s).Class = StyleClass.RubberBand2D ∨
      (self.styles s).Class = StyleClass.RubberBand3D →
    (self.styles s).RenderOnMouseMove = self.GetRenderOnMouseMove

/-- The bookkeeping invariant: the view's style, interactor and window, and the
interactor of every window, are objects that exist, and the view's window has an
interactor. -/
def objectsExist (self : vtkRenderViewBase) : Prop :=
  (∀ s, self.InteractorStyle = some s → s < self.nextId) ∧
  (∀ i, self.Interactor = some i → i < self.nextId) ∧
  (∀ w i, (self.windows w).Interactor = some i → i < self.nextId) ∧
  self.GetInteractor ≠ none ∧
  self.RenderWindow < self.nextId

/-! ## Theorems -/

section StrategyLemmas

open vtkRenderedGraphRepresentation

theorem toNat_ofNat_small (n : Nat) (h : n < 55296) : (Char.ofNat n).toNat = n := by
  have h3 : n.isValidChar := Or.inl h
  rw [Char.ofNat, dif_pos h3]
  rfl

theorem tolower_eq_toLower (c : Char) : tolower c = c.toLower := by
  simp only [tolower, Char.toLower, ge_iff_le]

theorem tolower_eq_space_iff (c : Char) : tolower c = ' ' ↔ c = ' ' := by
  constructor
  · intro h
    unfold tolower at h
    split at h
    · rename_i hc
      exfalso
      have h2 : (Char.ofNat (c.toNat + 32)).toNat = 32 := by rw [h]; rfl
      rw [toNat_ofNat_small _ (by omega)] at h2
      omega
    · exact h
  · rintro rfl
    rfl

theorem filter_map_tolower (l : List Char) :
    (l.map tolower).filter (fun c => c != ' ') =
      (l.filter (fun c => c != ' ')).map Char.toLower := by
  induction l with
  | nil => rfl
  | cons c cs ih =>
    by_cases hc : c = ' '
    · subst hc
      have h1 : tolower ' ' = ' ' := rfl
      simpa [List.filter_cons, h1] using ih
    · have hc2 : tolower c ≠ ' ' := fun h => hc ((tolower_eq_space_iff c).1 h)
      rw [tolower_eq_toLower] at hc2
      rw [List.map_cons, List.filter_cons, List.filter_cons]
      simp only [bne_iff_ne, ne_eq, hc, hc2, not_false_eq_true, if_true, List.map_cons, ih,
        tolower_eq_toLower]

theorem normalise_eq_lowerCaseWithoutSpaces (name : String) :
    normalise name = lowerCaseWithoutSpaces name := by
  simp only [normalise, lowerCaseWithoutSpaces, filter_map_tolower]

/-- After the name-based setter the strategy has the class of the object the
key chain built, whether or not the object was replaced. -/
theorem SetLayoutStrategy_name_class (self : vtkRenderedGraphRepresentation) (name : String) :
    (self.SetLayoutStrategy_name name).GetLayoutStrategy.GetClassName =
      (layoutStrategyForKey (normalise name) self.nextId).1.ClassName := by
  simp only [SetLayoutStrategy_name, GetLayoutStrategy, vtkObject.GetClassName, reportError, SetLayoutStrategy, SetLayoutStrategyName]
  split_ifs <;> simp_all

theorem SetEdgeLayoutStrategy_name_class (self : vtkRenderedGraphRepresentation)
    (name : String) :
    (self.SetEdgeLayoutStrategy_name name).GetEdgeLayoutStrategy.GetClassName =
      (edgeLayoutStrategyForKey (normalise name) self.nextId).1.ClassName := by
  simp only [SetEdgeLayoutStrategy_name, GetEdgeLayoutStrategy, vtkObject.GetClassName, reportError, SetEdgeLayoutStrategy, SetEdgeLayoutStrategyName]
  split_ifs <;> simp_all

/-- The error log after the name-based setter: one message more exactly when the
key chain ended in its error branch. -/
theorem SetLayoutStrategy_name_errors (self : vtkRenderedGraphRepresentation) (name : String) :
    (self.SetLayoutStrategy_name name).errors =
      if (layoutStrategyForKey (normalise name) self.nextId).2
      then self.errors ++ [unknownStrategyMessage name] else self.errors := by
  simp only [SetLayoutStrategy_name, GetLayoutStrategy, vtkObject.GetClassName, reportError, SetLayoutStrategy, SetLayoutStrategyName]
  split_ifs <;> simp_all

theorem SetEdgeLayoutStrategy_name_errors (self : vtkRenderedGraphRepresentation)
    (name : String) :
    (self.SetEdgeLayoutStrategy_name name).errors =
      if (edgeLayoutStrategyForKey (normalise name) self.nextId).2
      then self.errors ++ [unknownStrategyMessage name] else self.errors := by
  simp only [SetEdgeLayoutStrategy_name, GetEdgeLayoutStrategy, vtkObject.GetClassName, reportError, SetEdgeLayoutStrategy, SetEdgeLayoutStrategyName]
  split_ifs <;> simp_all

theorem layoutStrategyForKey_table (key cls : String) (id : Nat)
    (h : (key, cls) ∈ layoutStrategyTable) :
    layoutStrategyForKey key id =
      (vtkGraphLayoutStrategy.New cls (if key = "passthrough" then id else id + 1), false) := by
  simp only [layoutStrategyTable, List.mem_cons, Prod.mk.injEq, List.mem_singleton,
    List.mem_nil_iff, or_false] at h
  rcases h with h | h | h | h | h | h | h | h | h | h | h <;>
    (obtain ⟨rfl, rfl⟩ := h; simp [layoutStrategyForKey])

theorem layoutStrategyForKey_unknown (key : String) (id : Nat)
    (h : key ∉ layoutStrategyKeys) :
    layoutStrategyForKey key id =
      (vtkGraphLayoutStrategy.New "vtkPassThroughLayoutStrategy" id, true) := by
  simp only [layoutStrategyKeys, layoutStrategyTable, List.map, List.mem_cons,
    List.mem_singleton, List.mem_nil_iff, or_false, not_or] at h
  simp [layoutStrategyForKey, h]

theorem edgeLayoutStrategyForKey_table (key cls : String) (id : Nat)
    (h : (key, cls) ∈ edgeLayoutStrategyTable) :
    edgeLayoutStrategyForKey key id =
      (vtkEdgeLayoutStrategy.New cls (if key = "passthrough" then id else id + 1), false) := by
  simp only [edgeLayoutStrategyTable, List.mem_cons, Prod.mk.injEq, List.mem_singleton,
    List.mem_nil_iff, or_false] at h
  rcases h with h | h | h <;>
    (obtain ⟨rfl, rfl⟩ := h; simp [edgeLayoutStrategyForKey])

theorem edgeLayoutStrategyForKey_unknown (key : String) (id : Nat)
    (h : key ∉ edgeLayoutStrategyTable.map Prod.fst) :
    edgeLayoutStrategyForKey key id =
      (vtkEdgeLayoutStrategy.New "vtkPassThroughEdgeStrategy" id, true) := by
  simp only [edgeLayoutStrategyTable, List.map, List.mem_cons,
    List.mem_singleton, List.mem_nil_iff, or_false, not_or] at h
  simp [edgeLayoutStrategyForKey, h]

theorem layoutStrategyForKey_class_indep (key : String) (id id2 : Nat) :
    (layoutStrategyForKey key id).1.ClassName = (layoutStrategyForKey key id2).1.ClassName := by
  by_cases h : key ∈ layoutStrategyKeys
  · simp only [layoutStrategyKeys, List.mem_map, Prod.exists, exists_and_right,
      exists_eq_right] at h
    obtain ⟨cls, hc⟩ := h
    rw [layoutStrategyForKey_table _ _ _ hc, layoutStrategyForKey_table _ _ _ hc]
    rfl
  · rw [layoutStrategyForKey_unknown _ _ h, layoutStrategyForKey_unknown _ _ h]
    rfl

theorem unknownStrategyMessage_start (name : String) :
    ∃ rest, unknownStrategyMessage name = "Unknown layout strategy" ++ rest := by
  refine ⟨": " ++ String.singleton (Char.ofNat 34) ++ name ++ String.singleton (Char.ofNat 34), ?_⟩
  have h : "Unknown layout strategy: " = "Unknown layout strategy" ++ ": " := by decide
  simp only [unknownStrategyMessage, h, String.append_assoc]

theorem SetLayoutStrategy_name_strategy (self : vtkRenderedGraphRepresentation)
    (name : String) :
    (self.SetLayoutStrategy_name name).GetLayoutStrategy =
      if (layoutStrategyForKey (normalise name) self.nextId).1.ClassName ≠
          self.GetLayoutStrategy.GetClassName
      then (layoutStrategyForKey (normalise name) self.nextId).1
      else self.GetLayoutStrategy := by
  simp only [SetLayoutStrategy_name, GetLayoutStrategy, vtkObject.GetClassName, reportError,
    SetLayoutStrategy, SetLayoutStrategyName]
  split_ifs <;> simp_all

theorem layoutDisplayName_New (cls display : String) (id : Nat)
    (h : (cls, display) ∈ layoutDisplayTable) :
    layoutDisplayName (vtkGraphLayoutStrategy.New cls id) = display ∧
      (normalise display, cls) ∈ layoutStrategyTable := by
  simp only [layoutDisplayTable, List.mem_cons, Prod.mk.injEq, List.mem_singleton,
    List.mem_nil_iff, or_false] at h
  rcases h with h | h | h | h | h | h | h | h | h | h | h <;>
    (obtain ⟨rfl, rfl⟩ := h; exact ⟨rfl, by decide⟩)

theorem edgeLayoutDisplayName_New (cls display : String) (id : Nat)
    (h : (cls, display) ∈ edgeLayoutDisplayTable) :
    edgeLayoutDisplayName (vtkEdgeLayoutStrategy.New cls id) = display ∧
      (normalise display, cls) ∈ edgeLayoutStrategyTable := by
  simp only [edgeLayoutDisplayTable, List.mem_cons, Prod.mk.injEq, List.mem_singleton,
    List.mem_nil_iff, or_false] at h
  rcases h with h | h | h <;>
    (obtain ⟨rfl, rfl⟩ := h; exact ⟨rfl, by decide⟩)

end StrategyLemmas

section StrategyClaims

open vtkRenderedGraphRepresentation

/-- C1: `SetLayoutStrategy(const char*)` lower-cases the name and deletes every
space; when the resulting key is in the table of eleven, the layout strategy
after the call has the class the table gives for the key; and two names with
the same key (names differing only in letter case or spaces) leave strategies
of the same class, whatever the states the calls start from. -/
theorem SetLayoutStrategy_name_selects_table_class
    (self : vtkRenderedGraphRepresentation) (name : String) :
    normalise name = lowerCaseWithoutSpaces name ∧
    (∀ cls, (normalise name, cls) ∈ layoutStrategyTable →
      (self.SetLayoutStrategy_name name).GetLayoutStrategy.GetClassName = cls) ∧
    (∀ (other : vtkRenderedGraphRepresentation) (name2 : String),
      normalise name2 = normalise name →
      (other.SetLayoutStrategy_name name2).GetLayoutStrategy.GetClassName =
        (self.SetLayoutStrategy_name name).GetLayoutStrategy.GetClassName) := by
  refine ⟨normalise_eq_lowerCaseWithoutSpaces name, ?_, ?_⟩
  · intro cls h
    rw [SetLayoutStrategy_name_class, layoutStrategyForKey_table _ _ _ h]
    rfl
  · intro other name2 h
    rw [SetLayoutStrategy_name_class, SetLayoutStrategy_name_class, h]
    exact layoutStrategyForKey_class_indep _ _ _

theorem SetLayoutStrategy_name_selects_table_class_witness :
    (normalise "Force Directed", "vtkForceDirectedLayoutStrategy") ∈ layoutStrategyTable ∧
    (New.SetLayoutStrategy_name "Force Directed").GetLayoutStrategy.GetClassName =
      "vtkForceDirectedLayoutStrategy" ∧
    normalise "FORCE  DIRECTED" = normalise "Force Directed" ∧
    ((New.SetLayoutStrategy_name "forcedirected").SetLayoutStrategy_name
        "FORCE  DIRECTED").GetLayoutStrategy.GetClassName =
      (New.SetLayoutStrategy_name "Force Directed").GetLayoutStrategy.GetClassName :=
  ⟨by decide,
   (SetLayoutStrategy_name_selects_table_class New "Force Directed").2.1 _ (by decide),
   by decide,
   (SetLayoutStrategy_name_selects_table_class New "Force Directed").2.2 _ _ (by decide)⟩

/-- C2: when the normalised key is none of the eleven recognised keys,
`SetLayoutStrategy(const char*)` appends the error `Unknown layout strategy: "name"`
and the strategy afterwards has class `vtkPassThroughLayoutStrategy`: the newly
created pass-through object unless the current strategy already has that class, in
which case the current object stays. When the key is recognised the error log is
unchanged. -/
theorem SetLayoutStrategy_name_unknown_key
    (self : vtkRenderedGraphRepresentation) (name : String) :
    (normalise name ∉ layoutStrategyKeys →
      (self.SetLayoutStrategy_name name).errors =
        self.errors ++ [unknownStrategyMessage name] ∧
      (∃ rest, unknownStrategyMessage name = "Unknown layout strategy" ++ rest) ∧
      (self.SetLayoutStrategy_name name).GetLayoutStrategy.GetClassName =
        "vtkPassThroughLayoutStrategy" ∧
      (self.GetLayoutStrategy.GetClassName ≠ "vtkPassThroughLayoutStrategy" →
        (self.SetLayoutStrategy_name name).GetLayoutStrategy =
          vtkGraphLayoutStrategy.New "vtkPassThroughLayoutStrategy" self.nextId) ∧
      (self.GetLayoutStrategy.GetClassName = "vtkPassThroughLayoutStrategy" →
        (self.SetLayoutStrategy_name name).GetLayoutStrategy = self.GetLayoutStrategy)) ∧
    (normalise name ∈ layoutStrategyKeys →
      (self.SetLayoutStrategy_name name).errors = self.errors) := by
  constructor
  · intro h
    have hk := layoutStrategyForKey_unknown (normalise name) self.nextId h
    refine ⟨?_, unknownStrategyMessage_start name, ?_, ?_, ?_⟩
    · rw [SetLayoutStrategy_name_errors, hk]; rfl
    · rw [SetLayoutStrategy_name_class, hk]; rfl
    · intro hne
      rw [SetLayoutStrategy_name_strategy, hk, if_pos]
      exact fun h2 => hne h2.symm
    · intro heq
      rw [SetLayoutStrategy_name_strategy, hk, if_neg]
      simp only [vtkGraphLayoutStrategy.New, ne_eq, not_not]
      exact heq.symm
  · intro h
    simp only [layoutStrategyKeys, List.mem_map, Prod.exists, exists_and_right,
      exists_eq_right] at h
    obtain ⟨cls, hc⟩ := h
    rw [SetLayoutStrategy_name_errors, layoutStrategyForKey_table _ _ _ hc]
    rfl

theorem SetLayoutStrategy_name_unknown_key_witness :
    normalise "Spring Embedder" ∉ layoutStrategyKeys ∧
    (New.SetLayoutStrategy_name "Spring Embedder").errors =
      [unknownStrategyMessage "Spring Embedder"] ∧
    (New.SetLayoutStrategy_name "Spring Embedder").GetLayoutStrategy =
      vtkGraphLayoutStrategy.New "vtkPassThroughLayoutStrategy" 3 ∧
    normalise "Cosmic Tree" ∈ layoutStrategyKeys ∧
    (New.SetLayoutStrategy_name "Cosmic Tree").errors = [] :=
  ⟨by decide,
   ((SetLayoutStrategy_name_unknown_key New "Spring Embedder").1 (by decide)).1,
   ((SetLayoutStrategy_name_unknown_key New "Spring Embedder").1 (by decide)).2.2.2.1
     (by decide),
   by decide,
   (SetLayoutStrategy_name_unknown_key New "Cosmic Tree").2 (by decide)⟩

/-- C3: for each of the eleven recognised strategy classes,
`SetLayoutStrategy(vtkGraphLayoutStrategy*)` called with an object of that class
stores the class's display name in `LayoutStrategyName`, and
`SetLayoutStrategy(const char*)` called with that display name reports no error
and leaves a strategy of that class. For an object that is an instance of none of
the eleven classes the stored name is `Unknown`. -/
theorem layout_strategy_display_name_round_trip
    (self other : vtkRenderedGraphRepresentation) :
    (∀ cls display id, (cls, display) ∈ layoutDisplayTable →
      (self.SetLayoutStrategy (some (vtkGraphLayoutStrategy.New cls id))).LayoutStrategyName =
        some display ∧
      (self.SetLayoutStrategy (some (vtkGraphLayoutStrategy.New cls id))).GetLayoutStrategy =
        vtkGraphLayoutStrategy.New cls id ∧
      (other.SetLayoutStrategy_name display).errors = other.errors ∧
      (other.SetLayoutStrategy_name display).GetLayoutStrategy.GetClassName = cls) ∧
    (∀ s : vtkObject, (∀ p ∈ layoutDisplayTable, SafeDownCast p.1 s = false) →
      (self.SetLayoutStrategy (some s)).LayoutStrategyName = some "Unknown") := by
  constructor
  · intro cls display id h
    obtain ⟨h1, h2⟩ := layoutDisplayName_New cls display id h
    refine ⟨?_, rfl, ?_, ?_⟩
    · simp only [SetLayoutStrategy, SetLayoutStrategyName, h1]
    · rw [SetLayoutStrategy_name_errors, layoutStrategyForKey_table _ _ _ h2]
      rfl
    · rw [SetLayoutStrategy_name_class, layoutStrategyForKey_table _ _ _ h2]
      rfl
  · intro s h
    simp only [layoutDisplayTable, List.mem_cons, List.mem_singleton, List.mem_nil_iff,
      or_false, forall_eq_or_imp, forall_eq] at h
    simp [SetLayoutStrategy, SetLayoutStrategyName, layoutDisplayName, h]

theorem layout_strategy_display_name_round_trip_witness :
    ("vtkCosmicTreeLayoutStrategy", "Cosmic Tree") ∈ layoutDisplayTable ∧
    (New.SetLayoutStrategy
      (some (vtkGraphLayoutStrategy.New "vtkCosmicTreeLayoutStrategy" 7))).LayoutStrategyName =
        some "Cosmic Tree" ∧
    (New.SetLayoutStrategy_name "Cosmic Tree").GetLayoutStrategy.GetClassName =
      "vtkCosmicTreeLayoutStrategy" ∧
    (∀ p ∈ layoutDisplayTable, SafeDownCast p.1
      (vtkGraphLayoutStrategy.New "vtkAssignCoordinatesLayoutStrategy" 7) = false) ∧
    (New.SetLayoutStrategy
      (some (vtkGraphLayoutStrategy.New "vtkAssignCoordinatesLayoutStrategy" 7))).LayoutStrategyName =
        some "Unknown" :=
  ⟨by decide,
   ((layout_strategy_display_name_round_trip New New).1 _ _ 7 (by decide)).1,
   ((layout_strategy_display_name_round_trip New New).1 _ _ 7 (by decide)).2.2.2,
   by decide,
   (layout_strategy_display_name_round_trip New New).2 _ (by decide)⟩

/-- C4: `SetEdgeLayoutStrategy(const char*)` normalises the name and leaves an
edge strategy of class ArcParallel for `arcparallel`, Geo for `geo`, PassThrough
for `passthrough`, without reporting an error; any other key reports the error and
leaves a PassThrough edge strategy. Each display name stored by
`SetEdgeLayoutStrategy(vtkEdgeLayoutStrategy*)` (`Arc Parallel`, `Geo`,
`Pass Through`) selects the same class again when passed back by name. -/
theorem edge_layout_strategy_table_and_round_trip
    (self other : vtkRenderedGraphRepresentation) (name : String) :
    normalise name = lowerCaseWithoutSpaces name ∧
    (∀ cls, (normalise name, cls) ∈ edgeLayoutStrategyTable →
      (self.SetEdgeLayoutStrategy_name name).GetEdgeLayoutStrategy.GetClassName = cls ∧
      (self.SetEdgeLayoutStrategy_name name).errors = self.errors) ∧
    (normalise name ∉ edgeLayoutStrategyTable.map Prod.fst →
      (self.SetEdgeLayoutStrategy_name name).errors =
        self.errors ++ [unknownStrategyMessage name] ∧
      (self.SetEdgeLayoutStrategy_name name).GetEdgeLayoutStrategy.GetClassName =
        "vtkPassThroughEdgeStrategy") ∧
    (∀ cls display id, (cls, display) ∈ edgeLayoutDisplayTable →
      (self.SetEdgeLayoutStrategy
        (some (vtkEdgeLayoutStrategy.New cls id))).EdgeLayoutStrategyName = some display ∧
      (other.SetEdgeLayoutStrategy_name display).errors = other.errors ∧
      (other.SetEdgeLayoutStrategy_name display).GetEdgeLayoutStrategy.GetClassName = cls) := by
  refine ⟨normalise_eq_lowerCaseWithoutSpaces name, ?_, ?_, ?_⟩
  · intro cls h
    rw [SetEdgeLayoutStrategy_name_class, SetEdgeLayoutStrategy_name_errors,
      edgeLayoutStrategyForKey_table _ _ _ h]
    exact ⟨rfl, rfl⟩
  · intro h
    rw [SetEdgeLayoutStrategy_name_class, SetEdgeLayoutStrategy_name_errors,
      edgeLayoutStrategyForKey_unknown _ _ h]
    exact ⟨rfl, rfl⟩
  · intro cls display id h
    obtain ⟨h1, h2⟩ := edgeLayoutDisplayName_New cls display id h
    refine ⟨?_, ?_, ?_⟩
    · simp only [SetEdgeLayoutStrategy, SetEdgeLayoutStrategyName, h1]
    · rw [SetEdgeLayoutStrategy_name_errors, edgeLayoutStrategyForKey_table _ _ _ h2]
      rfl
    · rw [SetEdgeLayoutStrategy_name_class, edgeLayoutStrategyForKey_table _ _ _ h2]
      rfl

theorem edge_layout_strategy_table_and_round_trip_witness :
    (normalise "G e o", "vtkGeoEdgeStrategy") ∈ edgeLayoutStrategyTable ∧
    (New.SetEdgeLayoutStrategy_name "G e o").GetEdgeLayoutStrategy.GetClassName =
      "vtkGeoEdgeStrategy" ∧
    normalise "bundled" ∉ edgeLayoutStrategyTable.map Prod.fst ∧
    (New.SetEdgeLayoutStrategy_name "bundled").GetEdgeLayoutStrategy.GetClassName =
      "vtkPassThroughEdgeStrategy" ∧
    ("vtkArcParallelEdgeStrategy", "Arc Parallel") ∈ edgeLayoutDisplayTable ∧
    ((New.SetEdgeLayoutStrategy_name "geo").SetEdgeLayoutStrategy_name
      "Arc Parallel").GetEdgeLayoutStrategy.GetClassName = "vtkArcParallelEdgeStrategy" :=
  ⟨by decide,
   ((edge_layout_strategy_table_and_round_trip New New "G e o").2.1 _ (by decide)).1,
   by decide,
   ((edge_layout_strategy_table_and_round_trip New New "bundled").2.2.1 (by decide)).2,
   by decide,
   ((edge_layout_strategy_table_and_round_trip New (New.SetEdgeLayoutStrategy_name "geo")
      "x").2.2.2 _ _ 0 (by decide)).2.2⟩

end StrategyClaims

section SelectionLemmas

open vtkRenderedGraphRepresentation

theorem foldl_classifyNode_found (nodes : List vtkSelectionNode) (st : PickedNodes) :
    (nodes.foldl classifyNode st).foundEdgeNode = true ↔
      st.foundEdgeNode = true ∨ ∃ n ∈ nodes, pickedOnEdgeActor n := by
  induction nodes generalizing st with
  | nil => simp
  | cons n ns ih =>
    rw [List.foldl_cons, ih]
    simp only [List.mem_cons, exists_eq_or_imp]
    have key : (classifyNode st n).foundEdgeNode = true ↔
        st.foundEdgeNode = true ∨ pickedOnEdgeActor n := by
      unfold classifyNode pickedOnEdgeActor
      by_cases h1 : n.ContentType = some SelectionContent.FRUSTUM
      · simp [h1]
      · by_cases h2 : n.PROP = some vtkProp.VertexActor
        · simp [h1, h2]
        · by_cases h3 : n.PROP = some vtkProp.EdgeActor
          · simp [h1, h3]
          · simp [h1, h2, h3]
    rw [key, or_assoc]

theorem classify_found (sel : vtkSelection) :
    (classify sel).foundEdgeNode = true ↔ ∃ n ∈ sel.Nodes, pickedOnEdgeActor n := by
  have h := foldl_classifyNode_found sel.Nodes PickedNodes.init
  simpa [classify, PickedNodes.init] using h

/-- After the classification loop the vertex node is the last node that is a
`FRUSTUM` node or has the vertex actor as `PROP`, and the node the loop started
with when there is none. -/
theorem foldl_classifyNode_vertexNode (nodes : List vtkSelectionNode) (st : PickedNodes) :
    (nodes.foldl classifyNode st).vertexNode =
      (nodes.reverse.find? (fun n =>
        decide (n.ContentType = some SelectionContent.FRUSTUM ∨
          n.PROP = some vtkProp.VertexActor))).getD st.vertexNode := by
  induction nodes generalizing st with
  | nil => rfl
  | cons n ns ih =>
    rw [List.foldl_cons, ih, List.reverse_cons, List.find?_append]
    cases hfind : ns.reverse.find? (fun n =>
        decide (n.ContentType = some SelectionContent.FRUSTUM ∨
          n.PROP = some vtkProp.VertexActor)) with
    | some m => rfl
    | none =>
      unfold classifyNode
      by_cases h1 : n.ContentType = some SelectionContent.FRUSTUM
      · simp [h1]
      · by_cases h2 : n.PROP = some vtkProp.VertexActor
        · simp [h1, h2]
        · by_cases h3 : n.PROP = some vtkProp.EdgeActor
          · simp [h1, h2, h3]
          · simp [h1, h2, h3]

/-- After the classification loop the edge node is the last node that is a
`FRUSTUM` node or has the edge actor as `PROP`, and the node the loop started
with when there is none. -/
theorem foldl_classifyNode_edgeNode (nodes : List vtkSelectionNode) (st : PickedNodes) :
    (nodes.foldl classifyNode st).edgeNode =
      (nodes.reverse.find? (fun n =>
        decide (n.ContentType = some SelectionContent.FRUSTUM ∨
          n.PROP = some vtkProp.EdgeActor))).getD st.edgeNode := by
  induction nodes generalizing st with
  | nil => rfl
  | cons n ns ih =>
    rw [List.foldl_cons, ih, List.reverse_cons, List.find?_append]
    cases hfind : ns.reverse.find? (fun n =>
        decide (n.ContentType = some SelectionContent.FRUSTUM ∨
          n.PROP = some vtkProp.EdgeActor)) with
    | some m => rfl
    | none =>
      unfold classifyNode
      by_cases h1 : n.ContentType = some SelectionContent.FRUSTUM
      · simp [h1]
      · by_cases h2 : n.PROP = some vtkProp.VertexActor
        · have h3 : ¬ n.PROP = some vtkProp.EdgeActor := by rw [h2]; decide
          simp [h1, h2, h3]
        · by_cases h3 : n.PROP = some vtkProp.EdgeActor
          · simp [h1, h2, h3]
          · simp [h1, h2, h3]

theorem classify_vertexNode (sel : vtkSelection) :
    (classify sel).vertexNode = pickedVertexNode sel := by
  unfold classify pickedVertexNode
  simp only [foldl_classifyNode_vertexNode]
  cases sel.Nodes.reverse.find? (fun n =>
      decide (n.ContentType = some SelectionContent.FRUSTUM ∨
        n.PROP = some vtkProp.VertexActor)) <;> rfl

theorem classify_edgeNode (sel : vtkSelection) :
    (classify sel).edgeNode = pickedEdgeNode sel := by
  unfold classify pickedEdgeNode
  simp only [foldl_classifyNode_edgeNode]
  cases sel.Nodes.reverse.find? (fun n =>
      decide (n.ContentType = some SelectionContent.FRUSTUM ∨
        n.PROP = some vtkProp.EdgeActor)) <;> rfl

/-- The loop over the converted vertex nodes does not finish when one of them
has no selection list. -/
theorem copyVertexNodes_none (nodes : List vtkSelectionNode) (st : CopyState)
    (h : ∃ n ∈ nodes, n.SelectionList = none) : copyVertexNodes st nodes = none := by
  induction nodes generalizing st with
  | nil =>
    obtain ⟨n, hn, -⟩ := h
    exact absurd hn (List.not_mem_nil _)
  | cons m ms ih =>
    cases hm : m.SelectionList with
    | none => simp [copyVertexNodes, copyVertexNode, vtkSelectionNode.GetNumberOfTuples, hm]
    | some l =>
      have hrest : ∃ n ∈ ms, n.SelectionList = none := by
        obtain ⟨n, hn, hnone⟩ := h
        rcases List.mem_cons.mp hn with rfl | hn
        · rw [hm] at hnone; cases hnone
        · exact ⟨n, hn, hnone⟩
      simp only [copyVertexNodes, copyVertexNode, vtkSelectionNode.GetNumberOfTuples, hm,
        Option.map_some']
      exact ih _ hrest

/-- The loop over the converted vertex nodes when each has a selection list: the
nodes are appended in order, and a selected vertex is found exactly when one of
them has a tuple. -/
theorem copyVertexNodes_some (nodes : List vtkSelectionNode) (st : CopyState)
    (h : ∀ n ∈ nodes, n.SelectionList ≠ none) :
    ∃ r, copyVertexNodes st nodes = some r ∧
      r.converted = { Nodes := st.converted.Nodes ++ nodes } ∧
      (r.selectedVerticesFound = true ↔
        st.selectedVerticesFound = true ∨ ∃ n ∈ nodes, n.hasTuple) := by
  induction nodes generalizing st with
  | nil => exact ⟨st, rfl, by simp, by simp⟩
  | cons m ms ih =>
    cases hm : m.SelectionList with
    | none => exact absurd hm (h m (List.mem_cons_self _ _))
    | some l =>
      obtain ⟨r, hr, hnodes, hfound⟩ := ih
        { selectedVerticesFound := if l.length > 0 then true else st.selectedVerticesFound
          converted := st.converted.AddNode m }
        (fun n hn => h n (List.mem_cons_of_mem _ hn))
      refine ⟨r, ?_, ?_, ?_⟩
      · simp only [copyVertexNodes, copyVertexNode, vtkSelectionNode.GetNumberOfTuples, hm,
          Option.map_some']
        exact hr
      · rw [hnodes]
        simp [vtkSelection.AddNode]
      · rw [hfound]
        have hmt : m.hasTuple ↔ 0 < l.length := by
          simp [vtkSelectionNode.hasTuple, vtkSelectionNode.GetNumberOfTuples, hm]
        simp only [List.mem_cons, exists_eq_or_imp, hmt]
        by_cases hl : 0 < l.length
        · simp [hl]
        · simp [hl]

theorem foldl_AddNode_Nodes (nodes : List vtkSelectionNode) (sel : vtkSelection) :
    nodes.foldl vtkSelection.AddNode sel = { Nodes := sel.Nodes ++ nodes } := by
  induction nodes generalizing sel with
  | nil => simp
  | cons n ns ih =>
    rw [List.foldl_cons, ih]
    simp [vtkSelection.AddNode]

/-- Every node has an empty selection list exactly when every node has a
selection list and none has a tuple. -/
theorem all_empty_iff (nodes : List vtkSelectionNode) :
    (∀ n ∈ nodes, n.SelectionList = some []) ↔
      (∀ n ∈ nodes, n.SelectionList ≠ none) ∧ ¬ ∃ n ∈ nodes, n.hasTuple := by
  constructor
  · intro h
    refine ⟨fun n hn => by rw [h n hn]; simp, ?_⟩
    rintro ⟨n, hn, k, hk, hpos⟩
    simp [vtkSelectionNode.GetNumberOfTuples, h n hn] at hk
    omega
  · rintro ⟨h1, h2⟩ n hn
    cases hl : n.SelectionList with
    | none => exact absurd hl (h1 n hn)
    | some l =>
      cases l with
      | nil => rfl
      | cons a as =>
        exfalso
        apply h2
        refine ⟨n, hn, (a :: as).length, ?_, by simp⟩
        simp [vtkSelectionNode.GetNumberOfTuples, hl]

/-- The three ways through `ConvertSelection` with an input. When a node of the
vertex conversion has no selection list the call does not return, after the two
vertex-stage calls. Otherwise, when an edge node was found and no converted
vertex node has a tuple, both blocks run; and in every other case only the vertex
block runs. The returned nodes and the conversion calls are those of the
two-stage conversions of the picked nodes. -/
theorem ConvertSelection_cases (self : vtkRenderedGraphRepresentation)
    (ctx : SelectionContext) (sel : vtkSelection) (input : Nat)
    (h : self.Input = some input) :
    ((∃ n ∈ (vertexConversion ctx sel input).Nodes, n.SelectionList = none) →
      (self.ConvertSelection ctx sel).converted = none ∧
        (self.ConvertSelection ctx sel).calls =
          [firstStageCall (pickedVertexNode sel) ConversionData.VertexGlyphOutput
              ctx.VertexGlyph_HasPedigreeIds,
           secondStageCall ctx (pickedVertexNode sel) ConversionData.VertexGlyphOutput
              ctx.VertexGlyph_HasPedigreeIds SelectionField.VERTEX input]) ∧
    ((∀ n ∈ (vertexConversion ctx sel input).Nodes, n.SelectionList ≠ none) →
      ((classify sel).foundEdgeNode = true ∧
          (¬ ∃ n ∈ (vertexConversion ctx sel input).Nodes, n.hasTuple) →
        (self.ConvertSelection ctx sel).converted =
            some { Nodes := (vertexConversion ctx sel input).Nodes ++
              (edgeConversion ctx sel input).Nodes } ∧
          (self.ConvertSelection ctx sel).calls =
            [firstStageCall (pickedVertexNode sel) ConversionData.VertexGlyphOutput
                ctx.VertexGlyph_HasPedigreeIds,
             secondStageCall ctx (pickedVertexNode sel) ConversionData.VertexGlyphOutput
                ctx.VertexGlyph_HasPedigreeIds SelectionField.VERTEX input,
             firstStageCall (pickedEdgeNode sel) ConversionData.GraphToPolyOutput
                ctx.GraphToPoly_HasPedigreeIds,
             secondStageCall ctx (pickedEdgeNode sel) ConversionData.GraphToPolyOutput
                ctx.GraphToPoly_HasPedigreeIds SelectionField.EDGE input]) ∧
      (¬ ((classify sel).foundEdgeNode = true ∧
          (¬ ∃ n ∈ (vertexConversion ctx sel input).Nodes, n.hasTuple)) →
        (self.ConvertSelection ctx sel).converted = some (vertexConversion ctx sel input) ∧
          (self.ConvertSelection ctx sel).calls =
            [firstStageCall (pickedVertexNode sel) ConversionData.VertexGlyphOutput
                ctx.VertexGlyph_HasPedigreeIds,
             secondStageCall ctx (pickedVertexNode sel) ConversionData.VertexGlyphOutput
                ctx.VertexGlyph_HasPedigreeIds SelectionField.VERTEX input])) := by
  have hv := classify_vertexNode sel
  have he := classify_edgeNode sel
  constructor
  · intro hnull
    have hc := copyVertexNodes_none (vertexConversion ctx sel input).Nodes
      { selectedVerticesFound := false, converted := vtkSelection.New } hnull
    unfold ConvertSelection
    simp only [h, hv, he]
    simp only [vertexConversion, twoStageConversion, vtkSelection.New, vtkSelection.AddNode,
      List.nil_append, vtkSelectionNode.SetFieldType] at hc ⊢
    simp only [hc, firstStageCall, secondStageCall, and_self]
  · intro hlists
    obtain ⟨r, hr, hnodes, hfound⟩ := copyVertexNodes_some
      (vertexConversion ctx sel input).Nodes
      { selectedVerticesFound := false, converted := vtkSelection.New } hlists
    simp only [Bool.false_eq_true, false_or] at hfound
    simp only [vtkSelection.New, List.nil_append] at hnodes
    constructor
    · rintro ⟨hf, hno⟩
      have hsv : r.selectedVerticesFound = false := by
        have := (not_congr hfound).2 hno
        simpa using this
      unfold ConvertSelection
      simp only [h, hv, he]
      simp only [vertexConversion, twoStageConversion, vtkSelection.New, vtkSelection.AddNode,
        List.nil_append, vtkSelectionNode.SetFieldType] at hr hnodes ⊢
      simp only [hr, hf, hsv, hnodes, Bool.not_false, Bool.and_self, if_true,
        foldl_AddNode_Nodes, edgeConversion, twoStageConversion, firstStageCall,
        secondStageCall, and_self]
    · intro hno
      have hcond : ((classify sel).foundEdgeNode && !r.selectedVerticesFound) = false := by
        by_cases hf : (classify sel).foundEdgeNode = true
        · have hex : ∃ n ∈ (vertexConversion ctx sel input).Nodes, n.hasTuple := by
            by_contra hcon
            exact hno ⟨hf, hcon⟩
          simp [hfound.2 hex]
        · simp [hf]
      unfold ConvertSelection
      simp only [h, hv, he]
      simp only [vertexConversion, twoStageConversion, vtkSelection.New, vtkSelection.AddNode,
        List.nil_append, vtkSelectionNode.SetFieldType] at hr hnodes ⊢
      simp only [hr, hcond, hnodes, Bool.false_eq_true, if_false,
        firstStageCall, secondStageCall, and_self]

end SelectionLemmas

section SelectionClaims

open vtkRenderedGraphRepresentation

/-- C5 as stated fails: a `FRUSTUM` node whose `PROP` is the edge
actor is a node of the input selection with the edge actor as `PROP`, and the one
node of the vertex conversion has an empty selection list, yet the edge
conversion is not run: no call is made on the `GraphToPoly` output and the
returned selection is the vertex conversion alone. -/
theorem ConvertSelection_frustum_with_edge_PROP_runs_no_edge_conversion :
    ¬ ((∃ c ∈ (representationWithInput.ConvertSelection identityContext
          (vtkSelection.mk [emptyFrustumOnEdgeActor])).calls,
        c.data = ConversionData.GraphToPolyOutput) ↔
      ((∃ n ∈ (vtkSelection.mk [emptyFrustumOnEdgeActor]).Nodes,
          n.PROP = some vtkProp.EdgeActor) ∧
        ∀ n ∈ (vertexConversion identityContext
            (vtkSelection.mk [emptyFrustumOnEdgeActor]) 5).Nodes,
          n.SelectionList = some [])) ∧
    (representationWithInput.ConvertSelection identityContext
        (vtkSelection.mk [emptyFrustumOnEdgeActor])).converted =
      some (vertexConversion identityContext (vtkSelection.mk [emptyFrustumOnEdgeActor]) 5) ∧
    (edgeConversion identityContext (vtkSelection.mk [emptyFrustumOnEdgeActor]) 5).Nodes ≠
      [] := by
  decide

/-- C5 amended: with a non-null input, vertices take precedence over edges in
`ConvertSelection`. The edge conversion is run, and its nodes are appended after
the vertex conversion's nodes, if and only if some node of the input selection is
a pick on the edge actor (its `PROP` is the edge actor and it is not a `FRUSTUM`
node) and every node of the vertex conversion has an empty selection list. When
every node of the vertex conversion has a selection list, the result is
otherwise exactly the vertex conversion's nodes, in order; in particular that is
the result whenever a converted vertex node has a tuple. When a node of the
vertex conversion has no selection list, the unchecked
`GetSelectionList()->GetNumberOfTuples()` dereferences a null pointer: the call
does not return, and no edge conversion was run. -/
theorem ConvertSelection_vertices_take_precedence
    (self : vtkRenderedGraphRepresentation) (ctx : SelectionContext) (sel : vtkSelection)
    (input : Nat) (h : self.Input = some input) :
    ((∃ c ∈ (self.ConvertSelection ctx sel).calls, c.data = ConversionData.GraphToPolyOutput) ↔
      ((∃ n ∈ sel.Nodes, pickedOnEdgeActor n) ∧
        ∀ n ∈ (vertexConversion ctx sel input).Nodes, n.SelectionList = some [])) ∧
    (((∃ n ∈ sel.Nodes, pickedOnEdgeActor n) ∧
        ∀ n ∈ (vertexConversion ctx sel input).Nodes, n.SelectionList = some []) →
      (self.ConvertSelection ctx sel).converted =
        some { Nodes := (vertexConversion ctx sel input).Nodes ++
          (edgeConversion ctx sel input).Nodes }) ∧
    ((∀ n ∈ (vertexConversion ctx sel input).Nodes, n.SelectionList ≠ none) →
      ¬ ((∃ n ∈ sel.Nodes, pickedOnEdgeActor n) ∧
        ∀ n ∈ (vertexConversion ctx sel input).Nodes, n.SelectionList = some []) →
      (self.ConvertSelection ctx sel).converted = some (vertexConversion ctx sel input)) ∧
    ((∀ n ∈ (vertexConversion ctx sel input).Nodes, n.SelectionList ≠ none) →
      (∃ n ∈ (vertexConversion ctx sel input).Nodes, n.hasTuple) →
      (self.ConvertSelection ctx sel).converted = some (vertexConversion ctx sel input)) ∧
    ((∃ n ∈ (vertexConversion ctx sel input).Nodes, n.SelectionList = none) →
      (self.ConvertSelection ctx sel).converted = none) := by
  obtain ⟨hnull, hlists⟩ := ConvertSelection_cases self ctx sel input h
  have hrun : ((∃ n ∈ sel.Nodes, pickedOnEdgeActor n) ∧
        ∀ n ∈ (vertexConversion ctx sel input).Nodes, n.SelectionList = some []) →
      (self.ConvertSelection ctx sel).converted =
          some { Nodes := (vertexConversion ctx sel input).Nodes ++
            (edgeConversion ctx sel input).Nodes } ∧
        ∃ c ∈ (self.ConvertSelection ctx sel).calls,
          c.data = ConversionData.GraphToPolyOutput := by
    rintro ⟨hp, hempty⟩
    obtain ⟨hl, hnt⟩ := (all_empty_iff _).1 hempty
    obtain ⟨hconv, hcalls⟩ := (hlists hl).1 ⟨(classify_found sel).2 hp, hnt⟩
    refine ⟨hconv, ?_⟩
    rw [hcalls]
    exact ⟨_, List.mem_cons_of_mem _ (List.mem_cons_of_mem _ (List.mem_cons_self _ _)), rfl⟩
  have hskip : (∀ n ∈ (vertexConversion ctx sel input).Nodes, n.SelectionList ≠ none) →
      ¬ ((∃ n ∈ sel.Nodes, pickedOnEdgeActor n) ∧
        ∀ n ∈ (vertexConversion ctx sel input).Nodes, n.SelectionList = some []) →
      (self.ConvertSelection ctx sel).converted = some (vertexConversion ctx sel input) ∧
        ¬ ∃ c ∈ (self.ConvertSelection ctx sel).calls,
          c.data = ConversionData.GraphToPolyOutput := by
    intro hl hno
    have hno2 : ¬ ((classify sel).foundEdgeNode = true ∧
        ¬ ∃ n ∈ (vertexConversion ctx sel input).Nodes, n.hasTuple) := by
      rintro ⟨hf, hnt⟩
      exact hno ⟨(classify_found sel).1 hf, (all_empty_iff _).2 ⟨hl, hnt⟩⟩
    obtain ⟨hconv, hcalls⟩ := (hlists hl).2 hno2
    refine ⟨hconv, ?_⟩
    rw [hcalls]
    simp [firstStageCall, secondStageCall]
  refine ⟨?_, fun hc => (hrun hc).1, fun hl hno => (hskip hl hno).1, ?_,
    fun hn => (hnull hn).1⟩
  · constructor
    · intro hcall
      by_contra hc
      by_cases hl : ∀ n ∈ (vertexConversion ctx sel input).Nodes, n.SelectionList ≠ none
      · exact (hskip hl hc).2 hcall
      · have hex : ∃ n ∈ (vertexConversion ctx sel input).Nodes, n.SelectionList = none := by
          by_contra hcon
          apply hl
          intro n hn hnone
          exact hcon ⟨n, hn, hnone⟩
        rw [(hnull hex).2] at hcall
        simp [firstStageCall, secondStageCall] at hcall
    · intro hc
      exact (hrun hc).2
  · intro hl hex
    apply (hskip hl _).1
    rintro ⟨-, hempty⟩
    exact ((all_empty_iff _).1 hempty).2 hex

/-- An edge pick alone, where the vertex conversion gives one node with an empty
list; an edge pick and a vertex pick together; and an edge pick alone where the
vertex conversion hands back the fresh vertex node, which has no list. -/
theorem ConvertSelection_vertices_take_precedence_witness :
    representationWithInput.Input = some 5 ∧
    ((∃ n ∈ (vtkSelection.mk [edgePick]).Nodes, pickedOnEdgeActor n) ∧
      ∀ n ∈ (vertexConversion listContext (vtkSelection.mk [edgePick]) 5).Nodes,
        n.SelectionList = some []) ∧
    (representationWithInput.ConvertSelection listContext
        (vtkSelection.mk [edgePick])).converted =
      some { Nodes := (vertexConversion listContext (vtkSelection.mk [edgePick]) 5).Nodes ++
        (edgeConversion listContext (vtkSelection.mk [edgePick]) 5).Nodes } ∧
    (∀ n ∈ (vertexConversion listContext (vtkSelection.mk [edgePick, vertexPick]) 5).Nodes,
      n.SelectionList ≠ none) ∧
    (∃ n ∈ (vertexConversion listContext (vtkSelection.mk [edgePick, vertexPick]) 5).Nodes,
      n.hasTuple) ∧
    (representationWithInput.ConvertSelection listContext
        (vtkSelection.mk [edgePick, vertexPick])).converted =
      some (vertexConversion listContext (vtkSelection.mk [edgePick, vertexPick]) 5) ∧
    (∃ n ∈ (vertexConversion identityContext (vtkSelection.mk [edgePick]) 5).Nodes,
      n.SelectionList = none) ∧
    (representationWithInput.ConvertSelection identityContext
        (vtkSelection.mk [edgePick])).converted = none :=
  ⟨rfl,
   by decide,
   (ConvertSelection_vertices_take_precedence representationWithInput listContext
      (vtkSelection.mk [edgePick]) 5 rfl).2.1 (by decide),
   by decide,
   by decide,
   (ConvertSelection_vertices_take_precedence representationWithInput listContext
      (vtkSelection.mk [edgePick, vertexPick]) 5 rfl).2.2.2.1 (by decide) (by decide),
   by decide,
   (ConvertSelection_vertices_take_precedence representationWithInput identityContext
      (vtkSelection.mk [edgePick]) 5 rfl).2.2.2.2 (by decide)⟩

/-- C6: with a non-null input, `ConvertSelection` converts in two stages. The
calls of `vtkConvertSelection::ToSelectionType` are the two vertex-stage calls,
followed, when the edge conversion runs, by the two edge-stage calls: the first
call of a pair converts the picked node against the rendered poly data
(`VertexGlyph` output, resp. `GraphToPoly` output) to `PEDIGREEIDS` when that poly
data has pedigree ids and to `INDICES` otherwise; the second converts the first
call's result, every node tagged `VERTEX` (resp. `EDGE`), against the input data
object to `view->GetSelectionType()`. When every node of the vertex conversion
has a selection list the call returns, and the returned nodes are the results of
the second-stage calls; when one has none, the call does not return, after the
two vertex-stage calls. -/
theorem ConvertSelection_two_stages
    (self : vtkRenderedGraphRepresentation) (ctx : SelectionContext) (sel : vtkSelection)
    (input : Nat) (h : self.Input = some input) :
    ((self.ConvertSelection ctx sel).calls =
        [firstStageCall (pickedVertexNode sel) ConversionData.VertexGlyphOutput
            ctx.VertexGlyph_HasPedigreeIds,
         secondStageCall ctx (pickedVertexNode sel) ConversionData.VertexGlyphOutput
            ctx.VertexGlyph_HasPedigreeIds SelectionField.VERTEX input] ∨
      (self.ConvertSelection ctx sel).calls =
        [firstStageCall (pickedVertexNode sel) ConversionData.VertexGlyphOutput
            ctx.VertexGlyph_HasPedigreeIds,
         secondStageCall ctx (pickedVertexNode sel) ConversionData.VertexGlyphOutput
            ctx.VertexGlyph_HasPedigreeIds SelectionField.VERTEX input,
         firstStageCall (pickedEdgeNode sel) ConversionData.GraphToPolyOutput
            ctx.GraphToPoly_HasPedigreeIds,
         secondStageCall ctx (pickedEdgeNode sel) ConversionData.GraphToPolyOutput
            ctx.GraphToPoly_HasPedigreeIds SelectionField.EDGE input]) ∧
    ((∀ n ∈ (twoStageConversion ctx (pickedVertexNode sel) ConversionData.VertexGlyphOutput
          ctx.VertexGlyph_HasPedigreeIds SelectionField.VERTEX input).Nodes,
        n.SelectionList ≠ none) →
      ((self.ConvertSelection ctx sel).calls =
          [firstStageCall (pickedVertexNode sel) ConversionData.VertexGlyphOutput
              ctx.VertexGlyph_HasPedigreeIds,
           secondStageCall ctx (pickedVertexNode sel) ConversionData.VertexGlyphOutput
              ctx.VertexGlyph_HasPedigreeIds SelectionField.VERTEX input] ∧
        (self.ConvertSelection ctx sel).converted =
          some (twoStageConversion ctx (pickedVertexNode sel)
            ConversionData.VertexGlyphOutput ctx.VertexGlyph_HasPedigreeIds
            SelectionField.VERTEX input)) ∨
      ((self.ConvertSelection ctx sel).calls =
          [firstStageCall (pickedVertexNode sel) ConversionData.VertexGlyphOutput
              ctx.VertexGlyph_HasPedigreeIds,
           secondStageCall ctx (pickedVertexNode sel) ConversionData.VertexGlyphOutput
              ctx.VertexGlyph_HasPedigreeIds SelectionField.VERTEX input,
           firstStageCall (pickedEdgeNode sel) ConversionData.GraphToPolyOutput
              ctx.GraphToPoly_HasPedigreeIds,
           secondStageCall ctx (pickedEdgeNode sel) ConversionData.GraphToPolyOutput
              ctx.GraphToPoly_HasPedigreeIds SelectionField.EDGE input] ∧
        (self.ConvertSelection ctx sel).converted =
          some { Nodes :=
            (twoStageConversion ctx (pickedVertexNode sel) ConversionData.VertexGlyphOutput
              ctx.VertexGlyph_HasPedigreeIds SelectionField.VERTEX input).Nodes ++
            (twoStageConversion ctx (pickedEdgeNode sel) ConversionData.GraphToPolyOutput
              ctx.GraphToPoly_HasPedigreeIds SelectionField.EDGE input).Nodes })) ∧
    ((∃ n ∈ (twoStageConversion ctx (pickedVertexNode sel) ConversionData.VertexGlyphOutput
          ctx.VertexGlyph_HasPedigreeIds SelectionField.VERTEX input).Nodes,
        n.SelectionList = none) →
      (self.ConvertSelection ctx sel).calls =
          [firstStageCall (pickedVertexNode sel) ConversionData.VertexGlyphOutput
              ctx.VertexGlyph_HasPedigreeIds,
           secondStageCall ctx (pickedVertexNode sel) ConversionData.VertexGlyphOutput
              ctx.VertexGlyph_HasPedigreeIds SelectionField.VERTEX input] ∧
        (self.ConvertSelection ctx sel).converted = none) ∧
    ((classify sel).vertexNode = pickedVertexNode sel ∧
      (classify sel).edgeNode = pickedEdgeNode sel) ∧
    (∀ (node : vtkSelectionNode) (poly : ConversionData) (ped : Bool) (field : SelectionField),
      (firstStageCall node poly ped).sel.Nodes = [node] ∧
      (firstStageCall node poly ped).data = poly ∧
      ((firstStageCall node poly ped).type = SelectionContent.PEDIGREEIDS ↔ ped = true) ∧
      ((firstStageCall node poly ped).type = SelectionContent.INDICES ↔ ped = false) ∧
      (secondStageCall ctx node poly ped field input).sel.Nodes.length =
        (ctx.ToSelectionType (firstStageCall node poly ped).sel poly
          (firstStageCall node poly ped).type).Nodes.length ∧
      (∀ n ∈ (secondStageCall ctx node poly ped field input).sel.Nodes,
        n.FieldType = some field) ∧
      (secondStageCall ctx node poly ped field input).data = ConversionData.Input input ∧
      (secondStageCall ctx node poly ped field input).type = ctx.View_SelectionType ∧
      twoStageConversion ctx node poly ped field input =
        ctx.ToSelectionType (secondStageCall ctx node poly ped field input).sel
          (secondStageCall ctx node poly ped field input).data
          (secondStageCall ctx node poly ped field input).type) := by
  obtain ⟨hnull, hlists⟩ := ConvertSelection_cases self ctx sel input h
  have hA : (∀ n ∈ (vertexConversion ctx sel input).Nodes, n.SelectionList ≠ none) →
      ((self.ConvertSelection ctx sel).calls =
          [firstStageCall (pickedVertexNode sel) ConversionData.VertexGlyphOutput
              ctx.VertexGlyph_HasPedigreeIds,
           secondStageCall ctx (pickedVertexNode sel) ConversionData.VertexGlyphOutput
              ctx.VertexGlyph_HasPedigreeIds SelectionField.VERTEX input] ∧
        (self.ConvertSelection ctx sel).converted = some (vertexConversion ctx sel input)) ∨
      ((self.ConvertSelection ctx sel).calls =
          [firstStageCall (pickedVertexNode sel) ConversionData.VertexGlyphOutput
              ctx.VertexGlyph_HasPedigreeIds,
           secondStageCall ctx (pickedVertexNode sel) ConversionData.VertexGlyphOutput
              ctx.VertexGlyph_HasPedigreeIds SelectionField.VERTEX input,
           firstStageCall (pickedEdgeNode sel) ConversionData.GraphToPolyOutput
              ctx.GraphToPoly_HasPedigreeIds,
           secondStageCall ctx (pickedEdgeNode sel) ConversionData.GraphToPolyOutput
              ctx.GraphToPoly_HasPedigreeIds SelectionField.EDGE input] ∧
        (self.ConvertSelection ctx sel).converted =
          some { Nodes := (vertexConversion ctx sel input).Nodes ++
            (edgeConversion ctx sel input).Nodes }) := by
    intro hl
    by_cases hc : (classify sel).foundEdgeNode = true ∧
        ¬ ∃ n ∈ (vertexConversion ctx sel input).Nodes, n.hasTuple
    · right
      exact ⟨((hlists hl).1 hc).2, ((hlists hl).1 hc).1⟩
    · left
      exact ⟨((hlists hl).2 hc).2, ((hlists hl).2 hc).1⟩
  refine ⟨?_, hA, fun hn => ⟨(hnull hn).2, (hnull hn).1⟩,
    ⟨classify_vertexNode sel, classify_edgeNode sel⟩, ?_⟩
  · by_cases hl : ∀ n ∈ (vertexConversion ctx sel input).Nodes, n.SelectionList ≠ none
    · rcases hA hl with hc | hc
      · exact Or.inl hc.1
      · exact Or.inr hc.1
    · have hex : ∃ n ∈ (vertexConversion ctx sel input).Nodes, n.SelectionList = none := by
        by_contra hcon
        apply hl
        intro n hn hnone
        exact hcon ⟨n, hn, hnone⟩
      exact Or.inl (hnull hex).2
  · intro node poly ped field
    refine ⟨rfl, rfl, ?_, ?_, ?_, ?_, rfl, rfl, rfl⟩
    · cases ped <;> simp [firstStageCall]
    · cases ped <;> simp [firstStageCall]
    · simp [secondStageCall, firstStageCall]
    · intro n hn
      simp only [secondStageCall, List.mem_map] at hn
      obtain ⟨m, -, rfl⟩ := hn
      rfl

/-- An edge pick alone, converted by a conversion that gives every node a
selection list: the four calls are made and two nodes are returned. -/
theorem ConvertSelection_two_stages_witness :
    representationWithInput.Input = some 5 ∧
    (∀ n ∈ (twoStageConversion listContext (pickedVertexNode (vtkSelection.mk [edgePick]))
        ConversionData.VertexGlyphOutput listContext.VertexGlyph_HasPedigreeIds
        SelectionField.VERTEX 5).Nodes, n.SelectionList ≠ none) ∧
    (representationWithInput.ConvertSelection listContext
        (vtkSelection.mk [edgePick])).calls.length = 4 ∧
    (representationWithInput.ConvertSelection listContext
        (vtkSelection.mk [edgePick])).converted =
      some { Nodes :=
        [{ vtkSelectionNode.New with
            FieldType := some SelectionField.VERTEX, SelectionList := some [] },
         { edgePick with FieldType := some SelectionField.EDGE, PROP := none }] } := by
  refine ⟨rfl, by decide, ?_, ?_⟩
  · rcases (ConvertSelection_two_stages representationWithInput listContext
      (vtkSelection.mk [edgePick]) 5 rfl).2.1 (by decide) with hc | hc
    · exact absurd hc.2 (by decide)
    · rw [hc.1]; rfl
  · rcases (ConvertSelection_two_stages representationWithInput listContext
      (vtkSelection.mk [edgePick]) 5 rfl).2.1 (by decide) with hc | hc
    · exact absurd hc.2 (by decide)
    · rw [hc.2]; decide

/-- C7: when the representation has no input data object, `ConvertSelection`
returns a new selection with zero nodes for every input selection and makes no
call of `vtkConvertSelection::ToSelectionType`. -/
theorem ConvertSelection_without_input
    (self : vtkRenderedGraphRepresentation) (ctx : SelectionContext) (sel : vtkSelection)
    (h : self.Input = none) :
    (self.ConvertSelection ctx sel).converted = some vtkSelection.New ∧
    (self.ConvertSelection ctx sel).converted.map vtkSelection.GetNumberOfNodes = some 0 ∧
    (self.ConvertSelection ctx sel).calls = [] := by
  have hres : self.ConvertSelection ctx sel =
      { converted := some vtkSelection.New, calls := [] } := by
    unfold ConvertSelection
    simp only [h]
  rw [hres]
  exact ⟨rfl, rfl, rfl⟩

theorem ConvertSelection_without_input_witness :
    New.Input = none ∧
    (New.ConvertSelection identityContext
      (vtkSelection.mk [edgePick, vertexPick])).converted.map vtkSelection.GetNumberOfNodes =
        some 0 ∧
    (New.ConvertSelection identityContext (vtkSelection.mk [edgePick, vertexPick])).calls = [] :=
  ⟨rfl,
   (ConvertSelection_without_input New identityContext
      (vtkSelection.mk [edgePick, vertexPick]) rfl).2.1,
   (ConvertSelection_without_input New identityContext
      (vtkSelection.mk [edgePick, vertexPick]) rfl).2.2⟩

end SelectionClaims

section PipelineClaims

open vtkRenderedGraphRepresentation

/-- C8 as stated fails: right after construction the arrow
`GraphToPoints -> VertexLabels` of the diagram is not a connection of the
pipeline (the `VertexLabels` stage is fed the empty poly data), so not every
arrow of the diagram is realised. -/
theorem constructor_lacks_diagram_connection :
    (PipelineNode.stage Stage.GraphToPoints, PipelineNode.stage Stage.VertexLabels) ∈
      diagramConnections ∧
    connected New (PipelineNode.stage Stage.GraphToPoints)
      (PipelineNode.stage Stage.VertexLabels) = false ∧
    New.InputConnection Stage.VertexLabels = Connection.EmptyPolyData ∧
    ¬ (∀ e ∈ diagramConnections, connected New e.1 e.2 = true) := by
  refine ⟨by decide, by decide, rfl, ?_⟩
  intro hall
  exact absurd (hall _ (by decide : (PipelineNode.stage Stage.GraphToPoints,
    PipelineNode.stage Stage.VertexLabels) ∈ diagramConnections)) (by decide)

/-- C8 amended: right after construction an arrow of the diagram is a connection
of the pipeline exactly when it is not one of the four arrows into the label and
icon stages (`GraphToPoints -> VertexLabels`, `GraphToPoints -> VertexIcons`,
`EdgeCenters -> EdgeLabels`, `EdgeCenters -> EdgeIcons`); those four stages are
fed the representation's empty poly data. -/
theorem constructor_pipeline_connections :
    (∀ e ∈ diagramConnections,
      (connected New e.1 e.2 = true ↔ e ∉ visibilityConnections)) ∧
    (∀ e ∈ visibilityConnections, e ∈ diagramConnections) ∧
    New.InputConnection Stage.VertexLabels = Connection.EmptyPolyData ∧
    New.InputConnection Stage.EdgeLabels = Connection.EmptyPolyData ∧
    New.InputConnection Stage.VertexIcons = Connection.EmptyPolyData ∧
    New.InputConnection Stage.EdgeIcons = Connection.EmptyPolyData := by
  refine ⟨by decide, by decide, rfl, rfl, rfl, rfl⟩

theorem constructor_pipeline_connections_witness :
    (PipelineNode.stage Stage.EdgeMapper, PipelineNode.actor vtkProp.EdgeActor) ∈
      diagramConnections ∧
    (PipelineNode.stage Stage.EdgeMapper, PipelineNode.actor vtkProp.EdgeActor) ∉
      visibilityConnections ∧
    connected New (PipelineNode.stage Stage.EdgeMapper)
      (PipelineNode.actor vtkProp.EdgeActor) = true :=
  ⟨by decide, by decide,
   (constructor_pipeline_connections.1
      (PipelineNode.stage Stage.EdgeMapper, PipelineNode.actor vtkProp.EdgeActor)
      (by decide)).2 (by decide)⟩

/-- C9 fails on the code: `AddToView` hands the output ports of the four priority
stages to `AddLabels` and `AddIcons`, while `RemoveFromView` hands the output ports
of the `VertexLabels`, `EdgeLabels`, `VertexIcons` and `EdgeIcons` stages to
`RemoveLabels` and `RemoveIcons`. For every representation and every render view,
among the calls made by `AddToView` then `RemoveFromView` none removes a port that
was added, each of the four added ports is registered once more after the two
calls than before, while every object registered for progress is unregistered
the same number of times. On the empty render view the two calls leave two label
and two icon connections behind. -/
theorem AddToView_RemoveFromView_leaves_labels_and_icons
    (self : vtkRenderedGraphRepresentation) (rv : vtkRenderView) :
    (∀ port, ViewCall.AddLabels port ∈ (self.addThenRemove rv).calls.drop rv.calls.length →
      ViewCall.RemoveLabels port ∉ (self.addThenRemove rv).calls.drop rv.calls.length) ∧
    (∀ port, ViewCall.AddIcons port ∈ (self.addThenRemove rv).calls.drop rv.calls.length →
      ViewCall.RemoveIcons port ∉ (self.addThenRemove rv).calls.drop rv.calls.length) ∧
    ViewCall.AddLabels (Algorithm.own Stage.VertexLabelPriority) ∈
      (self.addThenRemove rv).calls.drop rv.calls.length ∧
    (self.addThenRemove rv).Labels.count (Algorithm.own Stage.VertexLabelPriority) =
      rv.Labels.count (Algorithm.own Stage.VertexLabelPriority) + 1 ∧
    (self.addThenRemove rv).Labels.count (Algorithm.own Stage.EdgeLabelPriority) =
      rv.Labels.count (Algorithm.own Stage.EdgeLabelPriority) + 1 ∧
    (self.addThenRemove rv).Icons.count (Algorithm.own Stage.VertexIconPriority) =
      rv.Icons.count (Algorithm.own Stage.VertexIconPriority) + 1 ∧
    (self.addThenRemove rv).Icons.count (Algorithm.own Stage.EdgeIconPriority) =
      rv.Icons.count (Algorithm.own Stage.EdgeIconPriority) + 1 ∧
    (∀ a, ((self.addThenRemove rv).calls.drop rv.calls.length).count
        (ViewCall.RegisterProgress a) =
      ((self.addThenRemove rv).calls.drop rv.calls.length).count
        (ViewCall.UnRegisterProgress a)) ∧
    (New.addThenRemove emptyRenderView).Labels =
      [Algorithm.own Stage.VertexLabelPriority, Algorithm.own Stage.EdgeLabelPriority] ∧
    (New.addThenRemove emptyRenderView).Icons =
      [Algorithm.own Stage.VertexIconPriority, Algorithm.own Stage.EdgeIconPriority] ∧
    (New.addThenRemove emptyRenderView).Props = [] ∧
    (New.addThenRemove emptyRenderView).Progress = [] := by
  have hcalls : (self.addThenRemove rv).calls.drop rv.calls.length =
      ((New.addThenRemove emptyRenderView).calls) := by
    simp only [addThenRemove, AddToView, RemoveFromView, vtkView.calls,
      vtkRenderView.AddActor, vtkRenderView.RemoveActor, vtkRenderView.AddLabels,
      vtkRenderView.RemoveLabels, vtkRenderView.AddIcons, vtkRenderView.RemoveIcons,
      vtkRenderView.RegisterProgress, vtkRenderView.UnRegisterProgress, emptyRenderView,
      List.append_assoc, List.drop_left, List.nil_append]
  have hlabels : (self.addThenRemove rv).Labels =
      ((rv.Labels ++ [Algorithm.own Stage.VertexLabelPriority,
        Algorithm.own Stage.EdgeLabelPriority]).erase (Algorithm.own Stage.VertexLabels)).erase
          (Algorithm.own Stage.EdgeLabels) := by
    simp [addThenRemove, AddToView, RemoveFromView, vtkView.Labels,
      vtkRenderView.AddActor, vtkRenderView.RemoveActor, vtkRenderView.AddLabels,
      vtkRenderView.RemoveLabels, vtkRenderView.AddIcons, vtkRenderView.RemoveIcons,
      vtkRenderView.RegisterProgress, vtkRenderView.UnRegisterProgress]
  have hicons : (self.addThenRemove rv).Icons =
      ((rv.Icons ++ [Algorithm.own Stage.VertexIconPriority,
        Algorithm.own Stage.EdgeIconPriority]).erase (Algorithm.own Stage.VertexIcons)).erase
          (Algorithm.own Stage.EdgeIcons) := by
    simp [addThenRemove, AddToView, RemoveFromView, vtkView.Icons,
      vtkRenderView.AddActor, vtkRenderView.RemoveActor, vtkRenderView.AddLabels,
      vtkRenderView.RemoveLabels, vtkRenderView.AddIcons, vtkRenderView.RemoveIcons,
      vtkRenderView.RegisterProgress, vtkRenderView.UnRegisterProgress]
  have hown : ∀ c ∈ (New.addThenRemove emptyRenderView).calls,
      ViewCall.onOwnObject c = true := by decide
  rw [hcalls, hlabels, hicons]
  refine ⟨?_, ?_, ?_, ?_, ?_, ?_, ?_, ?_, ?_, ?_, ?_, ?_⟩
  · intro port
    cases port with
    | own s => cases s <;> decide
    | foreign id => intro h; exact absurd (hown _ h) (by simp [ViewCall.onOwnObject])
  · intro port
    cases port with
    | own s => cases s <;> decide
    | foreign id => intro h; exact absurd (hown _ h) (by simp [ViewCall.onOwnObject])
  · decide
  · rw [List.count_erase_of_ne (by decide), List.count_erase_of_ne (by decide),
      List.count_append]
    rfl
  · rw [List.count_erase_of_ne (by decide), List.count_erase_of_ne (by decide),
      List.count_append]
    rfl
  · rw [List.count_erase_of_ne (by decide), List.count_erase_of_ne (by decide),
      List.count_append]
    rfl
  · rw [List.count_erase_of_ne (by decide), List.count_erase_of_ne (by decide),
      List.count_append]
    rfl
  · intro a
    cases a with
    | own s => cases s <;> decide
    | foreign id =>
      rw [List.count_eq_zero_of_not_mem, List.count_eq_zero_of_not_mem]
      · intro h; exact absurd (hown _ h) (by simp [ViewCall.onOwnObject])
      · intro h; exact absurd (hown _ h) (by simp [ViewCall.onOwnObject])
  · decide
  · decide
  · decide
  · decide

theorem AddToView_RemoveFromView_leaves_labels_and_icons_witness :
    ViewCall.AddLabels (Algorithm.own Stage.EdgeLabelPriority) ∈
      (New.addThenRemove emptyRenderView).calls.drop emptyRenderView.calls.length ∧
    ViewCall.RemoveLabels (Algorithm.own Stage.EdgeLabelPriority) ∉
      (New.addThenRemove emptyRenderView).calls.drop emptyRenderView.calls.length :=
  ⟨by decide,
   (AddToView_RemoveFromView_leaves_labels_and_icons New emptyRenderView).1 _ (by decide)⟩

end PipelineClaims

section RenderViewClaims

open vtkRenderViewBase

/-- C10: `SetInteractor(i)` for a non-null `i` that is not the current interactor
makes `i` the current interactor, turns its rendering off, registers the view's
observer on it for `RenderEvent`, `StartInteractionEvent` and
`EndInteractionEvent`, makes it the render window's interactor and passes it the
view's current interactor style; the previous interactor, if any, keeps no
registration of the view's observer and has its render window set to null. When
`i` is the current interactor the call changes nothing. The current interactor
is the member `Interactor`, which is what the method compares `i` with. -/
theorem SetInteractor_rewires (self : vtkRenderViewBase) (i : Nat) :
    (self.Interactor ≠ some i →
      (self.SetInteractor (some i)).Interactor = some i ∧
      ((self.SetInteractor (some i)).interactors i).EnableRender = false ∧
      (EventId.RenderEvent, self.GetObserver) ∈
        ((self.SetInteractor (some i)).interactors i).Observers ∧
      (EventId.StartInteractionEvent, self.GetObserver) ∈
        ((self.SetInteractor (some i)).interactors i).Observers ∧
      (EventId.EndInteractionEvent, self.GetObserver) ∈
        ((self.SetInteractor (some i)).interactors i).Observers ∧
      (self.SetInteractor (some i)).RenderWindow = self.RenderWindow ∧
      (self.SetInteractor (some i)).GetInteractor = some i ∧
      (self.SetInteractor (some i)).GetInteractorStyle = self.GetInteractorStyle ∧
      ((self.SetInteractor (some i)).interactors i).InteractorStyle =
        self.GetInteractorStyle ∧
      (self.SetInteractor (some i)).errors = self.errors ∧
      (∀ previous, self.Interactor = some previous →
        (∀ event, (event, self.GetObserver) ∉
          ((self.SetInteractor (some i)).interactors previous).Observers) ∧
        ((self.SetInteractor (some i)).interactors previous).RenderWindow = none)) ∧
    (self.Interactor = some i → self.SetInteractor (some i) = self) := by
  constructor
  · intro hne
    cases hcur : self.Interactor with
    | none =>
      simp [SetInteractor, hcur, onInteractor, onWindow, GetObserver, GetInteractor,
        GetInteractorStyle, vtkRenderWindowInteractor.EnableRenderOff,
        vtkRenderWindowInteractor.AddObserver, vtkRenderWindowInteractor.SetInteractorStyle,
        vtkRenderWindow.SetInteractor]
    | some current =>
      have hci : current ≠ i := by
        intro heq
        apply hne
        rw [hcur, heq]
      have hic : ¬ (i = current) := fun heq => hci heq.symm
      simp [SetInteractor, hcur, hci, hic, onInteractor, onWindow, GetObserver, GetInteractor,
        GetInteractorStyle, vtkRenderWindowInteractor.EnableRenderOff,
        vtkRenderWindowInteractor.AddObserver, vtkRenderWindowInteractor.SetInteractorStyle,
        vtkRenderWindowInteractor.RemoveObserver, vtkRenderWindowInteractor.SetRenderWindow,
        vtkRenderWindow.SetInteractor, Function.update_noteq, List.mem_filter]
  · intro h
    simp [SetInteractor, h]

theorem SetInteractor_rewires_witness :
    viewWithInteractor.Interactor ≠ some 2 ∧
    (viewWithInteractor.SetInteractor (some 2)).GetInteractor = some 2 ∧
    ((viewWithInteractor.SetInteractor (some 2)).interactors 2).Observers =
      [(EventId.RenderEvent, 100), (EventId.StartInteractionEvent, 100),
        (EventId.EndInteractionEvent, 100)] ∧
    viewWithInteractor.Interactor = some 1 ∧
    ((viewWithInteractor.SetInteractor (some 2)).interactors 1).RenderWindow = none ∧
    viewWithInteractor.SetInteractor (some 1) = viewWithInteractor :=
  ⟨by decide,
   ((SetInteractor_rewires viewWithInteractor 2).1 (by decide)).2.2.2.2.2.2.1,
   by decide,
   rfl,
   (((SetInteractor_rewires viewWithInteractor 2).1 (by decide)).2.2.2.2.2.2.2.2.2.2 1 rfl).2,
   (SetInteractor_rewires viewWithInteractor 1).2 rfl⟩

end RenderViewClaims

section SetterLemmas

open vtkRenderedGraphRepresentation

theorem SetLayoutStrategy_name_LayoutStrategyName (self : vtkRenderedGraphRepresentation)
    (name : String) :
    (self.SetLayoutStrategy_name name).LayoutStrategyName =
      if (layoutStrategyForKey (normalise name) self.nextId).1.ClassName ≠
          self.GetLayoutStrategy.GetClassName
      then some (layoutDisplayName (layoutStrategyForKey (normalise name) self.nextId).1)
      else self.LayoutStrategyName := by
  simp only [SetLayoutStrategy_name, GetLayoutStrategy, vtkObject.GetClassName, reportError,
    SetLayoutStrategy, SetLayoutStrategyName]
  split_ifs <;> simp_all

theorem SetEdgeLayoutStrategy_name_EdgeLayoutStrategyName
    (self : vtkRenderedGraphRepresentation) (name : String) :
    (self.SetEdgeLayoutStrategy_name name).EdgeLayoutStrategyName =
      if (edgeLayoutStrategyForKey (normalise name) self.nextId).1.ClassName ≠
          self.GetEdgeLayoutStrategy.GetClassName
      then some (edgeLayoutDisplayName (edgeLayoutStrategyForKey (normalise name) self.nextId).1)
      else self.EdgeLayoutStrategyName := by
  simp only [SetEdgeLayoutStrategy_name, GetEdgeLayoutStrategy, vtkObject.GetClassName,
    reportError, SetEdgeLayoutStrategy, SetEdgeLayoutStrategyName]
  split_ifs <;> simp_all

/-- Whatever the key, the object built by the key chain is of one of the eleven
classes, and the cascade of downcasts gives it the display name the table holds
for its class. -/
theorem layoutStrategyForKey_display (key : String) (id : Nat) :
    ((layoutStrategyForKey key id).1.ClassName,
      layoutDisplayName (layoutStrategyForKey key id).1) ∈ layoutDisplayTable := by
  by_cases h : key ∈ layoutStrategyKeys
  · simp only [layoutStrategyKeys, List.mem_map, Prod.exists, exists_and_right,
      exists_eq_right] at h
    obtain ⟨cls, hc⟩ := h
    rw [layoutStrategyForKey_table _ _ _ hc]
    simp only [layoutStrategyTable, List.mem_cons, Prod.mk.injEq, List.mem_singleton,
      List.mem_nil_iff, or_false] at hc
    rcases hc with h | h | h | h | h | h | h | h | h | h | h <;>
      (obtain ⟨rfl, rfl⟩ := h; exact of_decide_eq_true rfl)
  · rw [layoutStrategyForKey_unknown _ _ h]
    exact of_decide_eq_true rfl

end SetterLemmas

section SetterClaims

open vtkRenderedGraphRepresentation

/-- C16: `SetEdgeColorArrayName(name)` stores the name in the vertex
colour-array-name member and leaves the edge member untouched: afterwards
`GetVertexColorArrayName()` returns the name and `GetEdgeColorArrayName()`
returns what it returned before (null on a freshly constructed representation), so
the edge setter and getter do not round-trip whenever the name differs from the
edge name held before. -/
theorem SetEdgeColorArrayName_stores_vertex_name
    (self : vtkRenderedGraphRepresentation) (n : Option String) :
    (self.SetEdgeColorArrayName n).GetVertexColorArrayName = n ∧
    (self.SetEdgeColorArrayName n).GetEdgeColorArrayName = self.GetEdgeColorArrayName ∧
    New.GetEdgeColorArrayName = none ∧
    (New.SetEdgeColorArrayName n).GetEdgeColorArrayName = none ∧
    (n ≠ self.GetEdgeColorArrayName →
      (self.SetEdgeColorArrayName n).GetEdgeColorArrayName ≠ n) := by
  refine ⟨rfl, rfl, rfl, rfl, ?_⟩
  intro h heq
  exact h heq.symm

theorem SetEdgeColorArrayName_stores_vertex_name_witness :
    some "weight" ≠ New.GetEdgeColorArrayName ∧
    (New.SetEdgeColorArrayName (some "weight")).GetEdgeColorArrayName ≠ some "weight" ∧
    (New.SetEdgeColorArrayName (some "weight")).GetVertexColorArrayName = some "weight" :=
  ⟨by decide,
   (SetEdgeColorArrayName_stores_vertex_name New (some "weight")).2.2.2.2 (by decide),
   (SetEdgeColorArrayName_stores_vertex_name New (some "weight")).1⟩

/-- C17: `GetEdgeIconVisibility()` returns true exactly when the `EdgeIcons` stage
is not connected to the `EdgeCenters` output: false right after
`SetEdgeIconVisibility(true)`, true right after `SetEdgeIconVisibility(false)`,
true on a freshly constructed representation. The vertex getter returns true
exactly when `VertexIcons` is connected to `GraphToPoints`, so after the
corresponding setter calls the edge getter returns the negation of what the
vertex getter returns. -/
theorem GetEdgeIconVisibility_negated (self : vtkRenderedGraphRepresentation) (b : Bool) :
    (self.GetEdgeIconVisibility = true ↔
      self.InputConnection Stage.EdgeIcons ≠ Connection.OutputPort Stage.EdgeCenters) ∧
    (self.SetEdgeIconVisibility true).GetEdgeIconVisibility = false ∧
    (self.SetEdgeIconVisibility false).GetEdgeIconVisibility = true ∧
    New.GetEdgeIconVisibility = true ∧
    (self.GetVertexIconVisibility = true ↔
      self.InputConnection Stage.VertexIcons = Connection.OutputPort Stage.GraphToPoints) ∧
    (self.SetVertexIconVisibility b).GetVertexIconVisibility = b ∧
    (self.SetEdgeIconVisibility b).GetEdgeIconVisibility =
      !(self.SetVertexIconVisibility b).GetVertexIconVisibility ∧
    New.GetEdgeIconVisibility = !New.GetVertexIconVisibility := by
  refine ⟨?_, ?_, ?_, by decide, ?_, ?_, ?_, by decide⟩
  · simp [GetEdgeIconVisibility]
  · simp [GetEdgeIconVisibility, SetEdgeIconVisibility, SetInputConnection]
  · simp [GetEdgeIconVisibility, SetEdgeIconVisibility, SetInputConnection]
  · simp [GetVertexIconVisibility]
  · cases b <;> simp [GetVertexIconVisibility, SetVertexIconVisibility, SetInputConnection]
  · cases b
    · simp only [GetVertexIconVisibility, SetVertexIconVisibility, GetEdgeIconVisibility,
        SetEdgeIconVisibility, SetInputConnection, Bool.false_eq_true, if_false,
        Function.update_same]
      decide
    · simp only [GetVertexIconVisibility, SetVertexIconVisibility, GetEdgeIconVisibility,
        SetEdgeIconVisibility, SetInputConnection, if_true, Function.update_same]
      decide

/-- C18: `GetUseVertexIconTypeMap()` and `GetUseEdgeIconTypeMap()` return the
pass-array flag of the icon stage. `SetUse...IconTypeMap(true)` turns the flag off
and sets the fill value to -1; `SetUse...IconTypeMap(false)` clears the icon type
map and turns the flag on. Hence the getter returns `!b` right after
`SetUse...IconTypeMap(b)`, and true on a freshly constructed representation. -/
theorem UseIconTypeMap_getter_returns_pass_array
    (self : vtkRenderedGraphRepresentation) (b : Bool) :
    self.GetUseVertexIconTypeMap = self.VertexIcons_PassArray ∧
    self.GetUseEdgeIconTypeMap = self.EdgeIcons_PassArray ∧
    (self.SetUseVertexIconTypeMap b).GetUseVertexIconTypeMap = !b ∧
    (self.SetUseEdgeIconTypeMap b).GetUseEdgeIconTypeMap = !b ∧
    (self.SetUseVertexIconTypeMap true).VertexIcons_PassArray = false ∧
    (self.SetUseVertexIconTypeMap true).VertexIcons_FillValue = some (-1) ∧
    (self.SetUseVertexIconTypeMap true).VertexIcons_Map = self.VertexIcons_Map ∧
    (self.SetUseEdgeIconTypeMap true).EdgeIcons_PassArray = false ∧
    (self.SetUseEdgeIconTypeMap true).EdgeIcons_FillValue = some (-1) ∧
    (self.SetUseEdgeIconTypeMap true).EdgeIcons_Map = self.EdgeIcons_Map ∧
    (self.SetUseVertexIconTypeMap false).VertexIcons_PassArray = true ∧
    (self.SetUseVertexIconTypeMap false).VertexIcons_Map = [] ∧
    (self.SetUseVertexIconTypeMap false).VertexIcons_FillValue = self.VertexIcons_FillValue ∧
    (self.SetUseEdgeIconTypeMap false).EdgeIcons_PassArray = true ∧
    (self.SetUseEdgeIconTypeMap false).EdgeIcons_Map = [] ∧
    (self.SetUseEdgeIconTypeMap false).EdgeIcons_FillValue = self.EdgeIcons_FillValue ∧
    New.GetUseVertexIconTypeMap = true ∧
    New.GetUseEdgeIconTypeMap = true := by
  refine ⟨?_, ?_, ?_, ?_, rfl, rfl, rfl, rfl, rfl, rfl, rfl, rfl, rfl, rfl, rfl, rfl, rfl, rfl⟩
  · cases h : self.VertexIcons_PassArray <;> simp [GetUseVertexIconTypeMap, h]
  · cases h : self.EdgeIcons_PassArray <;> simp [GetUseEdgeIconTypeMap, h]
  · cases b <;> rfl
  · cases b <;> rfl

/-- C19: on a freshly constructed representation the layout strategy is Fast2D
and the edge layout strategy is ArcParallel while both stored strategy names are
null, and `SetLayoutStrategy("Fast 2D")` or `SetEdgeLayoutStrategy("Arc Parallel")`
on it leave the names null. After any `SetLayoutStrategy(name)` that replaces the
strategy object, `LayoutStrategyName` is the display name of the new strategy's
class. -/
theorem strategy_names_follow_object_setters
    (self : vtkRenderedGraphRepresentation) (name : String) :
    New.GetLayoutStrategy.GetClassName = "vtkFast2DLayoutStrategy" ∧
    New.GetEdgeLayoutStrategy.GetClassName = "vtkArcParallelEdgeStrategy" ∧
    New.LayoutStrategyName = none ∧
    New.EdgeLayoutStrategyName = none ∧
    (New.SetLayoutStrategy_name "Fast 2D").LayoutStrategyName = none ∧
    (New.SetLayoutStrategy_name "Fast 2D").GetLayoutStrategy = New.GetLayoutStrategy ∧
    (New.SetEdgeLayoutStrategy_name "Arc Parallel").EdgeLayoutStrategyName = none ∧
    (New.SetEdgeLayoutStrategy_name "Arc Parallel").GetEdgeLayoutStrategy =
      New.GetEdgeLayoutStrategy ∧
    ((self.SetLayoutStrategy_name name).GetLayoutStrategy ≠ self.GetLayoutStrategy →
      ∃ display,
        ((self.SetLayoutStrategy_name name).GetLayoutStrategy.GetClassName, display) ∈
          layoutDisplayTable ∧
        (self.SetLayoutStrategy_name name).LayoutStrategyName = some display) := by
  refine ⟨rfl, rfl, rfl, rfl, by decide, by decide, by decide, by decide, ?_⟩
  intro hne
  rw [SetLayoutStrategy_name_strategy] at hne
  rw [SetLayoutStrategy_name_class, SetLayoutStrategy_name_LayoutStrategyName]
  split_ifs at hne ⊢ with hcls
  · exact ⟨_, layoutStrategyForKey_display _ _, rfl⟩
  · exact absurd rfl hne

theorem strategy_names_follow_object_setters_witness :
    (New.SetLayoutStrategy_name "Cosmic Tree").GetLayoutStrategy ≠ New.GetLayoutStrategy ∧
    (∃ display,
      ((New.SetLayoutStrategy_name "Cosmic Tree").GetLayoutStrategy.GetClassName, display) ∈
        layoutDisplayTable ∧
      (New.SetLayoutStrategy_name "Cosmic Tree").LayoutStrategyName = some display) ∧
    (New.SetLayoutStrategy_name "Cosmic Tree").LayoutStrategyName = some "Cosmic Tree" :=
  ⟨by decide,
   (strategy_names_follow_object_setters New "Cosmic Tree").2.2.2.2.2.2.2.2 (by decide),
   by decide⟩

/-- C20: `SetEdgeLayoutStrategyToGeo(f)` tests the vertex layout strategy for
being a `vtkGeoEdgeStrategy`, which it never is; so every call installs a newly
made Geo edge strategy with explode factor `f` and stores the edge strategy name
`Geo`, whatever the current edge strategy is (a second call installs yet another
object), and leaves the vertex layout strategy unchanged. `SetLayoutStrategyToTree`
keeps the current strategy object when it is a Tree strategy and only sets its
four parameters. -/
theorem SetEdgeLayoutStrategyToGeo_installs_new_strategy
    (self : vtkRenderedGraphRepresentation) (f g : ℚ) (radial : Bool)
    (angle leafSpacing logSpacing : ℚ)
    (h : SafeDownCast "vtkGeoEdgeStrategy" self.GetLayoutStrategy = false) :
    (self.SetEdgeLayoutStrategyToGeo f).GetEdgeLayoutStrategy =
      (vtkEdgeLayoutStrategy.New "vtkGeoEdgeStrategy" self.nextId).SetParameter
        "ExplodeFactor" (ParameterValue.number f) ∧
    (self.SetEdgeLayoutStrategyToGeo f).GetEdgeLayoutStrategy.GetClassName =
      "vtkGeoEdgeStrategy" ∧
    (self.SetEdgeLayoutStrategyToGeo f).GetEdgeLayoutStrategy.GetParameter "ExplodeFactor" =
      some (ParameterValue.number f) ∧
    (self.SetEdgeLayoutStrategyToGeo f).EdgeLayoutStrategyName = some "Geo" ∧
    (self.SetEdgeLayoutStrategyToGeo f).GetLayoutStrategy = self.GetLayoutStrategy ∧
    (self.SetEdgeLayoutStrategyToGeo f).LayoutStrategyName = self.LayoutStrategyName ∧
    ((self.SetEdgeLayoutStrategyToGeo f).SetEdgeLayoutStrategyToGeo g).GetEdgeLayoutStrategy.id ≠
      (self.SetEdgeLayoutStrategyToGeo f).GetEdgeLayoutStrategy.id ∧
    (SafeDownCast "vtkTreeLayoutStrategy" self.GetLayoutStrategy = true →
      (self.SetLayoutStrategyToTree radial angle leafSpacing logSpacing).GetLayoutStrategy =
        (((self.GetLayoutStrategy.SetParameter "Radial" (ParameterValue.flag radial)).SetParameter
          "Angle" (ParameterValue.number angle)).SetParameter
          "LeafSpacing" (ParameterValue.number leafSpacing)).SetParameter
          "LogSpacingValue" (ParameterValue.number logSpacing) ∧
      (self.SetLayoutStrategyToTree radial angle leafSpacing logSpacing).GetLayoutStrategy.id =
        self.GetLayoutStrategy.id ∧
      (self.SetLayoutStrategyToTree radial angle leafSpacing logSpacing).nextId = self.nextId ∧
      (self.SetLayoutStrategyToTree radial angle leafSpacing logSpacing).LayoutStrategyName =
        self.LayoutStrategyName) := by
  have hgeo : ∀ (r : vtkRenderedGraphRepresentation) (x : ℚ),
      SafeDownCast "vtkGeoEdgeStrategy" r.GetLayoutStrategy = false →
      r.SetEdgeLayoutStrategyToGeo x =
        { r with
          nextId := r.nextId + 1
          EdgeLayoutStrategyName := some "Geo"
          EdgeLayout_LayoutStrategy :=
            (vtkEdgeLayoutStrategy.New "vtkGeoEdgeStrategy" r.nextId).SetParameter
              "ExplodeFactor" (ParameterValue.number x) } := by
    intro r x hr
    simp only [SetEdgeLayoutStrategyToGeo, hr, Bool.false_eq_true, if_false,
      SetEdgeLayoutStrategy, SetEdgeLayoutStrategyName]
    rfl
  have h1 := hgeo self f h
  have h2 := hgeo (self.SetEdgeLayoutStrategyToGeo f) g (by rw [h1]; exact h)
  refine ⟨?_, ?_, ?_, ?_, ?_, ?_, ?_, ?_⟩
  · rw [h1]; rfl
  · rw [h1]; rfl
  · rw [h1]
    simp [GetEdgeLayoutStrategy, vtkObject.GetParameter, vtkObject.SetParameter]
  · rw [h1]
  · rw [h1]; rfl
  · rw [h1]
  · rw [h2, h1]
    simp [GetEdgeLayoutStrategy, vtkObject.SetParameter, vtkEdgeLayoutStrategy.New]
  · intro ht
    have htree : self.SetLayoutStrategyToTree radial angle leafSpacing logSpacing =
        { self with
          Layout_LayoutStrategy :=
            (((self.GetLayoutStrategy.SetParameter "Radial"
              (ParameterValue.flag radial)).SetParameter
              "Angle" (ParameterValue.number angle)).SetParameter
              "LeafSpacing" (ParameterValue.number leafSpacing)).SetParameter
              "LogSpacingValue" (ParameterValue.number logSpacing) } := by
      have ht2 : SafeDownCast "vtkTreeLayoutStrategy" self.Layout_LayoutStrategy = true := ht
      simp only [SetLayoutStrategyToTree, GetLayoutStrategy, ht2, if_true]
    rw [htree]
    exact ⟨rfl, rfl, rfl, rfl⟩

theorem SetEdgeLayoutStrategyToGeo_installs_new_strategy_witness :
    SafeDownCast "vtkGeoEdgeStrategy"
      (New.SetEdgeLayoutStrategy_name "geo").GetLayoutStrategy = false ∧
    (New.SetEdgeLayoutStrategy_name "geo").GetEdgeLayoutStrategy.GetClassName =
      "vtkGeoEdgeStrategy" ∧
    ((New.SetEdgeLayoutStrategy_name "geo").SetEdgeLayoutStrategyToGeo 2).GetEdgeLayoutStrategy =
      (vtkEdgeLayoutStrategy.New "vtkGeoEdgeStrategy"
        (New.SetEdgeLayoutStrategy_name "geo").nextId).SetParameter
        "ExplodeFactor" (ParameterValue.number 2) ∧
    ((New.SetEdgeLayoutStrategy_name "geo").SetEdgeLayoutStrategyToGeo 2).GetEdgeLayoutStrategy.id ≠
      (New.SetEdgeLayoutStrategy_name "geo").GetEdgeLayoutStrategy.id :=
  ⟨by decide, by decide,
   (SetEdgeLayoutStrategyToGeo_installs_new_strategy (New.SetEdgeLayoutStrategy_name "geo")
      2 3 true 90 1 1 (by decide)).1,
   by decide⟩

end SetterClaims

section EventClaims

open vtkRenderViewBase

/-- C11: `ProcessEvents(caller, eventId, callData)` calls `Render()` exactly once
when the caller is the view's interactor and the event is `RenderEvent`, or the
caller is a `vtkDataRepresentation` and the event is `SelectionChangedEvent` or
`UpdateEvent`, and not at all for any other caller and event; in every case the
event is then forwarded to the superclass's `ProcessEvents` with the same
arguments, and nothing else of the view changes. -/
theorem ProcessEvents_renders_once (self : vtkRenderViewBase) (caller : vtkObject)
    (eventId : EventId) (callData : Nat) :
    (rendersOn self caller eventId →
      (self.ProcessEvents caller eventId callData).actions =
        self.actions ++ [ViewAction.Render,
          ViewAction.SuperclassProcessEvents caller eventId callData] ∧
      ((self.ProcessEvents caller eventId callData).actions.drop self.actions.length).count
        ViewAction.Render = 1) ∧
    (¬ rendersOn self caller eventId →
      (self.ProcessEvents caller eventId callData).actions =
        self.actions ++ [ViewAction.SuperclassProcessEvents caller eventId callData] ∧
      ((self.ProcessEvents caller eventId callData).actions.drop self.actions.length).count
        ViewAction.Render = 0) ∧
    (self.ProcessEvents caller eventId callData).actions.getLast? =
      some (ViewAction.SuperclassProcessEvents caller eventId callData) ∧
    self.ProcessEvents caller eventId callData =
      { self with actions := (self.ProcessEvents caller eventId callData).actions } := by
  have hact : (self.ProcessEvents caller eventId callData).actions =
      self.actions ++ ((if rendersOn self caller eventId then [ViewAction.Render] else []) ++
        [ViewAction.SuperclassProcessEvents caller eventId callData]) := by
    by_cases h : rendersOn self caller eventId
    · rw [if_pos h]
      unfold rendersOn at h
      rcases h with ⟨h1, rfl⟩ | ⟨h1, rfl⟩ | ⟨h1, rfl⟩ <;>
        simp [ProcessEvents, Render, h1]
    · rw [if_neg h]
      unfold rendersOn at h
      simp only [not_or, not_and] at h
      obtain ⟨h1, h2, h3⟩ := h
      by_cases hi : self.GetInteractor = some caller.id <;>
        by_cases hrep : SafeDownCast "vtkDataRepresentation" caller = true <;>
        simp_all [ProcessEvents, Render]
  have hself : self.ProcessEvents caller eventId callData =
      { self with actions := (self.ProcessEvents caller eventId callData).actions } := by
    simp only [ProcessEvents, Render]
    split_ifs <;> rfl
  refine ⟨?_, ?_, ?_, hself⟩
  · intro h
    rw [hact, if_pos h]
    refine ⟨rfl, ?_⟩
    rw [List.drop_left]
    simp
  · intro h
    rw [hact, if_neg h]
    refine ⟨rfl, ?_⟩
    rw [List.drop_left]
    simp
  · rw [hact, ← List.append_assoc, List.getLast?_append]
    rfl

theorem ProcessEvents_renders_once_witness :
    rendersOn viewWithInteractor interactorCaller EventId.RenderEvent ∧
    (viewWithInteractor.ProcessEvents interactorCaller EventId.RenderEvent 0).actions =
      [ViewAction.Render,
        ViewAction.SuperclassProcessEvents interactorCaller EventId.RenderEvent 0] ∧
    ¬ rendersOn viewWithInteractor representationCaller EventId.RenderEvent ∧
    (viewWithInteractor.ProcessEvents representationCaller EventId.RenderEvent 0).actions =
      [ViewAction.SuperclassProcessEvents representationCaller EventId.RenderEvent 0] :=
  ⟨Or.inl ⟨rfl, rfl⟩,
   ((ProcessEvents_renders_once viewWithInteractor interactorCaller EventId.RenderEvent 0).1
      (Or.inl ⟨rfl, rfl⟩)).1,
   by simp [rendersOn, viewWithInteractor, representationCaller, GetInteractor],
   ((ProcessEvents_renders_once viewWithInteractor representationCaller
      EventId.RenderEvent 0).2.1
      (by simp [rendersOn, viewWithInteractor, representationCaller, GetInteractor])).1⟩

/-- C13: null arguments are rejected without changing state.
`vtkRenderViewBase::SetRenderWindow`, `SetInteractor` and `SetInteractorStyle`, and
`vtkRenderedGraphRepresentation::SetLayoutStrategy` and `SetEdgeLayoutStrategy`
with a null strategy object, each report one error and return with every member of
the object (render window, interactor, style, interaction mode, strategy,
strategy name and all others) as it was. -/
theorem null_arguments_are_rejected (view : vtkRenderViewBase)
    (rep : vtkRenderedGraphRepresentation) (fuel : Nat) :
    view.SetRenderWindow none fuel = some { view with errors := view.errors ++
      ["SetRenderWindow called with a null window pointer. That can't be right."] } ∧
    view.SetInteractor none = { view with errors := view.errors ++
      ["SetInteractor called with a null interactor pointer. That can't be right."] } ∧
    view.SetInteractorStyle none = some { view with errors := view.errors ++
      ["Interactor style must not be null."] } ∧
    rep.SetLayoutStrategy none = { rep with errors := rep.errors ++
      ["Layout strategy must not be NULL."] } ∧
    rep.SetEdgeLayoutStrategy none = { rep with errors := rep.errors ++
      ["Layout strategy must not be NULL."] } :=
  ⟨rfl, rfl, rfl, rfl, rfl⟩

end EventClaims

section WindowLemmas

open vtkRenderViewBase

@[simp] theorem onInteractor_RenderWindow (self : vtkRenderViewBase) (id : Nat)
    (f : vtkRenderWindowInteractor → vtkRenderWindowInteractor) :
    (self.onInteractor id f).RenderWindow = self.RenderWindow := rfl

@[simp] theorem onInteractor_Observer (self : vtkRenderViewBase) (id : Nat)
    (f : vtkRenderWindowInteractor → vtkRenderWindowInteractor) :
    (self.onInteractor id f).Observer = self.Observer := rfl

@[simp] theorem onInteractor_windows (self : vtkRenderViewBase) (id : Nat)
    (f : vtkRenderWindowInteractor → vtkRenderWindowInteractor) :
    (self.onInteractor id f).windows = self.windows := rfl

@[simp] theorem onRenderer_RenderWindow (self : vtkRenderViewBase) (id : Nat)
    (f : vtkRenderer → vtkRenderer) :
    (self.onRenderer id f).RenderWindow = self.RenderWindow := rfl

@[simp] theorem onRenderer_Observer (self : vtkRenderViewBase) (id : Nat)
    (f : vtkRenderer → vtkRenderer) :
    (self.onRenderer id f).Observer = self.Observer := rfl

@[simp] theorem onRenderer_windows (self : vtkRenderViewBase) (id : Nat)
    (f : vtkRenderer → vtkRenderer) :
    (self.onRenderer id f).windows = self.windows := rfl

@[simp] theorem onWindow_RenderWindow (self : vtkRenderViewBase) (id : Nat)
    (f : vtkRenderWindow → vtkRenderWindow) :
    (self.onWindow id f).RenderWindow = self.RenderWindow := rfl

@[simp] theorem onWindow_Observer (self : vtkRenderViewBase) (id : Nat)
    (f : vtkRenderWindow → vtkRenderWindow) :
    (self.onWindow id f).Observer = self.Observer := rfl

theorem onWindow_windows (self : vtkRenderViewBase) (id : Nat)
    (f : vtkRenderWindow → vtkRenderWindow) (w : Nat) :
    (self.onWindow id f).windows w = if w = id then f (self.windows id) else self.windows w := by
  simp only [onWindow, Function.update_apply]

/-- `SetInteractor` on a non-null interactor other than the current one, written
as the changes it makes to the interactor objects and to the view's window. -/
theorem SetInteractor_windows (self : vtkRenderViewBase) (i : Option Nat) (w : Nat) :
    (self.SetInteractor i).RenderWindow = self.RenderWindow ∧
    (self.SetInteractor i).Observer = self.Observer ∧
    ((self.SetInteractor i).windows w).Renderers = (self.windows w).Renderers ∧
    ((self.SetInteractor i).windows w).Observers = (self.windows w).Observers := by
  cases i with
  | none => exact ⟨rfl, rfl, rfl, rfl⟩
  | some i =>
    by_cases h : self.Interactor = some i
    · have hs : self.SetInteractor (some i) = self := by simp [SetInteractor, h]
      rw [hs]
      exact ⟨rfl, rfl, rfl, rfl⟩
    · cases hcur : self.Interactor with
      | none =>
        have hs : self.SetInteractor (some i) =
            ((((({ self with Interactor := some i }.onInteractor i
              (fun x => x.EnableRenderOff)).onInteractor i
              (fun x => x.AddObserver EventId.RenderEvent self.Observer)).onInteractor i
              (fun x => x.AddObserver EventId.StartInteractionEvent self.Observer)).onInteractor i
              (fun x => x.AddObserver EventId.EndInteractionEvent self.Observer)).onWindow
                self.RenderWindow (fun x => x.SetInteractor (some i))).onInteractor i
              (fun x => x.SetInteractorStyle self.InteractorStyle) := by
          simp [SetInteractor, hcur, GetObserver, GetInteractorStyle]
          rfl
        rw [hs]
        simp only [onInteractor_RenderWindow, onInteractor_Observer, onInteractor_windows,
          onWindow_RenderWindow, onWindow_Observer, onWindow_windows]
        refine ⟨trivial, trivial, ?_, ?_⟩ <;> split_ifs with hw <;> first | rfl | (subst hw; rfl)
      | some current =>
        have hci : ¬ (current = i) := by
          intro heq; apply h; rw [hcur, heq]
        have hs : self.SetInteractor (some i) =
            ((((({ (self.onInteractor current (fun x => x.RemoveObserver self.Observer)).onInteractor
                current (fun x => x.SetRenderWindow none) with Interactor := some i }.onInteractor i
              (fun x => x.EnableRenderOff)).onInteractor i
              (fun x => x.AddObserver EventId.RenderEvent self.Observer)).onInteractor i
              (fun x => x.AddObserver EventId.StartInteractionEvent self.Observer)).onInteractor i
              (fun x => x.AddObserver EventId.EndInteractionEvent self.Observer)).onWindow
                self.RenderWindow (fun x => x.SetInteractor (some i))).onInteractor i
              (fun x => x.SetInteractorStyle self.InteractorStyle) := by
          simp [SetInteractor, hcur, hci, GetObserver, GetInteractorStyle]
          rfl
        rw [hs]
        simp only [onInteractor_RenderWindow, onInteractor_Observer, onInteractor_windows,
          onWindow_RenderWindow, onWindow_Observer, onWindow_windows]
        refine ⟨trivial, trivial, ?_, ?_⟩ <;> split_ifs with hw <;> first | rfl | (subst hw; rfl)

theorem AddRenderer_frame (self : vtkRenderViewBase) (win ren : Nat) :
    (self.AddRenderer win ren).RenderWindow = self.RenderWindow ∧
    (self.AddRenderer win ren).Observer = self.Observer := by
  unfold AddRenderer
  split_ifs <;> exact ⟨rfl, rfl⟩

theorem AddRenderer_Renderers (self : vtkRenderViewBase) (win ren w : Nat) :
    ((self.AddRenderer win ren).windows w).Renderers =
      if w = win ∧ ren ∉ (self.windows win).Renderers
      then (self.windows win).Renderers ++ [ren] else (self.windows w).Renderers := by
  unfold AddRenderer
  by_cases hm : ren ∈ (self.windows win).Renderers
  · simp [hm]
  · rw [if_neg hm]
    simp only [onWindow_windows, onRenderer_windows]
    by_cases hw : w = win <;> simp [hw, hm]

theorem RemoveRenderer_frame (self : vtkRenderViewBase) (win ren : Nat) :
    (self.RemoveRenderer win ren).RenderWindow = self.RenderWindow ∧
    (self.RemoveRenderer win ren).Observer = self.Observer := by
  unfold RemoveRenderer
  split_ifs <;> exact ⟨rfl, rfl⟩

theorem RemoveRenderer_Renderers (self : vtkRenderViewBase) (win ren w : Nat) :
    ((self.RemoveRenderer win ren).windows w).Renderers =
      if w = win then (self.windows win).Renderers.erase ren
      else (self.windows w).Renderers := by
  unfold RemoveRenderer
  by_cases hc : (self.renderers ren).RenderWindow = some win <;>
    by_cases hw : w = win <;>
    simp [hc, hw, onWindow_windows]

/-- One pass of the loop that moves the renderers: the first renderer leaves the
current window, and joins `win` when `win` is another window. -/
theorem moveRenderer_facts (self : vtkRenderViewBase) (win ren : Nat) (rest : List Nat)
    (h : (self.windows self.RenderWindow).Renderers = ren :: rest) :
    (self.moveRenderer win ren).RenderWindow = self.RenderWindow ∧
    (self.moveRenderer win ren).Observer = self.Observer ∧
    ((self.moveRenderer win ren).windows self.RenderWindow).Renderers = rest ∧
    (win ≠ self.RenderWindow →
      ∀ x, x ∈ (self.windows win).Renderers ∨ x = ren →
        x ∈ ((self.moveRenderer win ren).windows win).Renderers) := by
  have hrw : ((self.onRenderer ren (fun r => r.SetRenderWindow none)).AddRenderer win
      ren).RenderWindow = self.RenderWindow :=
    (AddRenderer_frame _ win ren).1
  refine ⟨?_, ?_, ?_, ?_⟩
  · unfold moveRenderer
    rw [(RemoveRenderer_frame _ _ _).1, hrw]
  · unfold moveRenderer
    rw [(RemoveRenderer_frame _ _ _).2, (AddRenderer_frame _ _ _).2]
    rfl
  · unfold moveRenderer
    simp only [hrw]
    rw [RemoveRenderer_Renderers, if_pos rfl, AddRenderer_Renderers]
    simp only [onRenderer_windows]
    by_cases hw : self.RenderWindow = win
    · have hmem : ren ∈ (self.windows win).Renderers := by rw [← hw, h]; simp
      rw [if_neg (fun hc => hc.2 hmem), h, List.erase_cons_head]
    · rw [if_neg (fun hc => hw hc.1), h, List.erase_cons_head]
  · intro hne x hx
    unfold moveRenderer
    simp only [hrw]
    rw [RemoveRenderer_Renderers, if_neg hne, AddRenderer_Renderers]
    simp only [onRenderer_windows, true_and]
    split_ifs with hm
    · rcases hx with hx | rfl
      · exact hx
      · exact hm
    · rcases hx with hx | rfl
      · exact List.mem_append_left _ hx
      · simp

/-- The loop that moves the renderers finishes once the bound reaches the number
of renderers of the current window; it empties that window, and every renderer of
the current window is then a renderer of `win` when `win` is another window. -/
theorem moveRenderers_spec (win : Nat) :
    ∀ (fuel : Nat) (self : vtkRenderViewBase),
      (self.windows self.RenderWindow).Renderers.length ≤ fuel →
      ∃ r, self.moveRenderers win fuel = some r ∧
        r.RenderWindow = self.RenderWindow ∧
        r.Observer = self.Observer ∧
        (r.windows self.RenderWindow).Renderers = [] ∧
        (win ≠ self.RenderWindow →
          ∀ x, x ∈ (self.windows self.RenderWindow).Renderers ∨
              x ∈ (self.windows win).Renderers →
            x ∈ (r.windows win).Renderers) := by
  intro fuel
  induction fuel with
  | zero =>
    intro self hlen
    have hnil : (self.windows self.RenderWindow).Renderers = [] :=
      List.length_eq_zero.mp (Nat.le_zero.mp hlen)
    refine ⟨self, ?_, rfl, rfl, hnil, ?_⟩
    · simp [moveRenderers, hnil]
    · intro _ x hx
      rcases hx with hx | hx
      · rw [hnil] at hx; exact absurd hx (List.not_mem_nil _)
      · exact hx
  | succ fuel ih =>
    intro self hlen
    cases hl : (self.windows self.RenderWindow).Renderers with
    | nil =>
      refine ⟨self, ?_, rfl, rfl, hl, ?_⟩
      · simp [moveRenderers, hl]
      · intro _ x hx
        rcases hx with hx | hx
        · exact absurd hx (List.not_mem_nil _)
        · exact hx
    | cons ren rest =>
      obtain ⟨h1, h2, h3, h4⟩ := moveRenderer_facts self win ren rest hl
      have hlen2 : ((self.moveRenderer win ren).windows
          (self.moveRenderer win ren).RenderWindow).Renderers.length ≤ fuel := by
        rw [h1, h3]
        rw [hl] at hlen
        simpa using hlen
      obtain ⟨r, hr, hr1, hr2, hr3, hr4⟩ := ih (self.moveRenderer win ren) hlen2
      refine ⟨r, ?_, ?_, ?_, ?_, ?_⟩
      · simp [moveRenderers, hl, hr]
      · rw [hr1, h1]
      · rw [hr2, h2]
      · rw [h1] at hr3; exact hr3
      · intro hne x hx
        rw [h1] at hr4
        apply hr4 hne
        rw [h3]
        rcases hx with hx | hx
        · rcases List.mem_cons.mp hx with rfl | hx
          · exact Or.inr (h4 hne _ (Or.inr rfl))
          · exact Or.inl hx
        · exact Or.inr (h4 hne _ (Or.inl hx))

end WindowLemmas

section WindowClaims

open vtkRenderViewBase

/-- C12 fails on the code when `win` is the window the view already has. For
every non-null `win` the loop that moves the renderers finishes (a bound of the
number of renderers of the current window is enough), afterwards
`GetRenderWindow()` is `win` and the view's observer is registered on `win` for
`EndEvent`; when `win` is another window, every renderer of the previous window is
a renderer of `win`; but when `win` is the current window, each renderer is
refused by `AddRenderer` (the window holds it already) and then removed, so `win`
is left without any renderer, the view's own `Renderer` included. -/
theorem SetRenderWindow_moves_renderers (self : vtkRenderViewBase) (win fuel : Nat)
    (hfuel : (self.windows self.RenderWindow).Renderers.length ≤ fuel) :
    (∃ r, self.SetRenderWindow (some win) fuel = some r ∧
      r.GetRenderWindow = win ∧
      (EventId.EndEvent, self.GetObserver) ∈ (r.windows win).Observers ∧
      (win ≠ self.RenderWindow →
        ∀ ren ∈ (self.windows self.RenderWindow).Renderers, ren ∈ (r.windows win).Renderers) ∧
      (win = self.RenderWindow → (r.windows win).Renderers = [])) ∧
    viewWithInteractor.Renderer ∈
      (viewWithInteractor.windows viewWithInteractor.GetRenderWindow).Renderers ∧
    (viewWithInteractor.SetRenderWindow (some viewWithInteractor.GetRenderWindow) 1).map
      (fun r => (r.GetRenderWindow, (r.windows r.GetRenderWindow).Renderers)) =
        some (viewWithInteractor.GetRenderWindow, []) := by
  refine ⟨?_, by decide, by decide⟩
  have hs0 : ∀ w, ((self.onWindow self.RenderWindow
      (fun w => w.RemoveObserver self.GetObserver)).windows w).Renderers =
      (self.windows w).Renderers := by
    intro w
    rw [onWindow_windows]
    split_ifs with hw
    · subst hw; rfl
    · rfl
  obtain ⟨r1, hr1, hrw, hobs, hnil, hmove⟩ := moveRenderers_spec win fuel
    (self.onWindow self.RenderWindow (fun w => w.RemoveObserver self.GetObserver))
    (by rw [onWindow_RenderWindow, hs0]; exact hfuel)
  rw [onWindow_RenderWindow] at hrw hnil hmove
  rw [onWindow_Observer] at hobs
  have key : ∀ (x : vtkRenderViewBase) (i : Option Nat),
      x.RenderWindow = win → x.Observer = self.Observer →
      (∀ w, (x.windows w).Renderers = (r1.windows w).Renderers) →
      (EventId.EndEvent, self.Observer) ∈ (x.windows win).Observers →
      (x.SetInteractor i).GetRenderWindow = win ∧
      (EventId.EndEvent, self.GetObserver) ∈ ((x.SetInteractor i).windows win).Observers ∧
      (win ≠ self.RenderWindow →
        ∀ ren ∈ (self.windows self.RenderWindow).Renderers,
          ren ∈ ((x.SetInteractor i).windows win).Renderers) ∧
      (win = self.RenderWindow → ((x.SetInteractor i).windows win).Renderers = []) := by
    intro x i hx1 hx2 hx3 hx4
    obtain ⟨f1, f2, f3, f4⟩ := SetInteractor_windows x i win
    refine ⟨?_, ?_, ?_, ?_⟩
    · show (x.SetInteractor i).RenderWindow = win
      rw [f1, hx1]
    · rw [f4]; exact hx4
    · intro hne ren hren
      rw [f3, hx3]
      apply hmove hne
      left
      rw [hs0]
      exact hren
    · intro heq
      rw [f3, hx3, heq]
      exact hnil
  unfold SetRenderWindow
  simp only [hr1]
  have hwin : ∀ w, ((({ r1 with RenderWindow := win } : vtkRenderViewBase).onWindow win
      (fun w => w.AddObserver EventId.EndEvent r1.Observer)).windows w).Renderers =
      (r1.windows w).Renderers := by
    intro w
    rw [onWindow_windows]
    split_ifs with hw
    · subst hw; rfl
    · rfl
  have hend : (EventId.EndEvent, self.Observer) ∈
      ((({ r1 with RenderWindow := win } : vtkRenderViewBase).onWindow win
        (fun w => w.AddObserver EventId.EndEvent r1.Observer)).windows win).Observers := by
    rw [onWindow_windows, if_pos rfl, hobs]
    simp [vtkRenderWindow.AddObserver]
  split
  · exact ⟨_, rfl, key _ _ rfl hobs hwin hend⟩
  · exact ⟨_, rfl, key _ _ rfl hobs hwin hend⟩

theorem SetRenderWindow_moves_renderers_witness :
    ((viewWithInteractor.windows viewWithInteractor.RenderWindow).Renderers.length ≤ 1 ∧
    ∃ r, viewWithInteractor.SetRenderWindow (some 3) 1 = some r ∧
      r.GetRenderWindow = 3 ∧
      (EventId.EndEvent, viewWithInteractor.GetObserver) ∈ (r.windows 3).Observers ∧
      (3 ≠ viewWithInteractor.RenderWindow →
        ∀ ren ∈ (viewWithInteractor.windows viewWithInteractor.RenderWindow).Renderers,
          ren ∈ (r.windows 3).Renderers) ∧
      (3 = viewWithInteractor.RenderWindow → (r.windows 3).Renderers = [])) ∧
    ((viewBesideEmptyWindow.windows viewBesideEmptyWindow.RenderWindow).Renderers = [50] ∧
      (viewBesideEmptyWindow.windows 3).Renderers = [] ∧
      ∃ r, viewBesideEmptyWindow.SetRenderWindow (some 3) 1 = some r ∧
        r.GetRenderWindow = 3 ∧
        (EventId.EndEvent, viewBesideEmptyWindow.GetObserver) ∈ (r.windows 3).Observers ∧
        (3 ≠ viewBesideEmptyWindow.RenderWindow →
          ∀ ren ∈ (viewBesideEmptyWindow.windows viewBesideEmptyWindow.RenderWindow).Renderers,
            ren ∈ (r.windows 3).Renderers) ∧
        (3 = viewBesideEmptyWindow.RenderWindow → (r.windows 3).Renderers = [])) ∧
    (viewBesideEmptyWindow.SetRenderWindow (some 3) 1).map
      (fun r => ((r.windows 0).Renderers, (r.windows 3).Renderers)) = some ([], [50]) :=
  ⟨⟨by decide, (SetRenderWindow_moves_renderers viewWithInteractor 3 1 (by decide)).1⟩,
   ⟨rfl, rfl, (SetRenderWindow_moves_renderers viewBesideEmptyWindow 3 1 (by decide)).1⟩,
   by decide⟩

end WindowClaims

section DataClaims

/-- C14 fails on the code: an object made with progress `2` returns `2` from
`GetProgress()`, outside the range from 0 to 1 that the declaration of
`GetProgress()` documents. -/
theorem GetProgress_outside_unit_range :
    ¬ (0 ≤ (ViewProgressEventCallData.New (some "layout") 2).GetProgress ∧
       (ViewProgressEventCallData.New (some "layout") 2).GetProgress ≤ 1) := by
  simp [ViewProgressEventCallData.New, ViewProgressEventCallData.GetProgress]

/-- C14, what the code does: `GetProgress()` returns the progress passed to the
constructor and `GetProgressMessage()` the message passed to it, and nothing
checks the progress; so the progress returned is in the documented range from 0
to 1 exactly when the progress passed to the constructor is. -/
theorem GetProgress_returns_constructor_argument (msg : Option String) (progress : ℚ) :
    (ViewProgressEventCallData.New msg progress).GetProgress = progress ∧
    (ViewProgressEventCallData.New msg progress).GetProgressMessage = msg ∧
    ((0 ≤ (ViewProgressEventCallData.New msg progress).GetProgress ∧
        (ViewProgressEventCallData.New msg progress).GetProgress ≤ 1) ↔
      (0 ≤ progress ∧ progress ≤ 1)) :=
  ⟨rfl, rfl, Iff.rfl⟩

theorem sum_map_count_eq_count_flatten (inData : List (List (String × String)))
    (p : String × String) :
    (inData.map (fun d => d.count p)).sum = inData.flatten.count p := by
  induction inData with
  | nil => rfl
  | cons d ds ih =>
    show d.count p + (ds.map (fun d => d.count p)).sum = (d ++ ds.flatten).count p
    rw [List.count_append, ih]

theorem sum_map_length_eq_length_flatten (inData : List (List (String × String))) :
    (inData.map (fun d => d.length)).sum = inData.flatten.length := by
  induction inData with
  | nil => rfl
  | cons d ds ih =>
    show d.length + (ds.map (fun d => d.length)).sum = (d ++ ds.flatten).length
    rw [List.length_append, ih]

/-- C15: without a controller, `vtkPContingencyStatistics::ExecuteLearn` gives
the process the model that the serial `ExecuteLearn` gives on the same input; with
a controller every process ends with the same model, the one the serial
`ExecuteLearn` gives on the rows of all processes together. -/
theorem PExecuteLearn_global_model (inData : List (List (String × String)))
    (rank other : Nat) :
    vtkPContingencyStatistics.ExecuteLearn false inData rank =
      vtkContingencyStatistics.ExecuteLearn (inData.getD rank []) ∧
    vtkPContingencyStatistics.ExecuteLearn true inData rank =
      vtkPContingencyStatistics.ExecuteLearn true inData other ∧
    (vtkPContingencyStatistics.ExecuteLearn true inData rank).SampleSize =
      (vtkContingencyStatistics.ExecuteLearn inData.flatten).SampleSize ∧
    (∀ p, (vtkPContingencyStatistics.ExecuteLearn true inData rank).Cardinality p =
      (vtkContingencyStatistics.ExecuteLearn inData.flatten).Cardinality p) := by
  refine ⟨rfl, rfl, ?_, ?_⟩
  · simp only [vtkPContingencyStatistics.ExecuteLearn, vtkContingencyStatistics.ExecuteLearn,
      if_true, List.map_map]
    exact sum_map_length_eq_length_flatten inData
  · intro p
    simp only [vtkPContingencyStatistics.ExecuteLearn, vtkContingencyStatistics.ExecuteLearn,
      if_true, List.map_map]
    exact sum_map_count_eq_count_flatten inData p

end DataClaims

section FrustumClaims

open vtkRenderedGraphRepresentation

/-- C24: in `ConvertSelection` the picked prop is removed. For every input
selection the vertex node and the edge node carry no `PROP` after the
classification, also when they were copied from a node that had one, and every
node of a selection handed to the first conversion stage carries none. -/
theorem ConvertSelection_removes_PROP
    (self : vtkRenderedGraphRepresentation) (ctx : SelectionContext) (sel : vtkSelection) :
    (classify sel).vertexNode.PROP = none ∧
    (classify sel).edgeNode.PROP = none ∧
    (∀ c ∈ (self.ConvertSelection ctx sel).calls,
      c.data = ConversionData.VertexGlyphOutput ∨ c.data = ConversionData.GraphToPolyOutput →
      ∀ n ∈ c.sel.Nodes, n.PROP = none) ∧
    (classify (vtkSelection.mk [vertexPick, edgePick])).vertexNode =
      { vertexPick with PROP := none } ∧
    (classify (vtkSelection.mk [vertexPick, edgePick])).edgeNode =
      { edgePick with PROP := none } := by
  have hvp : (pickedVertexNode sel).PROP = none := by
    rw [← classify_vertexNode]; rfl
  have hep : (pickedEdgeNode sel).PROP = none := by
    rw [← classify_edgeNode]; rfl
  refine ⟨rfl, rfl, ?_, by decide, by decide⟩
  intro c hc hdata n hn
  cases hin : self.Input with
  | none =>
    have hres : self.ConvertSelection ctx sel =
        { converted := some vtkSelection.New, calls := [] } := by
      unfold ConvertSelection
      simp only [hin]
    rw [hres] at hc
    exact absurd hc (List.not_mem_nil _)
  | some input =>
    obtain ⟨hnull, hlists⟩ := ConvertSelection_cases self ctx sel input hin
    have hcases : (self.ConvertSelection ctx sel).calls =
          [firstStageCall (pickedVertexNode sel) ConversionData.VertexGlyphOutput
              ctx.VertexGlyph_HasPedigreeIds,
           secondStageCall ctx (pickedVertexNode sel) ConversionData.VertexGlyphOutput
              ctx.VertexGlyph_HasPedigreeIds SelectionField.VERTEX input] ∨
        (self.ConvertSelection ctx sel).calls =
          [firstStageCall (pickedVertexNode sel) ConversionData.VertexGlyphOutput
              ctx.VertexGlyph_HasPedigreeIds,
           secondStageCall ctx (pickedVertexNode sel) ConversionData.VertexGlyphOutput
              ctx.VertexGlyph_HasPedigreeIds SelectionField.VERTEX input,
           firstStageCall (pickedEdgeNode sel) ConversionData.GraphToPolyOutput
              ctx.GraphToPoly_HasPedigreeIds,
           secondStageCall ctx (pickedEdgeNode sel) ConversionData.GraphToPolyOutput
              ctx.GraphToPoly_HasPedigreeIds SelectionField.EDGE input] := by
      by_cases hl : ∀ n ∈ (vertexConversion ctx sel input).Nodes, n.SelectionList ≠ none
      · by_cases hcond : (classify sel).foundEdgeNode = true ∧
            ¬ ∃ n ∈ (vertexConversion ctx sel input).Nodes, n.hasTuple
        · exact Or.inr ((hlists hl).1 hcond).2
        · exact Or.inl ((hlists hl).2 hcond).2
      · have hex : ∃ n ∈ (vertexConversion ctx sel input).Nodes,
            n.SelectionList = none := by
          by_contra hcon
          apply hl
          intro n hn hnone
          exact hcon ⟨n, hn, hnone⟩
        exact Or.inl (hnull hex).2
    rcases hcases with hcalls | hcalls
    · rw [hcalls] at hc
      simp only [List.mem_cons, List.mem_singleton, List.mem_nil_iff, or_false] at hc
      rcases hc with rfl | rfl
      · simp only [firstStageCall, List.mem_singleton] at hn
        rw [hn]; exact hvp
      · simp [secondStageCall] at hdata
    · rw [hcalls] at hc
      simp only [List.mem_cons, List.mem_singleton, List.mem_nil_iff, or_false] at hc
      rcases hc with rfl | rfl | rfl | rfl
      · simp only [firstStageCall, List.mem_singleton] at hn
        rw [hn]; exact hvp
      · simp [secondStageCall] at hdata
      · simp only [firstStageCall, List.mem_singleton] at hn
        rw [hn]; exact hep
      · simp [secondStageCall] at hdata

/-- An edge pick alone, converted by a conversion that gives every node a
selection list, so that both first-stage calls are made. -/
theorem ConvertSelection_removes_PROP_witness :
    (∀ c ∈ (representationWithInput.ConvertSelection listContext
        (vtkSelection.mk [edgePick])).calls,
      c.data = ConversionData.VertexGlyphOutput ∨ c.data = ConversionData.GraphToPolyOutput →
      ∀ n ∈ c.sel.Nodes, n.PROP = none) ∧
    (representationWithInput.ConvertSelection listContext
        (vtkSelection.mk [edgePick])).calls.length = 4 ∧
    edgePick.PROP = some vtkProp.EdgeActor :=
  ⟨(ConvertSelection_removes_PROP representationWithInput listContext
      (vtkSelection.mk [edgePick])).2.2.1, by decide, rfl⟩

end FrustumClaims

section SameClassLemmas

open vtkRenderedGraphRepresentation

theorem edgeLayoutStrategyForKey_class_indep (key : String) (id id2 : Nat) :
    (edgeLayoutStrategyForKey key id).1.ClassName =
      (edgeLayoutStrategyForKey key id2).1.ClassName := by
  simp only [edgeLayoutStrategyForKey]
  split_ifs <;> rfl

/-- The name-based vertex setter when the chosen class is the current class:
only the identity counter and the error log can differ. -/
theorem SetLayoutStrategy_name_same_class (self : vtkRenderedGraphRepresentation)
    (name : String)
    (h : (layoutStrategyForKey (normalise name) self.nextId).1.ClassName =
      self.Layout_LayoutStrategy.ClassName) :
    self.SetLayoutStrategy_name name =
      { self with
        nextId := (self.SetLayoutStrategy_name name).nextId
        errors := (self.SetLayoutStrategy_name name).errors } := by
  simp only [SetLayoutStrategy_name, GetLayoutStrategy, vtkObject.GetClassName, reportError]
  split_ifs <;> simp_all

theorem SetEdgeLayoutStrategy_name_same_class (self : vtkRenderedGraphRepresentation)
    (name : String)
    (h : (edgeLayoutStrategyForKey (normalise name) self.nextId).1.ClassName =
      self.EdgeLayout_LayoutStrategy.ClassName) :
    self.SetEdgeLayoutStrategy_name name =
      { self with
        nextId := (self.SetEdgeLayoutStrategy_name name).nextId
        errors := (self.SetEdgeLayoutStrategy_name name).errors } := by
  simp only [SetEdgeLayoutStrategy_name, GetEdgeLayoutStrategy, vtkObject.GetClassName,
    reportError]
  split_ifs <;> simp_all

theorem SetEdgeLayoutStrategy_name_strategy (self : vtkRenderedGraphRepresentation)
    (name : String) :
    (self.SetEdgeLayoutStrategy_name name).GetEdgeLayoutStrategy =
      if (edgeLayoutStrategyForKey (normalise name) self.nextId).1.ClassName ≠
          self.GetEdgeLayoutStrategy.GetClassName
      then (edgeLayoutStrategyForKey (normalise name) self.nextId).1
      else self.GetEdgeLayoutStrategy := by
  simp only [SetEdgeLayoutStrategy_name, GetEdgeLayoutStrategy, vtkObject.GetClassName,
    reportError, SetEdgeLayoutStrategy, SetEdgeLayoutStrategyName]
  split_ifs <;> simp_all

end SameClassLemmas

section SameClassClaims

open vtkRenderedGraphRepresentation

/-- C22: `SetLayoutStrategy(const char*)` and `SetEdgeLayoutStrategy(const char*)`
replace the strategy exactly when the class selected by the name differs from
the class of the current strategy. If the current strategy already has the
selected class, the strategy object with its parameters, the stored name and
every other member are left as they are (only the identity counter and the
error log of the model can move); if the classes differ the strategy becomes the
newly made object. Calling either setter a second time with the same name
changes no member of the state the first call left. -/
theorem name_setters_replace_only_on_class_change
    (self : vtkRenderedGraphRepresentation) (name : String) :
    ((layoutStrategyForKey (normalise name) self.nextId).1.GetClassName =
        self.GetLayoutStrategy.GetClassName →
      (self.SetLayoutStrategy_name name).GetLayoutStrategy = self.GetLayoutStrategy ∧
      (self.SetLayoutStrategy_name name).LayoutStrategyName = self.LayoutStrategyName ∧
      self.SetLayoutStrategy_name name =
        { self with
          nextId := (self.SetLayoutStrategy_name name).nextId
          errors := (self.SetLayoutStrategy_name name).errors }) ∧
    ((layoutStrategyForKey (normalise name) self.nextId).1.GetClassName ≠
        self.GetLayoutStrategy.GetClassName →
      (self.SetLayoutStrategy_name name).GetLayoutStrategy =
        (layoutStrategyForKey (normalise name) self.nextId).1) ∧
    ((self.SetLayoutStrategy_name name).SetLayoutStrategy_name name =
      { self.SetLayoutStrategy_name name with
        nextId := ((self.SetLayoutStrategy_name name).SetLayoutStrategy_name name).nextId
        errors := ((self.SetLayoutStrategy_name name).SetLayoutStrategy_name name).errors }) ∧
    ((edgeLayoutStrategyForKey (normalise name) self.nextId).1.GetClassName =
        self.GetEdgeLayoutStrategy.GetClassName →
      (self.SetEdgeLayoutStrategy_name name).GetEdgeLayoutStrategy =
        self.GetEdgeLayoutStrategy ∧
      (self.SetEdgeLayoutStrategy_name name).EdgeLayoutStrategyName =
        self.EdgeLayoutStrategyName ∧
      self.SetEdgeLayoutStrategy_name name =
        { self with
          nextId := (self.SetEdgeLayoutStrategy_name name).nextId
          errors := (self.SetEdgeLayoutStrategy_name name).errors }) ∧
    ((edgeLayoutStrategyForKey (normalise name) self.nextId).1.GetClassName ≠
        self.GetEdgeLayoutStrategy.GetClassName →
      (self.SetEdgeLayoutStrategy_name name).GetEdgeLayoutStrategy =
        (edgeLayoutStrategyForKey (normalise name) self.nextId).1) ∧
    ((self.SetEdgeLayoutStrategy_name name).SetEdgeLayoutStrategy_name name =
      { self.SetEdgeLayoutStrategy_name name with
        nextId :=
          ((self.SetEdgeLayoutStrategy_name name).SetEdgeLayoutStrategy_name name).nextId
        errors :=
          ((self.SetEdgeLayoutStrategy_name name).SetEdgeLayoutStrategy_name name).errors }) := by
  refine ⟨?_, ?_, ?_, ?_, ?_, ?_⟩
  · intro h
    have hs := SetLayoutStrategy_name_same_class self name h
    refine ⟨?_, ?_, hs⟩
    · rw [hs]; rfl
    · rw [hs]
  · intro h
    rw [SetLayoutStrategy_name_strategy]
    exact if_pos h
  · apply SetLayoutStrategy_name_same_class
    have h1 := SetLayoutStrategy_name_class self name
    simp only [GetLayoutStrategy, vtkObject.GetClassName] at h1
    rw [h1]
    exact layoutStrategyForKey_class_indep _ _ _
  · intro h
    have hs := SetEdgeLayoutStrategy_name_same_class self name h
    refine ⟨?_, ?_, hs⟩
    · rw [hs]; rfl
    · rw [hs]
  · intro h
    rw [SetEdgeLayoutStrategy_name_strategy]
    exact if_pos h
  · apply SetEdgeLayoutStrategy_name_same_class
    have h1 := SetEdgeLayoutStrategy_name_class self name
    simp only [GetEdgeLayoutStrategy, vtkObject.GetClassName] at h1
    rw [h1]
    exact edgeLayoutStrategyForKey_class_indep _ _ _

/-- On a fresh representation the name `Fast 2D` selects the class of the
current vertex strategy and `arc parallel` that of the current edge strategy. -/
theorem name_setters_replace_only_on_class_change_witness :
    ((layoutStrategyForKey (normalise "Fast 2D") New.nextId).1.GetClassName =
        New.GetLayoutStrategy.GetClassName ∧
      (New.SetLayoutStrategy_name "Fast 2D").GetLayoutStrategy = New.GetLayoutStrategy ∧
      (New.SetLayoutStrategy_name "Fast 2D").LayoutStrategyName = New.LayoutStrategyName) ∧
    ((layoutStrategyForKey (normalise "tree") New.nextId).1.GetClassName ≠
        New.GetLayoutStrategy.GetClassName ∧
      (New.SetLayoutStrategy_name "tree").GetLayoutStrategy =
        (layoutStrategyForKey (normalise "tree") New.nextId).1) ∧
    ((edgeLayoutStrategyForKey (normalise "Arc Parallel") New.nextId).1.GetClassName =
        New.GetEdgeLayoutStrategy.GetClassName ∧
      (New.SetEdgeLayoutStrategy_name "Arc Parallel").GetEdgeLayoutStrategy =
        New.GetEdgeLayoutStrategy) ∧
    ((edgeLayoutStrategyForKey (normalise "geo") New.nextId).1.GetClassName ≠
        New.GetEdgeLayoutStrategy.GetClassName ∧
      (New.SetEdgeLayoutStrategy_name "geo").GetEdgeLayoutStrategy =
        (edgeLayoutStrategyForKey (normalise "geo") New.nextId).1) :=
  ⟨⟨by decide,
     ((name_setters_replace_only_on_class_change New "Fast 2D").1 (by decide)).1,
     ((name_setters_replace_only_on_class_change New "Fast 2D").1 (by decide)).2.1⟩,
   ⟨by decide,
     (name_setters_replace_only_on_class_change New "tree").2.1 (by decide)⟩,
   ⟨by decide,
     ((name_setters_replace_only_on_class_change New "Arc Parallel").2.2.2.1 (by decide)).1⟩,
   ⟨by decide,
     (name_setters_replace_only_on_class_change New "geo").2.2.2.2.1 (by decide)⟩⟩

end SameClassClaims

section VisibilityClaims

open vtkRenderedGraphRepresentation

/-- C23: vertex label, edge label and vertex icon visibility round-trip. For
each of the three, the getter returns `b` right after the setter was called with
`b`, for `b = true` and for `b = false`; calling the setter twice with the same
`b` gives the state of calling it once; and on a freshly constructed
representation the three stages are fed the empty poly data, so the three
getters return `false`. -/
theorem visibility_round_trip (self : vtkRenderedGraphRepresentation) (b : Bool) :
    (self.SetVertexLabelVisibility b).GetVertexLabelVisibility = b ∧
    (self.SetEdgeLabelVisibility b).GetEdgeLabelVisibility = b ∧
    (self.SetVertexIconVisibility b).GetVertexIconVisibility = b ∧
    (self.SetVertexLabelVisibility b).SetVertexLabelVisibility b =
      self.SetVertexLabelVisibility b ∧
    (self.SetEdgeLabelVisibility b).SetEdgeLabelVisibility b =
      self.SetEdgeLabelVisibility b ∧
    (self.SetVertexIconVisibility b).SetVertexIconVisibility b =
      self.SetVertexIconVisibility b ∧
    New.InputConnection Stage.VertexLabels = Connection.EmptyPolyData ∧
    New.InputConnection Stage.EdgeLabels = Connection.EmptyPolyData ∧
    New.InputConnection Stage.VertexIcons = Connection.EmptyPolyData ∧
    New.GetVertexLabelVisibility = false ∧
    New.GetEdgeLabelVisibility = false ∧
    New.GetVertexIconVisibility = false := by
  refine ⟨?_, ?_, ?_, ?_, ?_, ?_, rfl, rfl, rfl, by decide, by decide, by decide⟩
  · cases b <;>
      simp [SetVertexLabelVisibility, GetVertexLabelVisibility, SetInputConnection]
  · cases b <;>
      simp [SetEdgeLabelVisibility, GetEdgeLabelVisibility, SetInputConnection]
  · cases b <;>
      simp [SetVertexIconVisibility, GetVertexIconVisibility, SetInputConnection]
  · cases b <;>
      simp [SetVertexLabelVisibility, SetInputConnection]
  · cases b <;>
      simp [SetEdgeLabelVisibility, SetInputConnection]
  · cases b <;>
      simp [SetVertexIconVisibility, SetInputConnection]

end VisibilityClaims

section ViewResultClaims

open vtkRenderedGraphRepresentation

/-- C25: `AddToView(view)` and `RemoveFromView(view)` return `true` if and only
if `view` is a `vtkRenderView`. For a view of another class they return `false`
and leave the view and the representation as they were: no actor, label, icon or
progress registration is added or removed and no call is made on the view. -/
theorem AddToView_RemoveFromView_result
    (self : vtkRenderedGraphRepresentation) (view : vtkView) :
    ((self.AddToView view).result = true ↔ ∃ rv, view = vtkView.RenderView rv) ∧
    ((self.RemoveFromView view).result = true ↔ ∃ rv, view = vtkView.RenderView rv) ∧
    ((¬ ∃ rv, view = vtkView.RenderView rv) →
      (self.AddToView view).result = false ∧
      (self.AddToView view).view = view ∧
      (self.AddToView view).self = self ∧
      (self.AddToView view).view.calls = [] ∧
      (self.RemoveFromView view).result = false ∧
      (self.RemoveFromView view).view = view ∧
      (self.RemoveFromView view).self = self ∧
      (self.RemoveFromView view).view.calls = []) := by
  cases view with
  | RenderView rv =>
    refine ⟨⟨fun _ => ⟨rv, rfl⟩, fun _ => rfl⟩, ⟨fun _ => ⟨rv, rfl⟩, fun _ => rfl⟩, ?_⟩
    intro h
    exact absurd ⟨rv, rfl⟩ h
  | Other id =>
    refine ⟨⟨fun h => ?_, fun h => ?_⟩, ⟨fun h => ?_, fun h => ?_⟩, fun _ =>
      ⟨rfl, rfl, rfl, rfl, rfl, rfl, rfl, rfl⟩⟩
    · exact absurd h (by simp [AddToView])
    · obtain ⟨rv, hrv⟩ := h
      cases hrv
    · exact absurd h (by simp [RemoveFromView])
    · obtain ⟨rv, hrv⟩ := h
      cases hrv

/-- A view of another class, for a freshly constructed representation. -/
theorem AddToView_RemoveFromView_result_witness :
    (¬ ∃ rv, vtkView.Other 4 = vtkView.RenderView rv) ∧
    (New.AddToView (vtkView.Other 4)).result = false ∧
    (New.AddToView (vtkView.Other 4)).view.calls = [] ∧
    (New.RemoveFromView (vtkView.Other 4)).result = false :=
  ⟨fun h => h.elim (fun _ hrv => vtkView.noConfusion hrv),
   ((AddToView_RemoveFromView_result New (vtkView.Other 4)).2.2
      (fun h => h.elim (fun _ hrv => vtkView.noConfusion hrv))).1,
   ((AddToView_RemoveFromView_result New (vtkView.Other 4)).2.2
      (fun h => h.elim (fun _ hrv => vtkView.noConfusion hrv))).2.2.2.1,
   ((AddToView_RemoveFromView_result New (vtkView.Other 4)).2.2
      (fun h => h.elim (fun _ hrv => vtkView.noConfusion hrv))).2.2.2.2.1⟩

end ViewResultClaims

section GlyphLemmas

open vtkRenderedGraphRepresentation

theorem GlyphCall_apply_agree (self : vtkRenderedGraphRepresentation) (c : GlyphCall)
    (h : glyphStagesAgree self) : glyphStagesAgree (c.apply self) := by
  obtain ⟨h1, h2, h3⟩ := h
  cases c with
  | SetGlyphType type =>
    simp only [GlyphCall.apply, SetGlyphType]
    split_ifs
    · exact ⟨rfl, h2, h3⟩
    · exact ⟨rfl, h2, h3⟩
    · exact ⟨h1, h2, h3⟩
  | SetScaling b => exact ⟨h1, rfl, h3⟩
  | SetScalingArrayName name => exact ⟨h1, h2, rfl⟩

theorem foldl_GlyphCall_apply_agree (calls : List GlyphCall)
    (self : vtkRenderedGraphRepresentation) (h : glyphStagesAgree self) :
    glyphStagesAgree (calls.foldl GlyphCall.apply self) := by
  induction calls generalizing self with
  | nil => exact h
  | cons c cs ih => exact ih _ (GlyphCall_apply_agree self c h)

end GlyphLemmas

section GlyphClaims

open vtkRenderedGraphRepresentation

/-- C30: in every state reached from construction by calls of `SetGlyphType`,
`SetScaling` and `SetScalingArrayName`, the vertex glyph stage and the outline
glyph stage have the same glyph type, the same scaling flag and the same scaling
array. A `SetGlyphType(t)` call that changes the type leaves the type `t` on
both stages and the outline actor's front-face culling on if and only if `t` is
`SPHERE`; `SetGlyphType(t)` with the current type changes nothing, and the
freshly constructed state has the type `VERTEX` with culling on. -/
theorem glyph_stages_agree_and_culling (calls : List GlyphCall)
    (self : vtkRenderedGraphRepresentation) (t : Int) :
    glyphStagesAgree (afterGlyphCalls calls) ∧
    (t ≠ self.GetGlyphType →
      (self.SetGlyphType t).GetGlyphType = t ∧
      (self.SetGlyphType t).OutlineGlyph_GlyphType = t ∧
      ((self.SetGlyphType t).OutlineActor_FrontfaceCulling = true ↔
        t = vtkGraphToGlyphs.SPHERE)) ∧
    (t = self.GetGlyphType → self.SetGlyphType t = self) ∧
    New.GetGlyphType = vtkGraphToGlyphs.VERTEX ∧
    New.OutlineActor_FrontfaceCulling = true ∧
    vtkGraphToGlyphs.VERTEX ≠ vtkGraphToGlyphs.SPHERE := by
  refine ⟨foldl_GlyphCall_apply_agree calls New ⟨rfl, rfl, rfl⟩, ?_, ?_, rfl, rfl, by decide⟩
  · intro h
    have h2 : t ≠ self.VertexGlyph_GlyphType := h
    by_cases hs : t = vtkGraphToGlyphs.SPHERE
    · have hres : self.SetGlyphType t =
          { self with
            VertexGlyph_GlyphType := t
            OutlineGlyph_GlyphType := t
            OutlineActor_FrontfaceCulling := true } := by
        simp only [SetGlyphType, if_pos h2, if_pos hs]
      rw [hres]
      exact ⟨rfl, rfl, iff_of_true rfl hs⟩
    · have hres : self.SetGlyphType t =
          { self with
            VertexGlyph_GlyphType := t
            OutlineGlyph_GlyphType := t
            OutlineActor_FrontfaceCulling := false } := by
        simp only [SetGlyphType, if_pos h2, if_neg hs]
      rw [hres]
      exact ⟨rfl, rfl, iff_of_false (by simp) hs⟩
  · intro h
    simp only [GetGlyphType] at h
    simp [SetGlyphType, h]

/-- On a fresh representation `SetGlyphType(SPHERE)` changes the type and
`SetGlyphType(VERTEX)` does not. -/
theorem glyph_stages_agree_and_culling_witness :
    (vtkGraphToGlyphs.SPHERE ≠ New.GetGlyphType ∧
      (New.SetGlyphType vtkGraphToGlyphs.SPHERE).GetGlyphType = vtkGraphToGlyphs.SPHERE ∧
      (New.SetGlyphType vtkGraphToGlyphs.SPHERE).OutlineGlyph_GlyphType =
        vtkGraphToGlyphs.SPHERE) ∧
    (vtkGraphToGlyphs.VERTEX = New.GetGlyphType ∧
      New.SetGlyphType vtkGraphToGlyphs.VERTEX = New) :=
  ⟨⟨by decide,
     ((glyph_stages_agree_and_culling [] New vtkGraphToGlyphs.SPHERE).2.1 (by decide)).1,
     ((glyph_stages_agree_and_culling [] New vtkGraphToGlyphs.SPHERE).2.1 (by decide)).2.1⟩,
   ⟨rfl, (glyph_stages_agree_and_culling [] New vtkGraphToGlyphs.VERTEX).2.2.1 rfl⟩⟩

end GlyphClaims

section FrameLemmas

open vtkRenderViewBase

@[simp] theorem onInteractor_RenderOnMouseMove (self : vtkRenderViewBase) (id : Nat)
    (f : vtkRenderWindowInteractor → vtkRenderWindowInteractor) :
    (self.onInteractor id f).RenderOnMouseMove = self.RenderOnMouseMove := rfl

@[simp] theorem onInteractor_InteractionMode (self : vtkRenderViewBase) (id : Nat)
    (f : vtkRenderWindowInteractor → vtkRenderWindowInteractor) :
    (self.onInteractor id f).InteractionMode = self.InteractionMode := rfl

@[simp] theorem onInteractor_Renderer (self : vtkRenderViewBase) (id : Nat)
    (f : vtkRenderWindowInteractor → vtkRenderWindowInteractor) :
    (self.onInteractor id f).Renderer = self.Renderer := rfl

@[simp] theorem onInteractor_Interactor (self : vtkRenderViewBase) (id : Nat)
    (f : vtkRenderWindowInteractor → vtkRenderWindowInteractor) :
    (self.onInteractor id f).Interactor = self.Interactor := rfl

@[simp] theorem onInteractor_InteractorStyle (self : vtkRenderViewBase) (id : Nat)
    (f : vtkRenderWindowInteractor → vtkRenderWindowInteractor) :
    (self.onInteractor id f).InteractorStyle = self.InteractorStyle := rfl

@[simp] theorem onInteractor_renderers (self : vtkRenderViewBase) (id : Nat)
    (f : vtkRenderWindowInteractor → vtkRenderWindowInteractor) :
    (self.onInteractor id f).renderers = self.renderers := rfl

@[simp] theorem onInteractor_styles (self : vtkRenderViewBase) (id : Nat)
    (f : vtkRenderWindowInteractor → vtkRenderWindowInteractor) :
    (self.onInteractor id f).styles = self.styles := rfl

@[simp] theorem onInteractor_actions (self : vtkRenderViewBase) (id : Nat)
    (f : vtkRenderWindowInteractor → vtkRenderWindowInteractor) :
    (self.onInteractor id f).actions = self.actions := rfl

@[simp] theorem onInteractor_nextId (self : vtkRenderViewBase) (id : Nat)
    (f : vtkRenderWindowInteractor → vtkRenderWindowInteractor) :
    (self.onInteractor id f).nextId = self.nextId := rfl

@[simp] theorem onInteractor_errors (self : vtkRenderViewBase) (id : Nat)
    (f : vtkRenderWindowInteractor → vtkRenderWindowInteractor) :
    (self.onInteractor id f).errors = self.errors := rfl

@[simp] theorem onWindow_RenderOnMouseMove (self : vtkRenderViewBase) (id : Nat)
    (f : vtkRenderWindow → vtkRenderWindow) :
    (self.onWindow id f).RenderOnMouseMove = self.RenderOnMouseMove := rfl

@[simp] theorem onWindow_InteractionMode (self : vtkRenderViewBase) (id : Nat)
    (f : vtkRenderWindow → vtkRenderWindow) :
    (self.onWindow id f).InteractionMode = self.InteractionMode := rfl

@[simp] theorem onWindow_Renderer (self : vtkRenderViewBase) (id : Nat)
    (f : vtkRenderWindow → vtkRenderWindow) :
    (self.onWindow id f).Renderer = self.Renderer := rfl

@[simp] theorem onWindow_Interactor (self : vtkRenderViewBase) (id : Nat)
    (f : vtkRenderWindow → vtkRenderWindow) :
    (self.onWindow id f).Interactor = self.Interactor := rfl

@[simp] theorem onWindow_InteractorStyle (self : vtkRenderViewBase) (id : Nat)
    (f : vtkRenderWindow → vtkRenderWindow) :
    (self.onWindow id f).InteractorStyle = self.InteractorStyle := rfl

@[simp] theorem onWindow_interactors (self : vtkRenderViewBase) (id : Nat)
    (f : vtkRenderWindow → vtkRenderWindow) :
    (self.onWindow id f).interactors = self.interactors := rfl

@[simp] theorem onWindow_renderers (self : vtkRenderViewBase) (id : Nat)
    (f : vtkRenderWindow → vtkRenderWindow) :
    (self.onWindow id f).renderers = self.renderers := rfl

@[simp] theorem onWindow_styles (self : vtkRenderViewBase) (id : Nat)
    (f : vtkRenderWindow → vtkRenderWindow) :
    (self.onWindow id f).styles = self.styles := rfl

@[simp] theorem onWindow_actions (self : vtkRenderViewBase) (id : Nat)
    (f : vtkRenderWindow → vtkRenderWindow) :
    (self.onWindow id f).actions = self.actions := rfl

@[simp] theorem onWindow_nextId (self : vtkRenderViewBase) (id : Nat)
    (f : vtkRenderWindow → vtkRenderWindow) :
    (self.onWindow id f).nextId = self.nextId := rfl

@[simp] theorem onWindow_errors (self : vtkRenderViewBase) (id : Nat)
    (f : vtkRenderWindow → vtkRenderWindow) :
    (self.onWindow id f).errors = self.errors := rfl

@[simp] theorem onRenderer_RenderOnMouseMove (self : vtkRenderViewBase) (id : Nat)
    (f : vtkRenderer → vtkRenderer) :
    (self.onRenderer id f).RenderOnMouseMove = self.RenderOnMouseMove := rfl

@[simp] theorem onRenderer_InteractionMode (self : vtkRenderViewBase) (id : Nat)
    (f : vtkRenderer → vtkRenderer) :
    (self.onRenderer id f).InteractionMode = self.InteractionMode := rfl

@[simp] theorem onRenderer_Renderer (self : vtkRenderViewBase) (id : Nat)
    (f : vtkRenderer → vtkRenderer) :
    (self.onRenderer id f).Renderer = self.Renderer := rfl

@[simp] theorem onRenderer_Interactor (self : vtkRenderViewBase) (id : Nat)
    (f : vtkRenderer → vtkRenderer) :
    (self.onRenderer id f).Interactor = self.Interactor := rfl

@[simp] theorem onRenderer_InteractorStyle (self : vtkRenderViewBase) (id : Nat)
    (f : vtkRenderer → vtkRenderer) :
    (self.onRenderer id f).InteractorStyle = self.InteractorStyle := rfl

@[simp] theorem onRenderer_interactors (self : vtkRenderViewBase) (id : Nat)
    (f : vtkRenderer → vtkRenderer) :
    (self.onRenderer id f).interactors = self.interactors := rfl

@[simp] theorem onRenderer_styles (self : vtkRenderViewBase) (id : Nat)
    (f : vtkRenderer → vtkRenderer) :
    (self.onRenderer id f).styles = self.styles := rfl

@[simp] theorem onRenderer_actions (self : vtkRenderViewBase) (id : Nat)
    (f : vtkRenderer → vtkRenderer) :
    (self.onRenderer id f).actions = self.actions := rfl

@[simp] theorem onRenderer_nextId (self : vtkRenderViewBase) (id : Nat)
    (f : vtkRenderer → vtkRenderer) :
    (self.onRenderer id f).nextId = self.nextId := rfl

@[simp] theorem onRenderer_errors (self : vtkRenderViewBase) (id : Nat)
    (f : vtkRenderer → vtkRenderer) :
    (self.onRenderer id f).errors = self.errors := rfl

@[simp] theorem onStyle_RenderOnMouseMove (self : vtkRenderViewBase) (id : Nat)
    (f : vtkInteractorObserver → vtkInteractorObserver) :
    (self.onStyle id f).RenderOnMouseMove = self.RenderOnMouseMove := rfl

@[simp] theorem onStyle_InteractionMode (self : vtkRenderViewBase) (id : Nat)
    (f : vtkInteractorObserver → vtkInteractorObserver) :
    (self.onStyle id f).InteractionMode = self.InteractionMode := rfl

@[simp] theorem onStyle_Renderer (self : vtkRenderViewBase) (id : Nat)
    (f : vtkInteractorObserver → vtkInteractorObserver) :
    (self.onStyle id f).Renderer = self.Renderer := rfl

@[simp] theorem onStyle_RenderWindow (self : vtkRenderViewBase) (id : Nat)
    (f : vtkInteractorObserver → vtkInteractorObserver) :
    (self.onStyle id f).RenderWindow = self.RenderWindow := rfl

@[simp] theorem onStyle_Interactor (self : vtkRenderViewBase) (id : Nat)
    (f : vtkInteractorObserver → vtkInteractorObserver) :
    (self.onStyle id f).Interactor = self.Interactor := rfl

@[simp] theorem onStyle_InteractorStyle (self : vtkRenderViewBase) (id : Nat)
    (f : vtkInteractorObserver → vtkInteractorObserver) :
    (self.onStyle id f).InteractorStyle = self.InteractorStyle := rfl

@[simp] theorem onStyle_Observer (self : vtkRenderViewBase) (id : Nat)
    (f : vtkInteractorObserver → vtkInteractorObserver) :
    (self.onStyle id f).Observer = self.Observer := rfl

@[simp] theorem onStyle_interactors (self : vtkRenderViewBase) (id : Nat)
    (f : vtkInteractorObserver → vtkInteractorObserver) :
    (self.onStyle id f).interactors = self.interactors := rfl

@[simp] theorem onStyle_windows (self : vtkRenderViewBase) (id : Nat)
    (f : vtkInteractorObserver → vtkInteractorObserver) :
    (self.onStyle id f).windows = self.windows := rfl

@[simp] theorem onStyle_renderers (self : vtkRenderViewBase) (id : Nat)
    (f : vtkInteractorObserver → vtkInteractorObserver) :
    (self.onStyle id f).renderers = self.renderers := rfl

@[simp] theorem onStyle_actions (self : vtkRenderViewBase) (id : Nat)
    (f : vtkInteractorObserver → vtkInteractorObserver) :
    (self.onStyle id f).actions = self.actions := rfl

@[simp] theorem onStyle_nextId (self : vtkRenderViewBase) (id : Nat)
    (f : vtkInteractorObserver → vtkInteractorObserver) :
    (self.onStyle id f).nextId = self.nextId := rfl

@[simp] theorem onStyle_errors (self : vtkRenderViewBase) (id : Nat)
    (f : vtkInteractorObserver → vtkInteractorObserver) :
    (self.onStyle id f).errors = self.errors := rfl

theorem onStyle_styles (self : vtkRenderViewBase) (id : Nat)
    (f : vtkInteractorObserver → vtkInteractorObserver) (x : Nat) :
    (self.onStyle id f).styles x = if x = id then f (self.styles id) else self.styles x := by
  simp only [onStyle, Function.update_apply]

theorem onInteractor_interactors (self : vtkRenderViewBase) (id : Nat)
    (f : vtkRenderWindowInteractor → vtkRenderWindowInteractor) (x : Nat) :
    (self.onInteractor id f).interactors x =
      if x = id then f (self.interactors id) else self.interactors x := by
  simp only [onInteractor, Function.update_apply]

theorem onRenderer_renderers (self : vtkRenderViewBase) (id : Nat)
    (f : vtkRenderer → vtkRenderer) (x : Nat) :
    (self.onRenderer id f).renderers x =
      if x = id then f (self.renderers id) else self.renderers x := by
  simp only [onRenderer, Function.update_apply]

end FrameLemmas

section StyleLemmas

open vtkRenderViewBase

@[simp] theorem onStyle_styles_same (self : vtkRenderViewBase) (id : Nat)
    (f : vtkInteractorObserver → vtkInteractorObserver) :
    (self.onStyle id f).styles id = f (self.styles id) := by
  simp [onStyle]

theorem onStyle_styles_other (self : vtkRenderViewBase) (id x : Nat)
    (f : vtkInteractorObserver → vtkInteractorObserver) (h : x ≠ id) :
    (self.onStyle id f).styles x = self.styles x := by
  simp [onStyle, Function.update_apply, h]

/-- The state `SetInteractorStyle` leaves when the style is not the current one
and the window has the interactor `i`, written as a chain of object calls. -/
theorem SetInteractorStyle_eq (self : vtkRenderViewBase) (style i : Nat)
    (hne : some style ≠ self.InteractorStyle) (hi : self.GetInteractor = some i) :
    self.SetInteractorStyle (some style) =
      some
        (let s1 :=
          match self.InteractorStyle with
          | some old => self.onStyle old (fun o => o.RemoveObserver self.Observer)
          | none => self
        let s2 := s1.onInteractor i (fun x => x.SetInteractorStyle (some style))
        let s3 := { s2 with InteractorStyle := some style }
        let s4 := s3.onStyle style
          (fun o => o.AddObserver EventId.SelectionChangedEvent self.Observer)
        match (s4.styles style).Class with
        | StyleClass.RubberBand2D =>
          { s4.onStyle style (fun o => o.SetRenderOnMouseMove self.RenderOnMouseMove) with
            InteractionMode := INTERACTION_MODE_2D }
        | StyleClass.RubberBand3D =>
          { s4.onStyle style (fun o => o.SetRenderOnMouseMove self.RenderOnMouseMove) with
            InteractionMode := INTERACTION_MODE_3D }
        | StyleClass.Other => { s4 with InteractionMode := INTERACTION_MODE_UNKNOWN }) := by
  unfold SetInteractorStyle
  simp only [GetInteractorStyle, ne_eq, hne, not_false_eq_true, if_true]
  cases hold : self.InteractorStyle with
  | none =>
    simp only [GetInteractor] at hi ⊢
    simp only [hi]
    split <;> simp_all [GetObserver, GetRenderOnMouseMove, onStyle, onInteractor]
  | some old =>
    have hi2 : (self.onStyle old (fun o => o.RemoveObserver self.GetObserver)).GetInteractor
        = some i := hi
    simp only [hi2]
    split <;> simp_all [GetObserver, GetRenderOnMouseMove, onStyle, onInteractor]

/-- What `SetInteractorStyle` does with a style that is not the current one, when
the window has the interactor `i`. -/
theorem SetInteractorStyle_facts (self : vtkRenderViewBase) (style i : Nat)
    (hne : some style ≠ self.InteractorStyle) (hi : self.GetInteractor = some i) :
    ∃ r, self.SetInteractorStyle (some style) = some r ∧
      r.InteractorStyle = some style ∧
      r.RenderOnMouseMove = self.RenderOnMouseMove ∧
      r.nextId = self.nextId ∧
      r.Interactor = self.Interactor ∧
      r.windows = self.windows ∧
      r.RenderWindow = self.RenderWindow ∧
      r.Renderer = self.Renderer ∧
      r.renderers = self.renderers ∧
      r.errors = self.errors ∧
      r.Observer = self.Observer ∧
      r.interactors = Function.update self.interactors i
        ((self.interactors i).SetInteractorStyle (some style)) ∧
      (r.styles style).Class = (self.styles style).Class ∧
      (r.styles style).Observers =
        (self.styles style).Observers ++ [(EventId.SelectionChangedEvent, self.Observer)] ∧
      (r.styles style).RenderOnMouseMove =
        (if (self.styles style).Class = StyleClass.Other
         then (self.styles style).RenderOnMouseMove else self.RenderOnMouseMove) ∧
      (∀ old, self.InteractorStyle = some old →
        r.styles old = (self.styles old).RemoveObserver self.Observer) ∧
      (∀ x, x ≠ style → self.InteractorStyle ≠ some x → r.styles x = self.styles x) ∧
      r.InteractionMode =
        (match (self.styles style).Class with
         | StyleClass.RubberBand2D => INTERACTION_MODE_2D
         | StyleClass.RubberBand3D => INTERACTION_MODE_3D
         | StyleClass.Other => INTERACTION_MODE_UNKNOWN) := by
  refine ⟨_, SetInteractorStyle_eq self style i hne hi, ?_⟩
  cases hold : self.InteractorStyle with
  | none =>
    cases hc : (self.styles style).Class <;>
      simp [hc, onStyle, onInteractor, Function.update_apply,
        vtkInteractorObserver.AddObserver, vtkInteractorObserver.SetRenderOnMouseMove,
        vtkInteractorObserver.RemoveObserver] <;>
      (intro x hx; simp [hx])
  | some old =>
    have hso : ¬ style = old := by
      intro h; apply hne; rw [hold, h]
    have hos : ¬ old = style := fun h => hso h.symm
    cases hc : (self.styles style).Class <;>
      simp [hc, hso, hos, onStyle, onInteractor, Function.update_apply,
        vtkInteractorObserver.AddObserver, vtkInteractorObserver.SetRenderOnMouseMove,
        vtkInteractorObserver.RemoveObserver] <;>
      (intro x hx hx2; rw [if_neg hx, if_neg (fun h => hx2 h.symm)])

end StyleLemmas

section ReachLemmas

open vtkRenderViewBase

/-- What `SetInteractor` leaves alone. -/
theorem SetInteractor_frame (self : vtkRenderViewBase) (i : Option Nat) :
    (self.SetInteractor i).styles = self.styles ∧
    (self.SetInteractor i).InteractorStyle = self.InteractorStyle ∧
    (self.SetInteractor i).RenderOnMouseMove = self.RenderOnMouseMove ∧
    (self.SetInteractor i).nextId = self.nextId ∧
    (self.SetInteractor i).InteractionMode = self.InteractionMode ∧
    (self.SetInteractor i).Renderer = self.Renderer ∧
    (self.SetInteractor i).renderers = self.renderers ∧
    (self.SetInteractor i).RenderWindow = self.RenderWindow := by
  cases i with
  | none => exact ⟨rfl, rfl, rfl, rfl, rfl, rfl, rfl, rfl⟩
  | some i =>
    simp only [SetInteractor]
    split_ifs
    · exact ⟨rfl, rfl, rfl, rfl, rfl, rfl, rfl, rfl⟩
    · cases self.Interactor <;> simp

/-- The interactor pointers after `SetInteractor` with a non-null argument. -/
theorem SetInteractor_pointers (self : vtkRenderViewBase) (x : Nat) :
    (self.SetInteractor (some x)).Interactor = some x ∧
    (∀ w, ((self.SetInteractor (some x)).windows w).Interactor = (self.windows w).Interactor ∨
      ((self.SetInteractor (some x)).windows w).Interactor = some x) ∧
    (self.Interactor ≠ some x →
      ((self.SetInteractor (some x)).windows self.RenderWindow).Interactor = some x) := by
  by_cases h : self.Interactor = some x
  · have hs : self.SetInteractor (some x) = self := by simp [SetInteractor, h]
    rw [hs]
    exact ⟨h, fun w => Or.inl rfl, fun hne => absurd h hne⟩
  · simp only [SetInteractor, if_neg h]
    cases self.Interactor <;>
      (simp only [onInteractor_windows, onInteractor_Interactor, onWindow_Interactor,
        onWindow_windows, onInteractor_RenderWindow, onWindow_RenderWindow, if_true]
       refine ⟨trivial, ?_, fun _ => rfl⟩
       intro w
       by_cases hw : w = self.RenderWindow
       · right; rw [if_pos hw]; rfl
       · left; rw [if_neg hw])

/-- What one pass of the loop that moves the renderers leaves alone. -/
theorem moveRenderer_frame (self : vtkRenderViewBase) (win ren : Nat) :
    (self.moveRenderer win ren).styles = self.styles ∧
    (self.moveRenderer win ren).InteractorStyle = self.InteractorStyle ∧
    (self.moveRenderer win ren).RenderOnMouseMove = self.RenderOnMouseMove ∧
    (self.moveRenderer win ren).nextId = self.nextId ∧
    (self.moveRenderer win ren).Interactor = self.Interactor ∧
    (self.moveRenderer win ren).RenderWindow = self.RenderWindow ∧
    (∀ w, ((self.moveRenderer win ren).windows w).Interactor = (self.windows w).Interactor) := by
  unfold moveRenderer AddRenderer RemoveRenderer
  simp only
  split_ifs <;>
    (refine ⟨by simp, by simp, by simp, by simp, by simp, by simp, ?_⟩
     intro w
     simp only [onWindow_windows, onRenderer_windows, onWindow_RenderWindow,
       onRenderer_RenderWindow]
     split_ifs <;> simp_all)

theorem moveRenderers_frame (win : Nat) :
    ∀ (fuel : Nat) (self r : vtkRenderViewBase), self.moveRenderers win fuel = some r →
      r.styles = self.styles ∧
      r.InteractorStyle = self.InteractorStyle ∧
      r.RenderOnMouseMove = self.RenderOnMouseMove ∧
      r.nextId = self.nextId ∧
      r.Interactor = self.Interactor ∧
      r.RenderWindow = self.RenderWindow ∧
      (∀ w, (r.windows w).Interactor = (self.windows w).Interactor) := by
  intro fuel
  induction fuel with
  | zero =>
    intro self r h
    cases hl : (self.windows self.RenderWindow).Renderers with
    | nil =>
      simp [moveRenderers, hl] at h
      subst h
      exact ⟨rfl, rfl, rfl, rfl, rfl, rfl, fun _ => rfl⟩
    | cons ren rest => simp [moveRenderers, hl] at h
  | succ fuel ih =>
    intro self r h
    cases hl : (self.windows self.RenderWindow).Renderers with
    | nil =>
      simp [moveRenderers, hl] at h
      subst h
      exact ⟨rfl, rfl, rfl, rfl, rfl, rfl, fun _ => rfl⟩
    | cons ren rest =>
      simp only [moveRenderers, hl] at h
      obtain ⟨h1, h2, h3, h4, h5, h6, h7⟩ := ih _ _ h
      obtain ⟨g1, g2, g3, g4, g5, g6, g7⟩ := moveRenderer_frame self win ren
      exact ⟨h1.trans g1, h2.trans g2, h3.trans g3, h4.trans g4, h5.trans g5, h6.trans g6,
        fun w => (h7 w).trans (g7 w)⟩

end ReachLemmas

section ModeLemmas

open vtkRenderViewBase

/-- What `SetInteractionMode` does for one of the two known modes that is not the
current mode, when the window has the interactor `i` and the identity of the
style it makes is not that of the current style. -/
theorem SetInteractionMode_facts (self : vtkRenderViewBase) (mode : Int) (cls : StyleClass)
    (proj : Bool) (i : Nat)
    (hk : (mode = INTERACTION_MODE_2D ∧ cls = StyleClass.RubberBand2D ∧ proj = true) ∨
      (mode = INTERACTION_MODE_3D ∧ cls = StyleClass.RubberBand3D ∧ proj = false))
    (hm : self.InteractionMode ≠ mode) (hi : self.GetInteractor = some i)
    (hfresh : self.InteractorStyle ≠ some self.nextId) :
    ∃ r, self.SetInteractionMode mode = some r ∧
      r.InteractorStyle = some self.nextId ∧
      r.styles self.nextId =
        { Class := cls, RenderOnMouseMove := self.RenderOnMouseMove,
          Observers := [(EventId.SelectionChangedEvent, self.Observer)] } ∧
      (r.interactors i).InteractorStyle = some self.nextId ∧
      r.InteractionMode = mode ∧
      r.Renderer = self.Renderer ∧
      (r.renderers r.Renderer).ActiveCamera_ParallelProjection = proj ∧
      r.RenderOnMouseMove = self.RenderOnMouseMove ∧
      r.nextId = self.nextId + 1 ∧
      r.Interactor = self.Interactor ∧
      r.windows = self.windows ∧
      r.RenderWindow = self.RenderWindow ∧
      r.errors = self.errors := by
  have hfresh2 : some self.nextId ≠ self.InteractorStyle := fun h => hfresh h.symm
  rcases hk with ⟨rfl, rfl, rfl⟩ | ⟨rfl, rfl, rfl⟩
  · obtain ⟨r, hr, f1, f2, f3, f4, f5, f6, f7, f8, f9, f10, f11, f12, f13, f14, f15, f16, f17⟩ :=
      SetInteractorStyle_facts
        (({ self with InteractionMode := INTERACTION_MODE_2D,
                      nextId := self.nextId + 1 } : vtkRenderViewBase).onStyle self.nextId
          (fun _ => vtkInteractorObserver.New StyleClass.RubberBand2D)) self.nextId i hfresh2 hi
    refine ⟨r.onRenderer r.Renderer (fun x => x.ParallelProjectionOn), ?_, ?_⟩
    · simp only [SetInteractionMode, if_pos hm, if_true]
      rw [hr]
    · simp only [onRenderer_InteractorStyle, onRenderer_styles, onRenderer_interactors,
        onRenderer_InteractionMode, onRenderer_Renderer, onRenderer_RenderOnMouseMove,
        onRenderer_nextId, onRenderer_Interactor, onRenderer_windows, onRenderer_RenderWindow,
        onRenderer_errors, onRenderer_renderers, if_true]
      simp only [onStyle_styles_same] at f12 f13 f14 f17
      refine ⟨f1, ?_, ?_, ?_, f7, rfl, f2, f3, f4, f5, f6, f9⟩
      · have hc := f12
        have ho := f13
        have hf := f14
        revert hc ho hf
        cases r.styles self.nextId
        simp [vtkInteractorObserver.New]
        intro h1 h2 h3
        exact ⟨h1, h3, h2⟩
      · rw [f11]; simp [vtkRenderWindowInteractor.SetInteractorStyle]
      · rw [f17]; rfl
  · have hne : INTERACTION_MODE_3D ≠ INTERACTION_MODE_2D := by decide
    obtain ⟨r, hr, f1, f2, f3, f4, f5, f6, f7, f8, f9, f10, f11, f12, f13, f14, f15, f16, f17⟩ :=
      SetInteractorStyle_facts
        (({ self with InteractionMode := INTERACTION_MODE_3D,
                      nextId := self.nextId + 1 } : vtkRenderViewBase).onStyle self.nextId
          (fun _ => vtkInteractorObserver.New StyleClass.RubberBand3D)) self.nextId i hfresh2 hi
    refine ⟨r.onRenderer r.Renderer (fun x => x.ParallelProjectionOff), ?_, ?_⟩
    · simp only [SetInteractionMode, if_pos hm, if_neg hne, if_true]
      rw [hr]
    · simp only [onRenderer_InteractorStyle, onRenderer_styles, onRenderer_interactors,
        onRenderer_InteractionMode, onRenderer_Renderer, onRenderer_RenderOnMouseMove,
        onRenderer_nextId, onRenderer_Interactor, onRenderer_windows, onRenderer_RenderWindow,
        onRenderer_errors, onRenderer_renderers, if_true]
      simp only [onStyle_styles_same] at f12 f13 f14 f17
      refine ⟨f1, ?_, ?_, ?_, f7, rfl, f2, f3, f4, f5, f6, f9⟩
      · have hc := f12
        have ho := f13
        have hf := f14
        revert hc ho hf
        cases r.styles self.nextId
        simp [vtkInteractorObserver.New]
        intro h1 h2 h3
        exact ⟨h1, h3, h2⟩
      · rw [f11]; simp [vtkRenderWindowInteractor.SetInteractorStyle]
      · rw [f17]; rfl

end ModeLemmas

section ModeClaims

open vtkRenderViewBase

/-- C26: `SetInteractionMode(mode)` with a mode that differs from the current
one, on a view whose window has an interactor `i` and whose current style is not
the object about to be made: for `INTERACTION_MODE_2D` it
makes a new rubber-band-2D style, installs it as the view's style and on the
interactor, ends with `InteractionMode` = 2D and turns the parallel projection of
the renderer's active camera on; for `INTERACTION_MODE_3D` it does the same with
a new rubber-band-3D style, mode 3D and parallel projection off. With the
current mode as argument the call changes nothing. A freshly constructed view is
in 2D mode with a rubber-band-2D style and parallel projection on. -/
theorem SetInteractionMode_known_modes (self : vtkRenderViewBase) (mode : Int) :
    (∀ i, mode = INTERACTION_MODE_2D → self.InteractionMode ≠ mode →
      self.GetInteractor = some i → self.GetInteractorStyle ≠ some self.nextId →
      ∃ r, self.SetInteractionMode mode = some r ∧
        r.GetInteractorStyle = some self.nextId ∧
        (r.styles self.nextId).Class = StyleClass.RubberBand2D ∧
        (r.interactors i).InteractorStyle = some self.nextId ∧
        r.InteractionMode = INTERACTION_MODE_2D ∧
        (r.renderers r.GetRenderer).ActiveCamera_ParallelProjection = true) ∧
    (∀ i, mode = INTERACTION_MODE_3D → self.InteractionMode ≠ mode →
      self.GetInteractor = some i → self.GetInteractorStyle ≠ some self.nextId →
      ∃ r, self.SetInteractionMode mode = some r ∧
        r.GetInteractorStyle = some self.nextId ∧
        (r.styles self.nextId).Class = StyleClass.RubberBand3D ∧
        (r.interactors i).InteractorStyle = some self.nextId ∧
        r.InteractionMode = INTERACTION_MODE_3D ∧
        (r.renderers r.GetRenderer).ActiveCamera_ParallelProjection = false) ∧
    (self.InteractionMode = mode → self.SetInteractionMode mode = some self) ∧
    (∃ v s, New = some v ∧
      v.InteractionMode = INTERACTION_MODE_2D ∧
      v.GetInteractorStyle = some s ∧
      (v.styles s).Class = StyleClass.RubberBand2D ∧
      (v.renderers v.GetRenderer).ActiveCamera_ParallelProjection = true) := by
  refine ⟨?_, ?_, ?_, ?_⟩
  · intro i h2 hm hi hfresh
    obtain ⟨r, hr, f1, f2, f3, f4, f5, f6, f7, f8, f9, f10, f11, f12⟩ :=
      SetInteractionMode_facts self mode StyleClass.RubberBand2D true i
        (Or.inl ⟨h2, rfl, rfl⟩) hm hi hfresh
    refine ⟨r, hr, f1, ?_, f3, ?_, f6⟩
    · rw [f2]
    · rw [f4, h2]
  · intro i h3 hm hi hfresh
    obtain ⟨r, hr, f1, f2, f3, f4, f5, f6, f7, f8, f9, f10, f11, f12⟩ :=
      SetInteractionMode_facts self mode StyleClass.RubberBand3D false i
        (Or.inr ⟨h3, rfl, rfl⟩) hm hi hfresh
    refine ⟨r, hr, f1, ?_, f3, ?_, f6⟩
    · rw [f2]
    · rw [f4, h3]
  · intro h
    simp [SetInteractionMode, h]
  · exact ⟨_, 4, rfl, rfl, rfl, rfl, rfl⟩

/-- The view with window `0` and interactor `1` is in 2D mode; the call with the
3D mode changes it. -/
theorem SetInteractionMode_known_modes_witness :
    INTERACTION_MODE_3D = INTERACTION_MODE_3D ∧
    viewWithInteractor.InteractionMode ≠ INTERACTION_MODE_3D ∧
    viewWithInteractor.GetInteractor = some 1 ∧
    viewWithInteractor.GetInteractorStyle ≠ some viewWithInteractor.nextId ∧
    (∃ r, viewWithInteractor.SetInteractionMode INTERACTION_MODE_3D = some r ∧
      r.GetInteractorStyle = some viewWithInteractor.nextId ∧
      (r.styles viewWithInteractor.nextId).Class = StyleClass.RubberBand3D ∧
      (r.interactors 1).InteractorStyle = some viewWithInteractor.nextId ∧
      r.InteractionMode = INTERACTION_MODE_3D ∧
      (r.renderers r.GetRenderer).ActiveCamera_ParallelProjection = false) :=
  ⟨rfl, by decide, rfl, by decide,
   (SetInteractionMode_known_modes viewWithInteractor INTERACTION_MODE_3D).2.1 1 rfl
     (by decide) rfl (by decide)⟩

/-- C27: `SetInteractionMode(mode)` with a mode that is neither
`INTERACTION_MODE_2D` nor `INTERACTION_MODE_3D` and differs from the current mode
reports `Unknown interaction mode.` and leaves `InteractionMode` overwritten with
that mode; the interactor style, the style objects and the camera projection stay
as they were, and a second call with the same mode changes nothing and reports no
further error. -/
theorem SetInteractionMode_unknown_mode (self : vtkRenderViewBase) (mode : Int)
    (h2 : mode ≠ INTERACTION_MODE_2D) (h3 : mode ≠ INTERACTION_MODE_3D)
    (hm : self.InteractionMode ≠ mode) :
    ∃ r, self.SetInteractionMode mode = some r ∧
      r = { self with InteractionMode := mode,
                      errors := self.errors ++ ["Unknown interaction mode."] } ∧
      r.InteractionMode = mode ∧
      r.errors = self.errors ++ ["Unknown interaction mode."] ∧
      r.GetInteractorStyle = self.GetInteractorStyle ∧
      r.styles = self.styles ∧
      r.renderers = self.renderers ∧
      r.SetInteractionMode mode = some r := by
  refine ⟨{ self with InteractionMode := mode,
                      errors := self.errors ++ ["Unknown interaction mode."] },
    ?_, rfl, rfl, rfl, rfl, rfl, rfl, ?_⟩
  · simp only [SetInteractionMode, if_pos hm, if_neg h2, if_neg h3, reportError]
  · simp [SetInteractionMode]

theorem SetInteractionMode_unknown_mode_witness :
    (5 : Int) ≠ INTERACTION_MODE_2D ∧ (5 : Int) ≠ INTERACTION_MODE_3D ∧
    viewWithInteractor.InteractionMode ≠ 5 ∧
    (∃ r, viewWithInteractor.SetInteractionMode 5 = some r ∧
      r = { viewWithInteractor with
            InteractionMode := 5,
            errors := viewWithInteractor.errors ++ ["Unknown interaction mode."] } ∧
      r.InteractionMode = 5 ∧
      r.errors = viewWithInteractor.errors ++ ["Unknown interaction mode."] ∧
      r.GetInteractorStyle = viewWithInteractor.GetInteractorStyle ∧
      r.styles = viewWithInteractor.styles ∧
      r.renderers = viewWithInteractor.renderers ∧
      r.SetInteractionMode 5 = some r) :=
  ⟨by decide, by decide, by decide,
   SetInteractionMode_unknown_mode viewWithInteractor 5 (by decide) (by decide) (by decide)⟩

/-- C28: `SetInteractorStyle(style)` with a non-null style that is not the
current one, on a view whose window has an interactor `i`: the view's observer is
removed from the old style, the style is set on the window's interactor and
becomes the view's style, the view's observer is registered on it for
`SelectionChangedEvent`, and `InteractionMode` follows the class of the style:
2D for a rubber-band-2D style, 3D for a rubber-band-3D style, unknown for any
other. With the current style as argument the call changes nothing. -/
theorem SetInteractorStyle_installs_style (self : vtkRenderViewBase) (style : Nat) :
    (∀ i, some style ≠ self.GetInteractorStyle → self.GetInteractor = some i →
      ∃ r, self.SetInteractorStyle (some style) = some r ∧
        (∀ old, self.GetInteractorStyle = some old →
          r.styles old = (self.styles old).RemoveObserver self.GetObserver ∧
          ∀ e, (e, self.GetObserver) ∉ (r.styles old).Observers) ∧
        (r.interactors i).InteractorStyle = some style ∧
        r.GetInteractorStyle = some style ∧
        (r.styles style).Observers =
          (self.styles style).Observers ++
            [(EventId.SelectionChangedEvent, self.GetObserver)] ∧
        ((self.styles style).Class = StyleClass.RubberBand2D →
          r.InteractionMode = INTERACTION_MODE_2D) ∧
        ((self.styles style).Class = StyleClass.RubberBand3D →
          r.InteractionMode = INTERACTION_MODE_3D) ∧
        ((self.styles style).Class = StyleClass.Other →
          r.InteractionMode = INTERACTION_MODE_UNKNOWN)) ∧
    (self.GetInteractorStyle = some style →
      self.SetInteractorStyle (some style) = some self) := by
  constructor
  · intro i hne hi
    obtain ⟨r, hr, f1, f2, f3, f4, f5, f6, f7, f8, f9, f10, f11, f12, f13, f14, f15, f16, f17⟩ :=
      SetInteractorStyle_facts self style i hne hi
    refine ⟨r, hr, ?_, ?_, f1, f13, ?_, ?_, ?_⟩
    · intro old hold
      have h := f15 old hold
      refine ⟨h, ?_⟩
      intro e hmem
      rw [h] at hmem
      simp [vtkInteractorObserver.RemoveObserver, GetObserver] at hmem
    · rw [f11]
      simp [vtkRenderWindowInteractor.SetInteractorStyle]
    · intro hc; rw [f17, hc]
    · intro hc; rw [f17, hc]
    · intro hc; rw [f17, hc]
  · intro h
    simp only [GetInteractorStyle] at h
    simp [SetInteractorStyle, GetInteractorStyle, h]

/-- The view with window `0`, interactor `1` and current style `7`, given the
style `8`. -/
theorem SetInteractorStyle_installs_style_witness :
    some 8 ≠ viewWithInteractor.GetInteractorStyle ∧
    viewWithInteractor.GetInteractor = some 1 ∧
    (∃ r, viewWithInteractor.SetInteractorStyle (some 8) = some r ∧
      (r.interactors 1).InteractorStyle = some 8 ∧
      r.GetInteractorStyle = some 8 ∧
      r.InteractionMode = INTERACTION_MODE_2D) ∧
    viewWithInteractor.GetInteractorStyle = some 7 ∧
    viewWithInteractor.SetInteractorStyle (some 7) = some viewWithInteractor :=
  ⟨by decide, rfl,
   ((SetInteractorStyle_installs_style viewWithInteractor 8).1 1 (by decide) rfl).elim
     (fun r h => ⟨r, h.1, h.2.2.1, h.2.2.2.1, h.2.2.2.2.2.1 rfl⟩),
   rfl, (SetInteractorStyle_installs_style viewWithInteractor 7).2 rfl⟩

end ModeClaims

section InvariantLemmas

open vtkRenderViewBase

/-- What `SetRenderOnMouseMove` leaves alone and what it does to the flags. -/
theorem SetRenderOnMouseMove_facts (self : vtkRenderViewBase) (b : Bool) :
    (self.SetRenderOnMouseMove b).RenderOnMouseMove = b ∧
    (self.SetRenderOnMouseMove b).InteractorStyle = self.InteractorStyle ∧
    (self.SetRenderOnMouseMove b).nextId = self.nextId ∧
    (self.SetRenderOnMouseMove b).Interactor = self.Interactor ∧
    (self.SetRenderOnMouseMove b).windows = self.windows ∧
    (self.SetRenderOnMouseMove b).RenderWindow = self.RenderWindow ∧
    (∀ s, ((self.SetRenderOnMouseMove b).styles s).Class = (self.styles s).Class) ∧
    (∀ s, self.InteractorStyle = some s →
      (self.styles s).Class = StyleClass.RubberBand2D ∨
        (self.styles s).Class = StyleClass.RubberBand3D →
      b ≠ self.RenderOnMouseMove →
      ((self.SetRenderOnMouseMove b).styles s).RenderOnMouseMove = b) := by
  by_cases hb : b = self.RenderOnMouseMove
  · have hs : self.SetRenderOnMouseMove b = self := by simp [SetRenderOnMouseMove, hb]
    rw [hs]
    exact ⟨hb.symm, rfl, rfl, rfl, rfl, rfl, fun _ => rfl, fun _ _ _ h => absurd hb h⟩
  · cases hst : self.InteractorStyle with
    | none =>
      have hs : self.SetRenderOnMouseMove b = { self with RenderOnMouseMove := b } := by
        simp [SetRenderOnMouseMove, hb, GetInteractorStyle, hst]
      rw [hs]
      refine ⟨rfl, hst, rfl, rfl, rfl, rfl, fun _ => rfl, ?_⟩
      intro s hs2
      cases hs2
    | some st =>
      have hupd : ∀ s, ((self.onStyle st (fun o => o.SetRenderOnMouseMove b)).styles s).Class =
          (self.styles s).Class := by
        intro s
        rw [onStyle_styles]
        split_ifs with h
        · rw [h]; rfl
        · rfl
      cases hc : (self.styles st).Class with
      | Other =>
        have hs : self.SetRenderOnMouseMove b = { self with RenderOnMouseMove := b } := by
          simp [SetRenderOnMouseMove, hb, GetInteractorStyle, hst, hc]
        rw [hs]
        refine ⟨rfl, hst, rfl, rfl, rfl, rfl, fun _ => rfl, ?_⟩
        intro s hs2 hcls
        cases hs2
        rw [hc] at hcls
        rcases hcls with h | h <;> cases h
      | RubberBand2D =>
        have hs : self.SetRenderOnMouseMove b =
            { self.onStyle st (fun o => o.SetRenderOnMouseMove b) with
              RenderOnMouseMove := b } := by
          simp [SetRenderOnMouseMove, hb, GetInteractorStyle, hst, hc, onStyle_styles,
            vtkInteractorObserver.SetRenderOnMouseMove]
        rw [hs]
        refine ⟨rfl, hst, rfl, rfl, rfl, rfl, hupd, ?_⟩
        intro s hs2 _ _
        cases hs2
        show ((self.onStyle st (fun o => o.SetRenderOnMouseMove b)).styles st).RenderOnMouseMove = b
        rw [onStyle_styles_same]
        rfl
      | RubberBand3D =>
        have hs : self.SetRenderOnMouseMove b =
            { self.onStyle st (fun o => o.SetRenderOnMouseMove b) with
              RenderOnMouseMove := b } := by
          simp [SetRenderOnMouseMove, hb, GetInteractorStyle, hst, hc, onStyle_styles,
            vtkInteractorObserver.SetRenderOnMouseMove]
        rw [hs]
        refine ⟨rfl, hst, rfl, rfl, rfl, rfl, hupd, ?_⟩
        intro s hs2 _ _
        cases hs2
        show ((self.onStyle st (fun o => o.SetRenderOnMouseMove b)).styles st).RenderOnMouseMove = b
        rw [onStyle_styles_same]
        rfl

end InvariantLemmas

section RenderWindowLemmas

open vtkRenderViewBase

/-- `SetRenderWindow` with a non-null window returns when the loop gets one
iteration for each renderer of the current window; what it leaves alone, and the
interactor pointers it leaves. -/
theorem SetRenderWindow_facts (self : vtkRenderViewBase) (win : Nat)
    (hfresh : ∀ i, self.Interactor = some i → i < self.nextId)
    (hwin : ∀ w i, (self.windows w).Interactor = some i → i < self.nextId) :
    ∃ r, self.SetRenderWindow (some win) (self.windows self.RenderWindow).Renderers.length =
        some r ∧
      r.styles = self.styles ∧
      r.InteractorStyle = self.InteractorStyle ∧
      r.RenderOnMouseMove = self.RenderOnMouseMove ∧
      r.RenderWindow = win ∧
      self.nextId ≤ r.nextId ∧
      (∃ x, r.Interactor = some x ∧ (r.windows win).Interactor = some x ∧ x < r.nextId) ∧
      (∀ w, (r.windows w).Interactor = (self.windows w).Interactor ∨
        (r.windows w).Interactor = r.Interactor) := by
  have hlen : ((self.onWindow self.RenderWindow
      (fun w => w.RemoveObserver self.GetObserver)).windows
      (self.onWindow self.RenderWindow
        (fun w => w.RemoveObserver self.GetObserver)).RenderWindow).Renderers.length ≤
      (self.windows self.RenderWindow).Renderers.length := by
    simp only [onWindow_RenderWindow, onWindow_windows, if_true]
    exact le_refl _
  obtain ⟨r1, hr1, -⟩ := moveRenderers_spec win _ _ hlen
  obtain ⟨m1, m2, m3, m4, m5, m6, m7⟩ := moveRenderers_frame win _ _ r1 hr1
  have hr2 : (self.onWindow self.RenderWindow
      (fun w => w.RemoveObserver self.Observer)).moveRenderers win
      (self.windows self.RenderWindow).Renderers.length = some r1 := hr1
  simp only [onWindow_styles, onWindow_InteractorStyle, onWindow_RenderOnMouseMove,
    onWindow_nextId, onWindow_Interactor, onWindow_RenderWindow] at m1 m2 m3 m4 m5 m6
  have m8 : ∀ w, (r1.windows w).Interactor = (self.windows w).Interactor := by
    intro w
    rw [m7 w, onWindow_windows]
    split_ifs with h
    · rw [h]; rfl
    · rfl
  have hs3 : ∀ w, ((({ r1 with RenderWindow := win } : vtkRenderViewBase).onWindow win
      (fun w => w.AddObserver EventId.EndEvent r1.Observer)).windows w).Interactor =
      (self.windows w).Interactor := by
    intro w
    rw [onWindow_windows]
    split_ifs with h
    · rw [h]; exact m8 win
    · exact m8 w
  cases hint : (self.windows win).Interactor with
  | some x =>
    have hx : x < self.nextId := hwin win x hint
    have heq : self.SetRenderWindow (some win) (self.windows self.RenderWindow).Renderers.length =
        some ((({ r1 with RenderWindow := win } : vtkRenderViewBase).onWindow win
          (fun w => w.AddObserver EventId.EndEvent r1.Observer)).SetInteractor (some x)) := by
      have h3 := hs3 win
      rw [hint] at h3
      simp only [SetRenderWindow, GetObserver, hr2]
      simp only [onWindow_RenderWindow, h3]
    obtain ⟨g1, g2, g3, g4, g5, g6, g7, g8⟩ := SetInteractor_frame
      (({ r1 with RenderWindow := win } : vtkRenderViewBase).onWindow win
          (fun w => w.AddObserver EventId.EndEvent r1.Observer)) (some x)
    obtain ⟨p1, p2, p3⟩ := SetInteractor_pointers
      (({ r1 with RenderWindow := win } : vtkRenderViewBase).onWindow win
          (fun w => w.AddObserver EventId.EndEvent r1.Observer)) x
    refine ⟨_, heq, ?_, ?_, ?_, ?_, ?_, ⟨x, p1, ?_, ?_⟩, ?_⟩
    · rw [g1]; exact m1
    · rw [g2]; exact m2
    · rw [g3]; exact m3
    · rw [g8]; rfl
    · rw [g4]; exact le_of_eq m4.symm
    · rcases p2 win with h | h
      · rw [h, hs3 win, hint]
      · exact h
    · rw [g4]
      show x < r1.nextId
      rw [m4]; exact hx
    · intro w
      rcases p2 w with h | h
      · left; rw [h, hs3 w]
      · right; rw [h, p1]
  | none =>
    have heq : self.SetRenderWindow (some win) (self.windows self.RenderWindow).Renderers.length =
        some (((({ r1 with RenderWindow := win, nextId := r1.nextId + 1 } :
          vtkRenderViewBase).onWindow win
          (fun w => w.AddObserver EventId.EndEvent r1.Observer)).onInteractor r1.nextId
          (fun _ => vtkRenderWindowInteractor.New)).SetInteractor (some r1.nextId)) := by
      have h3 := hs3 win
      rw [hint] at h3
      simp only [SetRenderWindow, GetObserver, hr2]
      simp only [onWindow_RenderWindow, h3]
      rfl
    obtain ⟨g1, g2, g3, g4, g5, g6, g7, g8⟩ := SetInteractor_frame
      ((({ r1 with RenderWindow := win, nextId := r1.nextId + 1 } :
          vtkRenderViewBase).onWindow win
          (fun w => w.AddObserver EventId.EndEvent r1.Observer)).onInteractor r1.nextId
          (fun _ => vtkRenderWindowInteractor.New)) (some r1.nextId)
    obtain ⟨p1, p2, p3⟩ := SetInteractor_pointers
      ((({ r1 with RenderWindow := win, nextId := r1.nextId + 1 } :
          vtkRenderViewBase).onWindow win
          (fun w => w.AddObserver EventId.EndEvent r1.Observer)).onInteractor r1.nextId
          (fun _ => vtkRenderWindowInteractor.New)) r1.nextId
    have hne : r1.Interactor ≠ some r1.nextId := by
      intro h
      rw [m5] at h
      have := hfresh _ h
      rw [m4] at this
      exact lt_irrefl _ this
    refine ⟨_, heq, ?_, ?_, ?_, ?_, ?_, ⟨r1.nextId, p1, p3 hne, ?_⟩, ?_⟩
    · rw [g1]; exact m1
    · rw [g2]; exact m2
    · rw [g3]; exact m3
    · rw [g8]; rfl
    · rw [g4]
      show self.nextId ≤ r1.nextId + 1
      rw [m4]; exact Nat.le_succ _
    · rw [g4]
      exact Nat.lt_succ_self _
    · intro w
      rcases p2 w with h | h
      · left
        rw [h]
        have h3 := hs3 w
        simp only [onWindow_windows, onInteractor_windows] at h3 ⊢
        exact h3
      · right; rw [h, p1]

end RenderWindowLemmas

section PreservationLemmas

open vtkRenderViewBase

theorem SetInteractorStyle_preserves (v : vtkRenderViewBase) (style : Option Nat)
    (hs : styleFollowsView v) (ho : objectsExist v)
    (hc : ∀ st, style = some st → st < v.nextId) :
    ∃ r, v.SetInteractorStyle style = some r ∧ styleFollowsView r ∧ objectsExist r := by
  cases style with
  | none => exact ⟨_, rfl, hs, ho⟩
  | some st =>
    by_cases h : some st = v.InteractorStyle
    · refine ⟨v, ?_, hs, ho⟩
      simp [SetInteractorStyle, GetInteractorStyle, h]
    · obtain ⟨o1, o2, o3, o4, o5⟩ := ho
      obtain ⟨i, hi⟩ := Option.ne_none_iff_exists'.mp o4
      obtain ⟨r, hr, f1, f2, f3, f4, f5, f6, f7, f8, f9, f10, f11, f12, f13, f14, f15, f16,
        f17⟩ := SetInteractorStyle_facts v st i h hi
      refine ⟨r, hr, ?_, ?_, ?_, ?_, ?_, ?_⟩
      · intro s hs2 hcls
        have hs3 : r.InteractorStyle = some s := hs2
        rw [f1] at hs3
        cases hs3
        show (r.styles st).RenderOnMouseMove = r.RenderOnMouseMove
        rw [f12] at hcls
        rw [f14, f2, if_neg]
        intro hoth
        rw [hoth] at hcls
        rcases hcls with h1 | h1 <;> cases h1
      · intro s hs2
        rw [f1] at hs2
        cases hs2
        rw [f3]
        exact hc st rfl
      · intro x hx
        rw [f4] at hx
        rw [f3]
        exact o2 x hx
      · intro w x hx
        rw [f5] at hx
        rw [f3]
        exact o3 w x hx
      · show (r.windows r.RenderWindow).Interactor ≠ none
        rw [f5, f6]
        exact o4
      · rw [f6, f3]
        exact o5

theorem SetInteractionMode_preserves (v : vtkRenderViewBase) (mode : Int)
    (hs : styleFollowsView v) (ho : objectsExist v) :
    ∃ r, v.SetInteractionMode mode = some r ∧ styleFollowsView r ∧ objectsExist r := by
  by_cases hm : v.InteractionMode = mode
  · refine ⟨v, ?_, hs, ho⟩
    simp [SetInteractionMode, hm]
  · have known : ∀ (cls : StyleClass) (proj : Bool),
        ((mode = INTERACTION_MODE_2D ∧ cls = StyleClass.RubberBand2D ∧ proj = true) ∨
          (mode = INTERACTION_MODE_3D ∧ cls = StyleClass.RubberBand3D ∧ proj = false)) →
        ∃ r, v.SetInteractionMode mode = some r ∧ styleFollowsView r ∧ objectsExist r := by
      intro cls proj hk
      obtain ⟨o1, o2, o3, o4, o5⟩ := ho
      obtain ⟨i, hi⟩ := Option.ne_none_iff_exists'.mp o4
      have hfresh : v.InteractorStyle ≠ some v.nextId := fun h => lt_irrefl _ (o1 _ h)
      obtain ⟨r, hr, f1, f2, f3, f4, f5, f6, f7, f8, f9, f10, f11, f12⟩ :=
        SetInteractionMode_facts v mode cls proj i hk hm hi hfresh
      refine ⟨r, hr, ?_, ?_, ?_, ?_, ?_, ?_⟩
      · intro s hs2 _
        have hs3 : r.InteractorStyle = some s := hs2
        rw [f1] at hs3
        cases hs3
        show (r.styles v.nextId).RenderOnMouseMove = r.RenderOnMouseMove
        rw [f2, f7]
      · intro s hs2
        rw [f1] at hs2
        cases hs2
        rw [f8]
        exact Nat.lt_succ_self _
      · intro x hx
        rw [f9] at hx
        rw [f8]
        exact Nat.lt_succ_of_lt (o2 x hx)
      · intro w x hx
        rw [f10] at hx
        rw [f8]
        exact Nat.lt_succ_of_lt (o3 w x hx)
      · show (r.windows r.RenderWindow).Interactor ≠ none
        rw [f10, f11]
        exact o4
      · rw [f11, f8]
        exact Nat.lt_succ_of_lt o5
    by_cases h2 : mode = INTERACTION_MODE_2D
    · exact known StyleClass.RubberBand2D true (Or.inl ⟨h2, rfl, rfl⟩)
    · by_cases h3 : mode = INTERACTION_MODE_3D
      · exact known StyleClass.RubberBand3D false (Or.inr ⟨h3, rfl, rfl⟩)
      · refine ⟨{ v with InteractionMode := mode,
                         errors := v.errors ++ ["Unknown interaction mode."] }, ?_, hs, ho⟩
        simp only [SetInteractionMode, if_pos hm, if_neg h2, if_neg h3, reportError]

theorem SetRenderOnMouseMove_preserves (v : vtkRenderViewBase) (b : Bool)
    (hs : styleFollowsView v) (ho : objectsExist v) :
    styleFollowsView (v.SetRenderOnMouseMove b) ∧ objectsExist (v.SetRenderOnMouseMove b) := by
  obtain ⟨f1, f2, f3, f4, f5, f6, f7, f8⟩ := SetRenderOnMouseMove_facts v b
  obtain ⟨o1, o2, o3, o4, o5⟩ := ho
  refine ⟨?_, ?_, ?_, ?_, ?_, ?_⟩
  · intro s hs2 hcls
    have hs3 : (v.SetRenderOnMouseMove b).InteractorStyle = some s := hs2
    rw [f2] at hs3
    rw [f7 s] at hcls
    show ((v.SetRenderOnMouseMove b).styles s).RenderOnMouseMove =
      (v.SetRenderOnMouseMove b).RenderOnMouseMove
    rw [f1]
    by_cases hb : b = v.RenderOnMouseMove
    · have he : v.SetRenderOnMouseMove b = v := by simp [SetRenderOnMouseMove, hb]
      rw [he, hb]
      exact hs s hs3 hcls
    · exact f8 s hs3 hcls hb
  · intro s hs2
    rw [f2] at hs2
    rw [f3]
    exact o1 s hs2
  · intro x hx
    rw [f4] at hx
    rw [f3]
    exact o2 x hx
  · intro w x hx
    rw [f5] at hx
    rw [f3]
    exact o3 w x hx
  · show ((v.SetRenderOnMouseMove b).windows (v.SetRenderOnMouseMove b).RenderWindow).Interactor
      ≠ none
    rw [f5, f6]
    exact o4
  · rw [f6, f3]
    exact o5

theorem SetInteractor_preserves (v : vtkRenderViewBase) (i : Option Nat)
    (hs : styleFollowsView v)
    (o1 : ∀ s, v.InteractorStyle = some s → s < v.nextId)
    (o2 : ∀ x, v.Interactor = some x → x < v.nextId)
    (o3 : ∀ w x, (v.windows w).Interactor = some x → x < v.nextId)
    (o4 : v.GetInteractor ≠ none ∨ ∃ x, i = some x ∧ v.Interactor ≠ some x)
    (o5 : v.RenderWindow < v.nextId)
    (hc : ∀ x, i = some x → x < v.nextId) :
    styleFollowsView (v.SetInteractor i) ∧ objectsExist (v.SetInteractor i) := by
  obtain ⟨g1, g2, g3, g4, g5, g6, g7, g8⟩ := SetInteractor_frame v i
  have hsty : styleFollowsView (v.SetInteractor i) := by
    intro s hs2 hcls
    have hs3 : (v.SetInteractor i).InteractorStyle = some s := hs2
    rw [g2] at hs3
    rw [g1] at hcls
    show ((v.SetInteractor i).styles s).RenderOnMouseMove = (v.SetInteractor i).RenderOnMouseMove
    rw [g1, g3]
    exact hs s hs3 hcls
  refine ⟨hsty, ?_⟩
  cases i with
  | none =>
    rcases o4 with o4 | ⟨x, hx, _⟩
    · exact ⟨o1, o2, o3, o4, o5⟩
    · cases hx
  | some x =>
    obtain ⟨p1, p2, p3⟩ := SetInteractor_pointers v x
    refine ⟨?_, ?_, ?_, ?_, ?_⟩
    · intro s hs2
      rw [g2] at hs2
      rw [g4]
      exact o1 s hs2
    · intro y hy
      rw [p1] at hy
      cases hy
      rw [g4]
      exact hc x rfl
    · intro w y hy
      rw [g4]
      rcases p2 w with h | h
      · rw [h] at hy
        exact o3 w y hy
      · rw [h] at hy
        cases hy
        exact hc x rfl
    · show ((v.SetInteractor (some x)).windows (v.SetInteractor (some x)).RenderWindow).Interactor
        ≠ none
      rw [g8]
      by_cases hcur : v.Interactor = some x
      · rcases o4 with o4 | ⟨y, hy, hne⟩
        · rcases p2 v.RenderWindow with h | h
          · rw [h]; exact o4
          · rw [h]; simp
        · cases hy
          exact absurd hcur hne
      · rw [p3 hcur]
        simp
    · rw [g8, g4]
      exact o5

theorem SetRenderWindow_preserves (v : vtkRenderViewBase) (win : Option Nat)
    (hs : styleFollowsView v) (ho : objectsExist v)
    (hc : ∀ w, win = some w → w < v.nextId) :
    ∃ r, v.SetRenderWindow win (v.windows v.RenderWindow).Renderers.length = some r ∧
      styleFollowsView r ∧ objectsExist r := by
  cases win with
  | none => exact ⟨_, rfl, hs, ho⟩
  | some w =>
    obtain ⟨o1, o2, o3, o4, o5⟩ := ho
    obtain ⟨r, hr, f1, f2, f3, f4, f5, ⟨x, f6, f7, f8⟩, f9⟩ := SetRenderWindow_facts v w o2 o3
    refine ⟨r, hr, ?_, ?_, ?_, ?_, ?_, ?_⟩
    · intro s hs2 hcls
      have hs3 : r.InteractorStyle = some s := hs2
      rw [f2] at hs3
      rw [f1] at hcls
      show (r.styles s).RenderOnMouseMove = r.RenderOnMouseMove
      rw [f1, f3]
      exact hs s hs3 hcls
    · intro s hs2
      rw [f2] at hs2
      exact lt_of_lt_of_le (o1 s hs2) f5
    · intro y hy
      rw [f6] at hy
      cases hy
      exact f8
    · intro w2 y hy
      rcases f9 w2 with h | h
      · rw [h] at hy
        exact lt_of_lt_of_le (o3 w2 y hy) f5
      · rw [h, f6] at hy
        cases hy
        exact f8
    · show (r.windows r.RenderWindow).Interactor ≠ none
      rw [f4, f7]
      simp
    · rw [f4]
      exact lt_of_lt_of_le (hc w rfl) f5

/-- Every call whose objects exist returns and keeps both invariants. -/
theorem apply_preserves (v : vtkRenderViewBase) (c : ViewBaseCall)
    (hs : styleFollowsView v) (ho : objectsExist v) (hc : c.valid v) :
    ∃ r, c.apply v = some r ∧ styleFollowsView r ∧ objectsExist r := by
  cases c with
  | SetInteractorStyle style =>
    apply SetInteractorStyle_preserves v style hs ho
    intro st hst
    subst hst
    exact hc
  | SetInteractionMode mode => exact SetInteractionMode_preserves v mode hs ho
  | SetRenderOnMouseMove b =>
    exact ⟨_, rfl, SetRenderOnMouseMove_preserves v b hs ho⟩
  | SetInteractor i =>
    obtain ⟨o1, o2, o3, o4, o5⟩ := ho
    refine ⟨_, rfl, SetInteractor_preserves v i hs o1 o2 o3 (Or.inl o4) o5 ?_⟩
    intro x hx
    subst hx
    exact hc
  | SetRenderWindow win =>
    apply SetRenderWindow_preserves v win hs ho
    intro w hw
    subst hw
    exact hc
  | NewStyle o =>
    obtain ⟨o1, o2, o3, o4, o5⟩ := ho
    refine ⟨_, rfl, ?_, ?_, ?_, ?_, ?_, ?_⟩
    · intro s hs2 hcls
      have hs3 : v.InteractorStyle = some s := hs2
      have hlt := o1 s hs3
      have hne : s ≠ v.nextId := Nat.ne_of_lt hlt
      have hst : (Function.update v.styles v.nextId o) s = v.styles s :=
        Function.update_noteq hne _ _
      show ((Function.update v.styles v.nextId o) s).RenderOnMouseMove = v.RenderOnMouseMove
      rw [hst]
      apply hs s hs3
      have hcls2 : ((Function.update v.styles v.nextId o) s).Class = StyleClass.RubberBand2D ∨
          ((Function.update v.styles v.nextId o) s).Class = StyleClass.RubberBand3D := hcls
      rw [hst] at hcls2
      exact hcls2
    · intro s hs2
      exact Nat.lt_succ_of_lt (o1 s hs2)
    · intro x hx
      exact Nat.lt_succ_of_lt (o2 x hx)
    · intro w x hx
      exact Nat.lt_succ_of_lt (o3 w x hx)
    · exact o4
    · exact Nat.lt_succ_of_lt o5
  | NewInteractor i =>
    obtain ⟨o1, o2, o3, o4, o5⟩ := ho
    exact ⟨_, rfl, hs, fun s h => Nat.lt_succ_of_lt (o1 s h),
      fun x h => Nat.lt_succ_of_lt (o2 x h), fun w x h => Nat.lt_succ_of_lt (o3 w x h), o4,
      Nat.lt_succ_of_lt o5⟩
  | NewWindow w =>
    obtain ⟨o1, o2, o3, o4, o5⟩ := ho
    have hne : v.RenderWindow ≠ v.nextId := Nat.ne_of_lt o5
    refine ⟨_, rfl, hs, fun s h => Nat.lt_succ_of_lt (o1 s h),
      fun x h => Nat.lt_succ_of_lt (o2 x h), ?_, ?_, Nat.lt_succ_of_lt o5⟩
    · intro w2 x hx
      have hx2 : ((Function.update v.windows v.nextId w) w2).Interactor = some x := hx
      by_cases hw : w2 = v.nextId
      · rw [hw, Function.update_same] at hx2
        have hv : match w.Interactor with
            | some i => i < v.nextId
            | none => True := hc
        rw [hx2] at hv
        exact Nat.lt_succ_of_lt hv
      · rw [Function.update_noteq hw] at hx2
        exact Nat.lt_succ_of_lt (o3 w2 x hx2)
    · show ((Function.update v.windows v.nextId w) v.RenderWindow).Interactor ≠ none
      rw [Function.update_noteq hne]
      exact o4

end PreservationLemmas

section ConstructionLemmas

open vtkRenderViewBase

theorem construct_aux (s : vtkRenderViewBase) (x : Nat)
    (hs : styleFollowsView s)
    (o1 : ∀ st, s.InteractorStyle = some st → st < s.nextId)
    (o2 : ∀ y, s.Interactor = some y → y < s.nextId)
    (o3 : ∀ w y, (s.windows w).Interactor = some y → y < s.nextId)
    (o4 : s.Interactor ≠ some x)
    (o5 : s.RenderWindow < s.nextId)
    (hx : x < s.nextId) :
    ∃ r, (s.SetInteractor (some x)).SetInteractionMode INTERACTION_MODE_2D = some r ∧
      styleFollowsView r ∧ objectsExist r := by
  obtain ⟨a, b⟩ := SetInteractor_preserves s (some x) hs o1 o2 o3 (Or.inr ⟨x, rfl, o4⟩) o5
    (fun y hy => by cases hy; exact hx)
  exact SetInteractionMode_preserves _ _ a b

/-- The constructor returns, and the constructed state has both invariants. -/
theorem New_invariant :
    ∃ v, New = some v ∧ styleFollowsView v ∧ objectsExist v := by
  unfold New
  apply construct_aux
  · intro s hs2
    have h : (none : Option Nat) = some s := hs2
    cases h
  · intro s hs2
    have h : (none : Option Nat) = some s := hs2
    cases h
  · intro s hs2
    have h : (none : Option Nat) = some s := hs2
    cases h
  · intro w y hy
    exfalso
    revert hy
    simp only [onInteractor_windows, AddRenderer]
    simp [onWindow_windows, vtkRenderWindow.New]
    split_ifs <;> simp
  · intro h
    have h2 : (none : Option Nat) = some 3 := h
    cases h2
  · show 2 < 4
    decide
  · show 3 < 4
    decide

theorem Reachable_invariant (v : vtkRenderViewBase) (h : Reachable v) :
    styleFollowsView v ∧ objectsExist v := by
  induction h with
  | construct v h =>
    obtain ⟨v2, h2, a, b⟩ := New_invariant
    rw [h] at h2
    cases h2
    exact ⟨a, b⟩
  | call v r c _ hc h ih =>
    obtain ⟨r2, h2, a, b⟩ := apply_preserves v c ih.1 ih.2 hc
    rw [h] at h2
    cases h2
    exact ⟨a, b⟩

end ConstructionLemmas

section ReachableClaims

open vtkRenderViewBase

/-- C29: in every state of a view reached from construction through
`SetInteractorStyle`, `SetInteractionMode`, `SetRenderOnMouseMove`,
`SetInteractor` and `SetRenderWindow` (with objects made by the client in
between), a current interactor style of class rubber-band-2D or rubber-band-3D
has the view's `RenderOnMouseMove` flag; the constructor returns, and so does
every such call in a reached state when the objects it names exist; and
`GetRenderOnMouseMove()` returns `b` after `SetRenderOnMouseMove(b)`. -/
theorem RenderOnMouseMove_follows_view (self : vtkRenderViewBase) (b : Bool) :
    (∀ v, Reachable v → styleFollowsView v) ∧
    (∃ v, New = some v) ∧
    (∀ v c, Reachable v → ViewBaseCall.valid v c →
      ∃ r, ViewBaseCall.apply v c = some r ∧ Reachable r) ∧
    (self.SetRenderOnMouseMove b).GetRenderOnMouseMove = b := by
  refine ⟨fun v h => (Reachable_invariant v h).1, ?_, ?_, (SetRenderOnMouseMove_facts self b).1⟩
  · obtain ⟨v, h, -⟩ := New_invariant
    exact ⟨v, h⟩
  · intro v c hv hc
    obtain ⟨a, b⟩ := Reachable_invariant v hv
    obtain ⟨r, hr, -⟩ := apply_preserves v c a b hc
    exact ⟨r, hr, Reachable.call v r c hv hc hr⟩

/-- The constructed view after `SetRenderOnMouseMove(true)`: its style `4` has
the flag set. -/
theorem RenderOnMouseMove_follows_view_witness :
    ∃ v r, New = some v ∧
      ViewBaseCall.apply v (ViewBaseCall.SetRenderOnMouseMove true) = some r ∧
      Reachable r ∧
      r.GetInteractorStyle = some 4 ∧
      (r.styles 4).Class = StyleClass.RubberBand2D ∧
      (r.styles 4).RenderOnMouseMove = true ∧
      r.GetRenderOnMouseMove = true ∧
      styleFollowsView r :=
  ⟨_, _, rfl, rfl,
   Reachable.call _ _ (ViewBaseCall.SetRenderOnMouseMove true) (Reachable.construct _ rfl)
     trivial rfl,
   rfl, rfl, rfl, rfl,
   (RenderOnMouseMove_follows_view viewWithInteractor true).1 _
     (Reachable.call _ _ (ViewBaseCall.SetRenderOnMouseMove true) (Reachable.construct _ rfl)
       trivial rfl)⟩

end ReachableClaims

end VTK
